import Mathlib

/-!
# ANwCreator: reflective surface construction and the window-context registry

A shallow embedding of `src/Header/ANwCreator.hpp`.

* Pointers and JNI handles are natural numbers, `0` being null.
* The managed runtime is a parameter `Jvm`: for every JNI or NDK call the code
  makes it says what the call returns and whether it raises a runtime exception.
* The effects of the native code are recorded in a `JState`: the pending
  exception flag of the calling thread and the trace of every JNI/NDK call
  issued, oldest first.
* The static map `m_windowContexts` is a `Registry`, passed explicitly.
-/

namespace android

/-- Raw pointers and JNI handles (`JNIEnv*`, `JavaVM*`, `jobject`, `jclass`,
`ANativeWindow*`); `0` is the null pointer. -/
abbrev Ptr := Nat

/-- Class names handed to `FindClass`. -/
inductive JClass
  /-- The class `android/view/SurfaceControl$Builder`. -/
  | SurfaceControlBuilder
  /-- The class `android/view/SurfaceControl$Transaction`. -/
  | SurfaceControlTransaction
  /-- The class `android/util/DisplayMetrics`. -/
  | DisplayMetrics
  /-- The class `android/view/Surface`. -/
  | Surface
  deriving DecidableEq, Repr

/-- The (name, signature) pairs handed to `GetMethodID`; a non-null `jmethodID`
is the method it identifies. -/
inductive JMethod
  /-- Method `getWindowManager` `()Landroid/view/WindowManager;`. -/
  | getWindowManager
  /-- Method `getDefaultDisplay` `()Landroid/view/Display;`. -/
  | getDefaultDisplay
  /-- Constructor `<init>` `()V`. -/
  | init
  /-- Method `getRealMetrics` `(Landroid/util/DisplayMetrics;)V`. -/
  | getRealMetrics
  /-- Method `getRotation` `()I`. -/
  | getRotation
  /-- Method `getRefreshRate` `()F`. -/
  | getRefreshRate
  /-- Method `setName` of the builder. -/
  | setName
  /-- Method `setParent` of the builder. -/
  | setParent
  /-- Method `setBufferSize` `(II)` of the builder. -/
  | setBufferSize
  /-- Method `setFlags` `(II)` of the builder. -/
  | setFlags
  /-- Method `build` `()Landroid/view/SurfaceControl;`. -/
  | build
  /-- Method `setAlpha` of the transaction. -/
  | setAlpha
  /-- Method `setLayer` of the transaction. -/
  | setLayer
  /-- Method `show` of the transaction. -/
  | show_
  /-- Method `hide` of the transaction. -/
  | hide
  /-- Method `remove` of the transaction. -/
  | remove
  /-- Method `apply` `()V` of the transaction. -/
  | apply
  /-- Method `getWindow` `()Landroid/view/Window;`. -/
  | getWindow
  /-- Method `getDecorView` `()Landroid/view/View;`. -/
  | getDecorView
  /-- Method `getViewRootImpl` `()Landroid/view/ViewRootImpl;`. -/
  | getViewRootImpl
  /-- Method `getSurfaceControl` `()Landroid/view/SurfaceControl;`. -/
  | getSurfaceControl
  /-- Constructor `<init>` `(Landroid/view/SurfaceControl;)V` of `Surface`. -/
  | initFromSurfaceControl
  deriving DecidableEq, Repr

/-- The `int` fields handed to `GetFieldID`. -/
inductive JField
  /-- Field `widthPixels` `I`. -/
  | widthPixels
  /-- Field `heightPixels` `I`. -/
  | heightPixels
  deriving DecidableEq, Repr

/-- An argument of a reflective call. A `float` is carried as its IEEE-754 bit
pattern: the code only passes floats through, it never computes with them. -/
inductive JValue
  | obj (p : Ptr)
  | int (i : Int)
  | float (bits : Nat)
  deriving DecidableEq, Repr

/-- Bit pattern of `1.0f`. -/
def float_1_0 : Nat := 0x3F800000

/-- Bit pattern of `60.0f`. -/
def float_60_0 : Nat := 0x42700000

/-- The enum `types::SurfaceControlFlags`. -/
inductive SurfaceControlFlags
  | eHidden
  | eSkipScreenshot
  | eSecure
  | eNonPremultiplied
  | eOpaque
  | eNoColorFill
  deriving DecidableEq, Repr

/-- The underlying `uint32_t` of a `SurfaceControlFlags` value. -/
def SurfaceControlFlags.toNat : SurfaceControlFlags → Nat
  | .eHidden => 0x00000004
  | .eSkipScreenshot => 0x00000040
  | .eSecure => 0x00000080
  | .eNonPremultiplied => 0x00000100
  | .eOpaque => 0x00000400
  | .eNoColorFill => 0x00004000

/-- One JNI or NDK call issued by the native code, with its arguments
(`NewGlobalRef` also carries the reference it returned). -/
inductive Event
  | AttachCurrentThread (vm : Ptr)
  | ExceptionCheck
  | ExceptionDescribe
  | ExceptionClear
  | DeleteLocalRef (obj : Ptr)
  | NewGlobalRef (obj : Ptr) (ref : Ptr)
  | DeleteGlobalRef (ref : Ptr)
  | GetObjectClass (obj : Ptr)
  | FindClass (c : JClass)
  | GetMethodID (cls : Ptr) (m : JMethod)
  | GetFieldID (cls : Ptr) (f : JField)
  | NewStringUTF (s : String)
  | NewObject (cls : Ptr) (ctor : Option JMethod) (args : List JValue)
  | CallObjectMethod (obj : Ptr) (m : Option JMethod) (args : List JValue)
  | CallVoidMethod (obj : Ptr) (m : Option JMethod) (args : List JValue)
  | CallIntMethod (obj : Ptr) (m : Option JMethod)
  | CallFloatMethod (obj : Ptr) (m : Option JMethod)
  | GetIntField (obj : Ptr) (f : Option JField)
  | ANativeWindow_fromSurface (env : Ptr) (surface : Ptr)
  | ANativeWindow_release (window : Ptr)
  deriving DecidableEq, Repr

/-- The managed runtime and the NDK as the native code sees them: what every
call returns, and which calls raise a runtime exception. -/
structure Jvm where
  /-- The `JNIEnv*` that `vm->AttachCurrentThread(&env, nullptr)` stores (`0`: none). -/
  attachCurrentThread : Ptr → Ptr
  findClass : JClass → Ptr
  getObjectClass : Ptr → Ptr
  /-- Whether `GetMethodID(cls, name, sig)` finds the method. -/
  hasMethod : Ptr → JMethod → Bool
  /-- Whether `GetFieldID(cls, name, sig)` finds the field. -/
  hasField : Ptr → JField → Bool
  newStringUTF : String → Ptr
  newObject : Ptr → Option JMethod → List JValue → Ptr
  callObjectMethod : Ptr → Option JMethod → List JValue → Ptr
  callIntMethod : Ptr → Option JMethod → Int
  callFloatMethod : Ptr → Option JMethod → Nat
  getIntField : Ptr → Option JField → Int
  newGlobalRef : Ptr → Ptr
  /-- Result of `ANativeWindow_fromSurface(env, surface)`. -/
  fromSurface : Ptr → Ptr → Ptr
  /-- Whether the call leaves a runtime exception pending. -/
  throws : Event → Bool

/-- What the native code has done to the runtime so far. -/
structure JState where
  /-- A runtime exception is pending on the calling thread. -/
  pending : Bool
  /-- Every JNI/NDK call issued, oldest first. -/
  trace : List Event
  deriving DecidableEq, Repr

/-- A value together with the state after computing it. -/
structure Ret (α : Type) where
  val : α
  st : JState

/-- Record a call that cannot raise (reference bookkeeping, `GetObjectClass`,
field reads, attach, NDK calls). -/
def JState.log (s : JState) (ev : Event) : JState :=
  { s with trace := s.trace ++ [ev] }

/-- Record a call that may raise: lookups, object construction and method
invocations. -/
def JState.risky (j : Jvm) (s : JState) (ev : Event) : JState :=
  { pending := s.pending || j.throws ev, trace := s.trace ++ [ev] }

/-! ## JNI primitives -/

namespace JNIEnv

def GetObjectClass (j : Jvm) (obj : Ptr) (s : JState) : Ret Ptr :=
  ⟨j.getObjectClass obj, s.log (.GetObjectClass obj)⟩

def FindClass (j : Jvm) (c : JClass) (s : JState) : Ret Ptr :=
  ⟨j.findClass c, s.risky j (.FindClass c)⟩

def GetMethodID (j : Jvm) (cls : Ptr) (m : JMethod) (s : JState) : Ret (Option JMethod) :=
  ⟨if j.hasMethod cls m then some m else none, s.risky j (.GetMethodID cls m)⟩

def GetFieldID (j : Jvm) (cls : Ptr) (f : JField) (s : JState) : Ret (Option JField) :=
  ⟨if j.hasField cls f then some f else none, s.risky j (.GetFieldID cls f)⟩

def NewStringUTF (j : Jvm) (str : String) (s : JState) : Ret Ptr :=
  ⟨j.newStringUTF str, s.risky j (.NewStringUTF str)⟩

def NewObject (j : Jvm) (cls : Ptr) (ctor : Option JMethod) (args : List JValue)
    (s : JState) : Ret Ptr :=
  ⟨j.newObject cls ctor args, s.risky j (.NewObject cls ctor args)⟩

def CallObjectMethod (j : Jvm) (obj : Ptr) (m : Option JMethod) (args : List JValue)
    (s : JState) : Ret Ptr :=
  ⟨j.callObjectMethod obj m args, s.risky j (.CallObjectMethod obj m args)⟩

def CallVoidMethod (j : Jvm) (obj : Ptr) (m : Option JMethod) (args : List JValue)
    (s : JState) : JState :=
  s.risky j (.CallVoidMethod obj m args)

def CallIntMethod (j : Jvm) (obj : Ptr) (m : Option JMethod) (s : JState) : Ret Int :=
  ⟨j.callIntMethod obj m, s.risky j (.CallIntMethod obj m)⟩

def CallFloatMethod (j : Jvm) (obj : Ptr) (m : Option JMethod) (s : JState) : Ret Nat :=
  ⟨j.callFloatMethod obj m, s.risky j (.CallFloatMethod obj m)⟩

def GetIntField (j : Jvm) (obj : Ptr) (f : Option JField) (s : JState) : Ret Int :=
  ⟨j.getIntField obj f, s.log (.GetIntField obj f)⟩

def DeleteLocalRef (obj : Ptr) (s : JState) : JState :=
  s.log (.DeleteLocalRef obj)

end JNIEnv

/-- The call `ANativeWindow_fromSurface(env, surface)`. -/
def ANativeWindow_fromSurface (j : Jvm) (env surface : Ptr) (s : JState) : Ret Ptr :=
  ⟨j.fromSurface env surface, s.log (.ANativeWindow_fromSurface env surface)⟩

/-- The call `ANativeWindow_release(window)`. -/
def ANativeWindow_release (window : Ptr) (s : JState) : JState :=
  s.log (.ANativeWindow_release window)

/-! ## namespace `detail::jni` -/

namespace jni

/-- The struct `JNIEnvironment`. -/
structure JNIEnvironment where
  env : Ptr
  vm : Ptr
  deriving DecidableEq, Repr

/-- Constructor `JNIEnvironment(JavaVM*)`: attach when the vm is non-null. -/
def JNIEnvironment.ctor (j : Jvm) (javaVM : Ptr) (s : JState) : Ret JNIEnvironment :=
  if javaVM ≠ 0 then
    ⟨⟨j.attachCurrentThread javaVM, javaVM⟩, s.log (.AttachCurrentThread javaVM)⟩
  else ⟨⟨0, javaVM⟩, s⟩

def JNIEnvironment.IsValid (self : JNIEnvironment) : Bool :=
  decide (self.env ≠ 0)

/-- Member `CheckException`: false when there is no env or nothing is pending,
otherwise describe and clear the exception and return true. -/
def JNIEnvironment.CheckException (self : JNIEnvironment) (s : JState) : Ret Bool :=
  if self.env = 0 then ⟨false, s⟩
  else if s.pending = false then ⟨false, s.log .ExceptionCheck⟩
  else ⟨true, { pending := false,
                trace := s.trace ++ [.ExceptionCheck, .ExceptionDescribe, .ExceptionClear] }⟩

/-- Destructor of a `LocalRef(env, obj)`. -/
def LocalRef.dtor (env obj : Ptr) (s : JState) : JState :=
  if env ≠ 0 ∧ obj ≠ 0 then JNIEnv.DeleteLocalRef obj s else s

/-- Destructors of the `LocalRef`s of a scope, in the order they run. -/
def LocalRef.dtors (env : Ptr) (objs : List Ptr) (s : JState) : JState :=
  objs.foldl (fun st o => LocalRef.dtor env o st) s

/-- The struct `GlobalRef`. -/
structure GlobalRef where
  env : Ptr
  obj : Ptr
  deriving DecidableEq, Repr

/-- Constructor `GlobalRef(JNIEnv*, jobject)`. -/
def GlobalRef.ctor (j : Jvm) (e o : Ptr) (s : JState) : Ret GlobalRef :=
  if e ≠ 0 ∧ o ≠ 0 then
    ⟨⟨e, j.newGlobalRef o⟩, s.log (.NewGlobalRef o (j.newGlobalRef o))⟩
  else ⟨⟨e, 0⟩, s⟩

def GlobalRef.Release (self : GlobalRef) (s : JState) : Ret GlobalRef :=
  if self.env ≠ 0 ∧ self.obj ≠ 0 then
    ⟨{ self with obj := 0 }, s.log (.DeleteGlobalRef self.obj)⟩
  else ⟨self, s⟩

/-- Destructor `~GlobalRef`. -/
def GlobalRef.dtor (self : GlobalRef) (s : JState) : JState :=
  (self.Release s).st

def GlobalRef.get (self : GlobalRef) : Ptr := self.obj

def GlobalRef.IsValid (self : GlobalRef) : Bool :=
  decide (self.obj ≠ 0)

/-- The call `reset()` of a `std::unique_ptr<GlobalRef>`: destroy the pointee. -/
def resetGlobalRef (p : Option GlobalRef) (s : JState) : JState :=
  match p with
  | none => s
  | some g => g.dtor s

end jni

/-- The fields of `ANativeActivity` the code reads. An `ANativeActivity*` is an
`Option ANativeActivity`, `none` being the null pointer. -/
structure ANativeActivity where
  vm : Ptr
  clazz : Ptr
  deriving DecidableEq, Repr

/-! ## namespace `detail::framework` -/

namespace framework

open jni

/-- The struct `framework::DisplayInfo`; `DisplayInfo info{}` is all zero. -/
structure DisplayInfo where
  width : Int := 0
  height : Int := 0
  /-- The `DisplayRotation` value, as its underlying `int32_t`. -/
  rotation : Int := 0
  /-- Bit pattern of the `float`. -/
  refreshRate : Nat := 0
  deriving DecidableEq, Repr

/-- The function `Display::GetDisplayInfo(JNIEnv*, ANativeActivity*)`. -/
def Display.GetDisplayInfo (j : Jvm) (env : Ptr) (activity : Option ANativeActivity)
    (s : JState) : Ret DisplayInfo :=
  match activity with
  | none => ⟨{}, s⟩
  | some act =>
  if env = 0 ∨ act.clazz = 0 then ⟨{}, s⟩ else
  let activityCls := JNIEnv.GetObjectClass j act.clazz s
  if activityCls.val = 0 then ⟨{}, LocalRef.dtors env [activityCls.val] activityCls.st⟩ else
  let getWindowManager := JNIEnv.GetMethodID j activityCls.val .getWindowManager activityCls.st
  if getWindowManager.val = none then
    ⟨{}, LocalRef.dtors env [activityCls.val] getWindowManager.st⟩ else
  let windowManager :=
    JNIEnv.CallObjectMethod j act.clazz getWindowManager.val [] getWindowManager.st
  let chk1 : Ret Bool :=
    if windowManager.val = 0 then ⟨true, windowManager.st⟩
    else (JNIEnvironment.ctor j act.vm windowManager.st).val.CheckException
           (JNIEnvironment.ctor j act.vm windowManager.st).st
  if chk1.val then
    ⟨{}, LocalRef.dtors env [windowManager.val, activityCls.val] chk1.st⟩ else
  let windowManagerCls := JNIEnv.GetObjectClass j windowManager.val chk1.st
  let getDefaultDisplay :=
    JNIEnv.GetMethodID j windowManagerCls.val .getDefaultDisplay windowManagerCls.st
  if getDefaultDisplay.val = none then
    ⟨{}, LocalRef.dtors env [windowManagerCls.val, windowManager.val, activityCls.val]
          getDefaultDisplay.st⟩ else
  let display :=
    JNIEnv.CallObjectMethod j windowManager.val getDefaultDisplay.val [] getDefaultDisplay.st
  let chk2 : Ret Bool :=
    if display.val = 0 then ⟨true, display.st⟩
    else (JNIEnvironment.ctor j act.vm display.st).val.CheckException
           (JNIEnvironment.ctor j act.vm display.st).st
  if chk2.val then
    ⟨{}, LocalRef.dtors env
          [display.val, windowManagerCls.val, windowManager.val, activityCls.val] chk2.st⟩ else
  let displayMetricsCls := JNIEnv.FindClass j .DisplayMetrics chk2.st
  let displayMetricsCtor := JNIEnv.GetMethodID j displayMetricsCls.val .init displayMetricsCls.st
  let displayMetrics :=
    JNIEnv.NewObject j displayMetricsCls.val displayMetricsCtor.val [] displayMetricsCtor.st
  let displayCls := JNIEnv.GetObjectClass j display.val displayMetrics.st
  let getRealMetrics := JNIEnv.GetMethodID j displayCls.val .getRealMetrics displayCls.st
  let s1 := JNIEnv.CallVoidMethod j display.val getRealMetrics.val [.obj displayMetrics.val]
    getRealMetrics.st
  let widthPixelsField := JNIEnv.GetFieldID j displayMetricsCls.val .widthPixels s1
  let heightPixelsField :=
    JNIEnv.GetFieldID j displayMetricsCls.val .heightPixels widthPixelsField.st
  let width := JNIEnv.GetIntField j displayMetrics.val widthPixelsField.val heightPixelsField.st
  let height := JNIEnv.GetIntField j displayMetrics.val heightPixelsField.val width.st
  let getRotation := JNIEnv.GetMethodID j displayCls.val .getRotation height.st
  let rotation := JNIEnv.CallIntMethod j display.val getRotation.val getRotation.st
  let getRefreshRate := JNIEnv.GetMethodID j displayCls.val .getRefreshRate rotation.st
  let refreshRate : Ret Nat :=
    if getRefreshRate.val = none then ⟨0, getRefreshRate.st⟩
    else JNIEnv.CallFloatMethod j display.val getRefreshRate.val getRefreshRate.st
  ⟨{ width := width.val, height := height.val, rotation := rotation.val,
     refreshRate := refreshRate.val },
   LocalRef.dtors env
     [displayCls.val, displayMetrics.val, displayMetricsCls.val, display.val,
      windowManagerCls.val, windowManager.val, activityCls.val] refreshRate.st⟩

/-- The conversion `static_cast<jint>` of a `uint32_t`. -/
def toJint (u : Nat) : Int :=
  if u % 2 ^ 32 < 2 ^ 31 then (u % 2 ^ 32 : Nat) else ((u % 2 ^ 32 : Nat) : Int) - 2 ^ 32

namespace SurfaceControl

/-- The struct `SurfaceControl::Builder`. -/
structure Builder where
  env : Ptr
  builder : Ptr
  builderClass : Ptr
  deriving DecidableEq, Repr

namespace Builder

/-- Constructor `Builder(JNIEnv*)`. -/
def ctor (j : Jvm) (e : Ptr) (s : JState) : Ret Builder :=
  let cls := JNIEnv.FindClass j .SurfaceControlBuilder s
  if cls.val = 0 then ⟨⟨e, 0, 0⟩, cls.st⟩ else
  let ctorId := JNIEnv.GetMethodID j cls.val .init cls.st
  let obj := JNIEnv.NewObject j cls.val ctorId.val [] ctorId.st
  ⟨⟨e, obj.val, cls.val⟩, obj.st⟩

/-- Destructor `~Builder`. -/
def dtor (self : Builder) (s : JState) : JState :=
  let s1 := if self.env ≠ 0 ∧ self.builder ≠ 0 then JNIEnv.DeleteLocalRef self.builder s else s
  if self.env ≠ 0 ∧ self.builderClass ≠ 0 then JNIEnv.DeleteLocalRef self.builderClass s1 else s1

def SetName (j : Jvm) (self : Builder) (name : String) (s : JState) : Ret Builder :=
  if self.builder = 0 then ⟨self, s⟩ else
  let setName := JNIEnv.GetMethodID j self.builderClass .setName s
  if setName.val = none then ⟨self, setName.st⟩ else
  let jName := JNIEnv.NewStringUTF j name setName.st
  let r := JNIEnv.CallObjectMethod j self.builder setName.val [.obj jName.val] jName.st
  ⟨{ self with builder := r.val }, LocalRef.dtor self.env jName.val r.st⟩

def SetParent (j : Jvm) (self : Builder) (parent : Ptr) (s : JState) : Ret Builder :=
  if self.builder = 0 ∨ parent = 0 then ⟨self, s⟩ else
  let setParent := JNIEnv.GetMethodID j self.builderClass .setParent s
  if setParent.val = none then ⟨self, setParent.st⟩ else
  let r := JNIEnv.CallObjectMethod j self.builder setParent.val [.obj parent] setParent.st
  ⟨{ self with builder := r.val }, r.st⟩

def SetBufferSize (j : Jvm) (self : Builder) (width height : Int) (s : JState) : Ret Builder :=
  if self.builder = 0 then ⟨self, s⟩ else
  let setBufferSize := JNIEnv.GetMethodID j self.builderClass .setBufferSize s
  if setBufferSize.val = none then ⟨self, setBufferSize.st⟩ else
  let r := JNIEnv.CallObjectMethod j self.builder setBufferSize.val [.int width, .int height]
    setBufferSize.st
  ⟨{ self with builder := r.val }, r.st⟩

def SetFlags (j : Jvm) (self : Builder) (flags mask : Nat) (s : JState) : Ret Builder :=
  if self.builder = 0 then ⟨self, s⟩ else
  let setFlags := JNIEnv.GetMethodID j self.builderClass .setFlags s
  if setFlags.val = none then ⟨self, setFlags.st⟩ else
  let r := JNIEnv.CallObjectMethod j self.builder setFlags.val
    [.int (toJint flags), .int (toJint mask)] setFlags.st
  ⟨{ self with builder := r.val }, r.st⟩

/-- The constant `FLAG_SKIP_SCREENSHOT` of `SetSkipScreenshot`. -/
def FLAG_SKIP_SCREENSHOT : Nat := 0x40

def SetSkipScreenshot (j : Jvm) (self : Builder) (skip : Bool) (s : JState) : Ret Builder :=
  if skip then SetFlags j self FLAG_SKIP_SCREENSHOT FLAG_SKIP_SCREENSHOT s else ⟨self, s⟩

def Build (j : Jvm) (self : Builder) (s : JState) : Ret Ptr :=
  if self.builder = 0 then ⟨0, s⟩ else
  let buildMethod := JNIEnv.GetMethodID j self.builderClass .build s
  if buildMethod.val = none then ⟨0, buildMethod.st⟩ else
  JNIEnv.CallObjectMethod j self.builder buildMethod.val [] buildMethod.st

def IsValid (self : Builder) : Bool := decide (self.builder ≠ 0)

end Builder

/-- The class `SurfaceControl::Transaction`. -/
structure Transaction where
  env : Ptr
  transaction : Ptr
  transactionClass : Ptr
  deriving DecidableEq, Repr

namespace Transaction

/-- Constructor `Transaction(JNIEnv*)`. -/
def ctor (j : Jvm) (e : Ptr) (s : JState) : Ret Transaction :=
  let cls := JNIEnv.FindClass j .SurfaceControlTransaction s
  if cls.val = 0 then ⟨⟨e, 0, 0⟩, cls.st⟩ else
  let ctorId := JNIEnv.GetMethodID j cls.val .init cls.st
  let obj := JNIEnv.NewObject j cls.val ctorId.val [] ctorId.st
  ⟨⟨e, obj.val, cls.val⟩, obj.st⟩

/-- Destructor `~Transaction`. -/
def dtor (self : Transaction) (s : JState) : JState :=
  let s1 :=
    if self.env ≠ 0 ∧ self.transaction ≠ 0 then JNIEnv.DeleteLocalRef self.transaction s else s
  if self.env ≠ 0 ∧ self.transactionClass ≠ 0 then
    JNIEnv.DeleteLocalRef self.transactionClass s1
  else s1

def SetAlpha (j : Jvm) (self : Transaction) (surfaceControl : Ptr) (alpha : Nat) (s : JState) :
    Ret Transaction :=
  if self.transaction = 0 ∨ surfaceControl = 0 then ⟨self, s⟩ else
  let mid := JNIEnv.GetMethodID j self.transactionClass .setAlpha s
  if mid.val = none then ⟨self, mid.st⟩ else
  let r := JNIEnv.CallObjectMethod j self.transaction mid.val [.obj surfaceControl, .float alpha] mid.st
  ⟨{ self with transaction := r.val }, r.st⟩

def SetLayer (j : Jvm) (self : Transaction) (surfaceControl : Ptr) (z : Int) (s : JState) :
    Ret Transaction :=
  if self.transaction = 0 ∨ surfaceControl = 0 then ⟨self, s⟩ else
  let mid := JNIEnv.GetMethodID j self.transactionClass .setLayer s
  if mid.val = none then ⟨self, mid.st⟩ else
  let r := JNIEnv.CallObjectMethod j self.transaction mid.val [.obj surfaceControl, .int z] mid.st
  ⟨{ self with transaction := r.val }, r.st⟩

def Show (j : Jvm) (self : Transaction) (surfaceControl : Ptr) (s : JState) :
    Ret Transaction :=
  if self.transaction = 0 ∨ surfaceControl = 0 then ⟨self, s⟩ else
  let mid := JNIEnv.GetMethodID j self.transactionClass .show_ s
  if mid.val = none then ⟨self, mid.st⟩ else
  let r := JNIEnv.CallObjectMethod j self.transaction mid.val [.obj surfaceControl] mid.st
  ⟨{ self with transaction := r.val }, r.st⟩

def Hide (j : Jvm) (self : Transaction) (surfaceControl : Ptr) (s : JState) :
    Ret Transaction :=
  if self.transaction = 0 ∨ surfaceControl = 0 then ⟨self, s⟩ else
  let mid := JNIEnv.GetMethodID j self.transactionClass .hide s
  if mid.val = none then ⟨self, mid.st⟩ else
  let r := JNIEnv.CallObjectMethod j self.transaction mid.val [.obj surfaceControl] mid.st
  ⟨{ self with transaction := r.val }, r.st⟩

def Remove (j : Jvm) (self : Transaction) (surfaceControl : Ptr) (s : JState) :
    Ret Transaction :=
  if self.transaction = 0 ∨ surfaceControl = 0 then ⟨self, s⟩ else
  let mid := JNIEnv.GetMethodID j self.transactionClass .remove s
  if mid.val = none then ⟨self, mid.st⟩ else
  let r := JNIEnv.CallObjectMethod j self.transaction mid.val [.obj surfaceControl] mid.st
  ⟨{ self with transaction := r.val }, r.st⟩

def Apply (j : Jvm) (self : Transaction) (s : JState) : JState :=
  if self.transaction = 0 then s else
  let apply := JNIEnv.GetMethodID j self.transactionClass .apply s
  if apply.val = none then apply.st
  else JNIEnv.CallVoidMethod j self.transaction apply.val [] apply.st

def IsValid (self : Transaction) : Bool := decide (self.transaction ≠ 0)

end Transaction

/-- The function `SurfaceControl::GetParentSurfaceControl(JNIEnv*, ANativeActivity*)`. -/
def GetParentSurfaceControl (j : Jvm) (env : Ptr) (activity : Option ANativeActivity)
    (s : JState) : Ret Ptr :=
  match activity with
  | none => ⟨0, s⟩
  | some act =>
  if env = 0 ∨ act.clazz = 0 then ⟨0, s⟩ else
  let activityCls := JNIEnv.GetObjectClass j act.clazz s
  let getWindow := JNIEnv.GetMethodID j activityCls.val .getWindow activityCls.st
  if getWindow.val = none then ⟨0, LocalRef.dtors env [activityCls.val] getWindow.st⟩ else
  let window := JNIEnv.CallObjectMethod j act.clazz getWindow.val [] getWindow.st
  if window.val = 0 then ⟨0, LocalRef.dtors env [window.val, activityCls.val] window.st⟩ else
  let windowCls := JNIEnv.GetObjectClass j window.val window.st
  let getDecorView := JNIEnv.GetMethodID j windowCls.val .getDecorView windowCls.st
  if getDecorView.val = none then
    ⟨0, LocalRef.dtors env [windowCls.val, window.val, activityCls.val] getDecorView.st⟩ else
  let decorView := JNIEnv.CallObjectMethod j window.val getDecorView.val [] getDecorView.st
  if decorView.val = 0 then
    ⟨0, LocalRef.dtors env [decorView.val, windowCls.val, window.val, activityCls.val]
          decorView.st⟩ else
  let viewCls := JNIEnv.GetObjectClass j decorView.val decorView.st
  let getViewRootImpl := JNIEnv.GetMethodID j viewCls.val .getViewRootImpl viewCls.st
  if getViewRootImpl.val = none then
    ⟨0, LocalRef.dtors env
          [viewCls.val, decorView.val, windowCls.val, window.val, activityCls.val]
          getViewRootImpl.st⟩ else
  let viewRootImpl :=
    JNIEnv.CallObjectMethod j decorView.val getViewRootImpl.val [] getViewRootImpl.st
  if viewRootImpl.val = 0 then
    ⟨0, LocalRef.dtors env
          [viewRootImpl.val, viewCls.val, decorView.val, windowCls.val, window.val,
           activityCls.val] viewRootImpl.st⟩ else
  let viewRootImplCls := JNIEnv.GetObjectClass j viewRootImpl.val viewRootImpl.st
  let getSurfaceControl :=
    JNIEnv.GetMethodID j viewRootImplCls.val .getSurfaceControl viewRootImplCls.st
  if getSurfaceControl.val = none then
    ⟨0, LocalRef.dtors env
          [viewRootImplCls.val, viewRootImpl.val, viewCls.val, decorView.val, windowCls.val,
           window.val, activityCls.val] getSurfaceControl.st⟩ else
  let r := JNIEnv.CallObjectMethod j viewRootImpl.val getSurfaceControl.val [] getSurfaceControl.st
  ⟨r.val, LocalRef.dtors env
            [viewRootImplCls.val, viewRootImpl.val, viewCls.val, decorView.val, windowCls.val,
             window.val, activityCls.val] r.st⟩

end SurfaceControl

/-- The function `Surface::CreateFromSurfaceControl(JNIEnv*, jobject)`. -/
def Surface.CreateFromSurfaceControl (j : Jvm) (env : Ptr) (surfaceControl : Ptr) (s : JState) :
    Ret Ptr :=
  if env = 0 ∨ surfaceControl = 0 then ⟨0, s⟩ else
  let surfaceCls := JNIEnv.FindClass j .Surface s
  if surfaceCls.val = 0 then ⟨0, LocalRef.dtors env [surfaceCls.val] surfaceCls.st⟩ else
  let ctorId := JNIEnv.GetMethodID j surfaceCls.val .initFromSurfaceControl surfaceCls.st
  if ctorId.val = none then ⟨0, LocalRef.dtors env [surfaceCls.val] ctorId.st⟩ else
  let r := JNIEnv.NewObject j surfaceCls.val ctorId.val [.obj surfaceControl] ctorId.st
  ⟨r.val, LocalRef.dtors env [surfaceCls.val] r.st⟩

end framework

/-! ## namespace `detail`: the window context -/

namespace detail

open jni

/-- The struct `WindowContext`; a `std::unique_ptr<GlobalRef>` is an
`Option GlobalRef`. -/
structure WindowContext where
  surfaceControl : Option GlobalRef := none
  surface : Option GlobalRef := none
  nativeWindow : Ptr := 0
  width : Int := 0
  height : Int := 0
  skipScreenshot : Bool := false
  deriving DecidableEq, Repr

def WindowContext.Release (self : WindowContext) (s : JState) : Ret WindowContext :=
  let s1 := if self.nativeWindow ≠ 0 then ANativeWindow_release self.nativeWindow s else s
  let s2 := resetGlobalRef self.surface s1
  let s3 := resetGlobalRef self.surfaceControl s2
  ⟨{ self with nativeWindow := 0, surface := none, surfaceControl := none }, s3⟩

/-- Destructor `~WindowContext`: `Release()`, after which the members, both
reset already, are destroyed. -/
def WindowContext.dtor (self : WindowContext) (s : JState) : JState :=
  (self.Release s).st

end detail

/-! ## The registry `m_windowContexts` -/

/-- The map `std::unordered_map<ANativeWindow*, std::unique_ptr<WindowContext>>`:
at most one context per key. -/
abbrev Registry := Ptr → Option detail.WindowContext

namespace Registry

/-- The empty map. -/
def empty : Registry := fun _ => none

/-- The lookup `find(key)`: `none` is `end()`. -/
def find (r : Registry) (key : Ptr) : Option detail.WindowContext := r key

/-- The member `count(key)`. -/
def count (r : Registry) (key : Ptr) : Nat :=
  match r key with
  | none => 0
  | some _ => 1

/-- The member `emplace(key, value)`: nothing is inserted when the key is present. -/
def emplace (r : Registry) (key : Ptr) (value : detail.WindowContext) : Registry :=
  match r key with
  | none => fun k => if k = key then some value else r k
  | some _ => r

/-- The member `erase(it)` for the iterator at `key`. -/
def erase (r : Registry) (key : Ptr) : Registry :=
  fun k => if k = key then none else r k

end Registry

/-! ## class `ANwCreator` -/

/-- The result of a facade call: the value returned, the registry and the
runtime state after the call. -/
structure Out (α : Type) where
  val : α
  registry : Registry
  st : JState

/-- The result of a read-only facade query: the value and the registry after it. -/
structure Query (α : Type) where
  val : α
  registry : Registry

namespace ANwCreator

open jni framework detail

/-- The struct `ANwCreator::DisplayInfo` with its default constructor. -/
structure DisplayInfo where
  theta : Int := 0
  width : Int := 0
  height : Int := 0
  /-- Bit pattern of the `float`; the constructor sets `60.0f`. -/
  refreshRate : Nat := float_60_0
  deriving DecidableEq, Repr

/-- The struct `ANwCreator::CreateOptions` with its default constructor. -/
structure CreateOptions where
  name : String := ""
  width : Int := -1
  height : Int := -1
  skipScreenshot : Bool := false
  deriving DecidableEq, Repr

/-- An `int32_t` result: the value wrapped into the signed 32-bit range. -/
def wrapInt32 (x : Int) : Int := (x + 2 ^ 31) % 2 ^ 32 - 2 ^ 31

def GetDisplayInfo (j : Jvm) (s : JState) (activity : Option ANativeActivity) :
    Ret DisplayInfo :=
  match activity with
  | none => ⟨{}, s⟩
  | some act =>
  if act.vm = 0 ∨ act.clazz = 0 then ⟨{}, s⟩ else
  let jniEnv := JNIEnvironment.ctor j act.vm s
  if jniEnv.val.IsValid = false then ⟨{}, jniEnv.st⟩ else
  let displayInfo := Display.GetDisplayInfo j jniEnv.val.env (some act) jniEnv.st
  ⟨{ width := displayInfo.val.width, height := displayInfo.val.height,
     theta := wrapInt32 (90 * displayInfo.val.rotation),
     refreshRate := displayInfo.val.refreshRate }, displayInfo.st⟩

/-! ### `Create`, block by block

Each definition below is one block of `Create` for a non-null activity `act`,
run from the state `s` in which `Create` was entered; `Create` itself chains
them with the early returns of the source. -/

/-- Line 650: `JNIEnvironment jniEnv(activity->vm)`. -/
def Create.jniEnv (j : Jvm) (act : ANativeActivity) (s : JState) : Ret JNIEnvironment :=
  JNIEnvironment.ctor j act.vm s

/-- Line 659: the display query, made when a requested dimension is not positive. -/
def Create.displayInfo (j : Jvm) (act : ANativeActivity) (s : JState) :
    Ret framework.DisplayInfo :=
  Display.GetDisplayInfo j (Create.jniEnv j act s).val.env (some act) (Create.jniEnv j act s).st

/-- Lines 654-662: the resolved `(width, height)`. -/
def Create.size (j : Jvm) (act : ANativeActivity) (options : CreateOptions) (s : JState) :
    Ret (Int × Int) :=
  if options.width ≤ 0 ∨ options.height ≤ 0 then
    ⟨((Create.displayInfo j act s).val.width, (Create.displayInfo j act s).val.height),
     (Create.displayInfo j act s).st⟩
  else ⟨(options.width, options.height), (Create.jniEnv j act s).st⟩

/-- Line 664: `parentSC = GetParentSurfaceControl(jniEnv, activity)`. -/
def Create.parentSC (j : Jvm) (act : ANativeActivity) (options : CreateOptions) (s : JState) :
    Ret Ptr :=
  SurfaceControl.GetParentSurfaceControl j (Create.jniEnv j act s).val.env (some act)
    (Create.size j act options s).st

/-- Line 665: the condition `!parentSC && jniEnv.CheckException(..)`. -/
def Create.parentCheck (j : Jvm) (act : ANativeActivity) (options : CreateOptions)
    (s : JState) : Ret Bool :=
  if (Create.parentSC j act options s).val = 0 then
    (Create.jniEnv j act s).val.CheckException (Create.parentSC j act options s).st
  else ⟨false, (Create.parentSC j act options s).st⟩

/-- Line 668: `Builder builder(jniEnv)`. -/
def Create.builder0 (j : Jvm) (act : ANativeActivity) (options : CreateOptions) (s : JState) :
    Ret SurfaceControl.Builder :=
  SurfaceControl.Builder.ctor j (Create.jniEnv j act s).val.env
    (Create.parentCheck j act options s).st

/-- Lines 672-675: the builder after `SetName`, `SetBufferSize`,
`SetSkipScreenshot` and, for a non-null parent, `SetParent`. -/
def Create.builder (j : Jvm) (act : ANativeActivity) (options : CreateOptions) (s : JState) :
    Ret SurfaceControl.Builder :=
  let b0 := Create.builder0 j act options s
  let b1 := SurfaceControl.Builder.SetName j b0.val options.name b0.st
  let b2 := SurfaceControl.Builder.SetBufferSize j b1.val (Create.size j act options s).val.1
    (Create.size j act options s).val.2 b1.st
  let b3 := SurfaceControl.Builder.SetSkipScreenshot j b2.val options.skipScreenshot b2.st
  if (Create.parentSC j act options s).val ≠ 0 then
    SurfaceControl.Builder.SetParent j b3.val (Create.parentSC j act options s).val b3.st
  else b3

/-- Line 677: `localSurfaceControl = builder.Build()`. -/
def Create.localSurfaceControl (j : Jvm) (act : ANativeActivity) (options : CreateOptions)
    (s : JState) : Ret Ptr :=
  SurfaceControl.Builder.Build j (Create.builder j act options s).val
    (Create.builder j act options s).st

/-- Line 678: the condition `!localSurfaceControl || jniEnv.CheckException(..)`. -/
def Create.buildCheck (j : Jvm) (act : ANativeActivity) (options : CreateOptions)
    (s : JState) : Ret Bool :=
  if (Create.localSurfaceControl j act options s).val = 0 then
    ⟨true, (Create.localSurfaceControl j act options s).st⟩
  else (Create.jniEnv j act s).val.CheckException (Create.localSurfaceControl j act options s).st

/-- The statement `if (parentSC) jniEnv->DeleteLocalRef(parentSC)` of every exit
past the build. -/
def Create.deleteParent (parentSC : Ptr) (s : JState) : JState :=
  if parentSC ≠ 0 then JNIEnv.DeleteLocalRef parentSC s else s

/-- Line 689: `context->surfaceControl = make_unique<GlobalRef>(jniEnv, localSurfaceControl)`. -/
def Create.surfaceControl (j : Jvm) (act : ANativeActivity) (options : CreateOptions)
    (s : JState) : Ret GlobalRef :=
  GlobalRef.ctor j (Create.jniEnv j act s).val.env (Create.localSurfaceControl j act options s).val
    (Create.buildCheck j act options s).st

/-- Line 691: `Transaction transaction(jniEnv)`. -/
def Create.transaction0 (j : Jvm) (act : ANativeActivity) (options : CreateOptions)
    (s : JState) : Ret SurfaceControl.Transaction :=
  SurfaceControl.Transaction.ctor j (Create.jniEnv j act s).val.env
    (Create.surfaceControl j act options s).st

/-- The layer passed to `SetLayer`. -/
def Create.layer : Int := 0x7FFFFFFE

/-- Lines 694-696: the chained mutators `SetAlpha(..).SetLayer(..).Show(..)` of the
initial transaction, as the block runs them on a valid transaction; `val` is the
transaction on which `Apply()` is then called. -/
def Create.mutators (j : Jvm) (act : ANativeActivity) (options : CreateOptions)
    (s : JState) : Ret SurfaceControl.Transaction :=
  let t := Create.transaction0 j act options s
  let sc := (Create.surfaceControl j act options s).val.get
  let a := SurfaceControl.Transaction.SetAlpha j t.val sc float_1_0 t.st
  let l := SurfaceControl.Transaction.SetLayer j a.val sc Create.layer a.st
  SurfaceControl.Transaction.Show j l.val sc l.st

/-- Lines 690-699: the block of the initial transaction, its destructor included. -/
def Create.transaction (j : Jvm) (act : ANativeActivity) (options : CreateOptions)
    (s : JState) : JState :=
  let t := Create.transaction0 j act options s
  let sc := (Create.surfaceControl j act options s).val.get
  if t.val.IsValid then
    let a := SurfaceControl.Transaction.SetAlpha j t.val sc float_1_0 t.st
    let l := SurfaceControl.Transaction.SetLayer j a.val sc Create.layer a.st
    let sh := SurfaceControl.Transaction.Show j l.val sc l.st
    SurfaceControl.Transaction.dtor sh.val (SurfaceControl.Transaction.Apply j sh.val sh.st)
  else SurfaceControl.Transaction.dtor t.val t.st

/-- Line 701: `localSurface = Surface::CreateFromSurfaceControl(..)`. -/
def Create.localSurface (j : Jvm) (act : ANativeActivity) (options : CreateOptions)
    (s : JState) : Ret Ptr :=
  Surface.CreateFromSurfaceControl j (Create.jniEnv j act s).val.env
    (Create.surfaceControl j act options s).val.get (Create.transaction j act options s)

/-- Line 703: the condition `!localSurface || jniEnv.CheckException(..)`. -/
def Create.surfaceCheck (j : Jvm) (act : ANativeActivity) (options : CreateOptions)
    (s : JState) : Ret Bool :=
  if (Create.localSurface j act options s).val = 0 then
    ⟨true, (Create.localSurface j act options s).st⟩
  else (Create.jniEnv j act s).val.CheckException (Create.localSurface j act options s).st

/-- Line 711: `context->surface = make_unique<GlobalRef>(jniEnv, localSurface)`. -/
def Create.surface (j : Jvm) (act : ANativeActivity) (options : CreateOptions)
    (s : JState) : Ret GlobalRef :=
  GlobalRef.ctor j (Create.jniEnv j act s).val.env (Create.localSurface j act options s).val
    (Create.surfaceCheck j act options s).st

/-- Line 713: `context->nativeWindow = ANativeWindow_fromSurface(..)`. -/
def Create.nativeWindow (j : Jvm) (act : ANativeActivity) (options : CreateOptions)
    (s : JState) : Ret Ptr :=
  ANativeWindow_fromSurface j (Create.jniEnv j act s).val.env
    (Create.surface j act options s).val.get (Create.surface j act options s).st

/-- Lines 685-689: the context while only the surface control is held. -/
def Create.context0 (j : Jvm) (act : ANativeActivity) (options : CreateOptions)
    (s : JState) : WindowContext :=
  { width := (Create.size j act options s).val.1
    height := (Create.size j act options s).val.2
    skipScreenshot := options.skipScreenshot
    surfaceControl := some (Create.surfaceControl j act options s).val }

/-- Lines 685-713: the context once the surface and the native window are set. -/
def Create.context (j : Jvm) (act : ANativeActivity) (options : CreateOptions)
    (s : JState) : WindowContext :=
  { Create.context0 j act options s with
    surface := some (Create.surface j act options s).val
    nativeWindow := (Create.nativeWindow j act options s).val }

/-- The function `ANwCreator::Create`. When the key is already present
`emplace` leaves its argument alone (libc++), so the context is still owned by
the local `unique_ptr` and destroyed on return. -/
def Create (j : Jvm) (reg : Registry) (s : JState) (activity : Option ANativeActivity)
    (options : CreateOptions) : Out Ptr :=
  match activity with
  | none => ⟨0, reg, s⟩
  | some act =>
  if act.vm = 0 ∨ act.clazz = 0 then ⟨0, reg, s⟩ else
  if (Create.jniEnv j act s).val.IsValid = false then ⟨0, reg, (Create.jniEnv j act s).st⟩ else
  let parentSC := (Create.parentSC j act options s).val
  if (Create.parentCheck j act options s).val then
    ⟨0, reg, (Create.parentCheck j act options s).st⟩ else
  if (Create.builder0 j act options s).val.IsValid = false then
    ⟨0, reg, SurfaceControl.Builder.dtor (Create.builder0 j act options s).val
               (Create.builder0 j act options s).st⟩ else
  let builder := (Create.builder j act options s).val
  let localSurfaceControl := (Create.localSurfaceControl j act options s).val
  if (Create.buildCheck j act options s).val then
    ⟨0, reg, SurfaceControl.Builder.dtor builder
               (Create.deleteParent parentSC (Create.buildCheck j act options s).st)⟩ else
  let localSurface := (Create.localSurface j act options s).val
  if (Create.surfaceCheck j act options s).val then
    ⟨0, reg, SurfaceControl.Builder.dtor builder
               ((Create.context0 j act options s).dtor
                 (Create.deleteParent parentSC
                   (JNIEnv.DeleteLocalRef localSurfaceControl
                     (Create.surfaceCheck j act options s).st)))⟩ else
  let context := Create.context j act options s
  if context.nativeWindow = 0 then
    ⟨0, reg, SurfaceControl.Builder.dtor builder
               (context.dtor
                 (Create.deleteParent parentSC
                   (JNIEnv.DeleteLocalRef localSurfaceControl
                     (JNIEnv.DeleteLocalRef localSurface
                       (Create.nativeWindow j act options s).st))))⟩ else
  let result := context.nativeWindow
  let s1 := Create.deleteParent parentSC
    (JNIEnv.DeleteLocalRef localSurfaceControl
      (JNIEnv.DeleteLocalRef localSurface (Create.nativeWindow j act options s).st))
  let s2 := if reg.find result = none then s1 else context.dtor s1
  ⟨result, reg.emplace result context, SurfaceControl.Builder.dtor builder s2⟩

/-- Lines 749-758 of `Destroy`: the teardown transaction for a registered context. -/
def Destroy.teardown (j : Jvm) (activity : Option ANativeActivity) (context : WindowContext)
    (s : JState) : JState :=
  match activity, context.surfaceControl with
  | some act, some sc =>
    if act.vm ≠ 0 ∧ sc.IsValid then
      let jniEnv := JNIEnvironment.ctor j act.vm s
      if jniEnv.val.IsValid then
        let t := SurfaceControl.Transaction.ctor j jniEnv.val.env jniEnv.st
        if t.val.IsValid then
          let r := SurfaceControl.Transaction.Remove j t.val sc.get t.st
          SurfaceControl.Transaction.dtor r.val (SurfaceControl.Transaction.Apply j r.val r.st)
        else SurfaceControl.Transaction.dtor t.val t.st
      else jniEnv.st
    else s
  | _, _ => s

/-- The function `ANwCreator::Destroy`. The call `erase(it)` destroys the
context it removes, which runs `~WindowContext` on the released context. -/
def Destroy (j : Jvm) (reg : Registry) (s : JState) (activity : Option ANativeActivity)
    (nativeWindow : Ptr) : Out Unit :=
  if nativeWindow = 0 then ⟨(), reg, s⟩ else
  match reg.find nativeWindow with
  | none => ⟨(), reg, ANativeWindow_release nativeWindow s⟩
  | some context =>
    let released := context.Release (Destroy.teardown j activity context s)
    ⟨(), reg.erase nativeWindow, released.val.dtor released.st⟩

def IsValid (reg : Registry) (nativeWindow : Ptr) : Query Bool :=
  ⟨decide (nativeWindow ≠ 0) && decide (reg.count nativeWindow > 0), reg⟩

/-- The result of `GetWindowSize`: the returned flag and the integers behind
`outWidth` and `outHeight` after the call. -/
structure SizeResult where
  found : Bool
  outWidth : Option Int
  outHeight : Option Int
  deriving DecidableEq, Repr

/-- The function `ANwCreator::GetWindowSize`. An out-pointer is an `Option Int`:
`none` for a null pointer, `some v` for a pointer to an `int32_t` holding `v`. -/
def GetWindowSize (reg : Registry) (nativeWindow : Ptr) (outWidth outHeight : Option Int) :
    Query SizeResult :=
  match reg.find nativeWindow with
  | none => ⟨⟨false, outWidth, outHeight⟩, reg⟩
  | some context =>
    ⟨⟨true, outWidth.map (fun _ => context.width), outHeight.map (fun _ => context.height)⟩, reg⟩

end ANwCreator

end android

/-! ## `src/Header/Memory.hpp` -/

namespace Memory

/-- The struct `ModuleData`; addresses and sizes are `w`-bit words. -/
structure ModuleData where
  Name : String
  BaseAddr : Nat
  EndAddr : Nat
  Size : Nat
  deriving DecidableEq, Repr

/-- The fields of a program header the callback reads. -/
structure Phdr where
  p_type : Nat
  p_vaddr : Nat
  p_memsz : Nat
  deriving DecidableEq, Repr

/-- The constant `PT_LOAD` of `<elf.h>`. -/
def PT_LOAD : Nat := 1

/-- The struct `dl_phdr_info`: `dlpi_name` is `none` for a null pointer, and
`dlpi_phdr` lists the `dlpi_phnum` program headers. -/
structure dl_phdr_info where
  dlpi_addr : Nat
  dlpi_name : Option String
  dlpi_phdr : List Phdr
  deriving DecidableEq, Repr

/-- The value `UINTPTR_MAX` for a word of `w` bits. -/
def UINTPTR_MAX (w : Nat) : Nat := 2 ^ w - 1

/-- The part of a path after its last `/`, the whole path when it has none:
`base = strrchr(name, '/'); modname = base ? base + 1 : name`. -/
def modname (name : List Char) : List Char :=
  name.foldl (fun acc c => if c = '/' then [] else acc ++ [c]) []

/-- One iteration of the loop over the program headers, on the pair `(s, e)`. -/
def scanStep (w : Nat) (dlpi_addr : Nat) (se : Nat × Nat) (p : Phdr) : Nat × Nat :=
  if p.p_type ≠ PT_LOAD then se else
  let a := (dlpi_addr + p.p_vaddr) % 2 ^ w
  let b := (a + p.p_memsz) % 2 ^ w
  (if a < se.1 then a else se.1, if b > se.2 then b else se.2)

/-- The loop of `FindModuleCallback`, from `s = UINTPTR_MAX, e = 0`. -/
def scan (w : Nat) (info : dl_phdr_info) : Nat × Nat :=
  info.dlpi_phdr.foldl (scanStep w info.dlpi_addr) (UINTPTR_MAX w, 0)

/-- The function `FindModuleCallback(info, size, userdata)` on `w`-bit words:
the value returned and the `ModuleData` behind `userdata` after the call. In
`if (e > s) d->BaseAddr = s; d->EndAddr = e; d->Size = e - s;` the condition
governs the first assignment only. -/
def FindModuleCallback (w : Nat) (info : Option dl_phdr_info) (userdata : Option ModuleData) :
    Int × Option ModuleData :=
  match userdata, info with
  | some d, some i =>
    match i.dlpi_name with
    | none => (0, some d)
    | some name =>
      if name.toList = [] then (0, some d) else
      if d.Name.toList ≠ modname name.toList then (0, some d) else
      let se := scan w i
      let d1 := if se.2 > se.1 then { d with BaseAddr := se.1 } else d
      (1, some { d1 with EndAddr := se.2, Size := (se.2 + 2 ^ w - se.1) % 2 ^ w })
  | _, _ => (0, userdata)

/-- The start addresses of the `PT_LOAD` segments. -/
def loadStarts (w : Nat) (info : dl_phdr_info) : List Nat :=
  (info.dlpi_phdr.filter fun p => p.p_type = PT_LOAD).map
    fun p => (info.dlpi_addr + p.p_vaddr) % 2 ^ w

/-- The end addresses of the `PT_LOAD` segments. -/
def loadEnds (w : Nat) (info : dl_phdr_info) : List Nat :=
  (info.dlpi_phdr.filter fun p => p.p_type = PT_LOAD).map
    fun p => ((info.dlpi_addr + p.p_vaddr) % 2 ^ w + p.p_memsz) % 2 ^ w

/-- A record of `libUE4.so` with no `PT_LOAD` segment. -/
def Examples.noLoad : dl_phdr_info :=
  { dlpi_addr := 0x7000000000, dlpi_name := some "/data/app/lib/arm64/libUE4.so",
    dlpi_phdr := [⟨2, 0x100, 0x200⟩] }

/-- The `ModuleData` that `FindModuleBase("libUE4.so")` starts from. -/
def Examples.data : ModuleData := ⟨"libUE4.so", 0, 0, 0⟩

end Memory

namespace android

/-! ## Observations on traces -/

/-- The durable reference an event acquires: a `NewGlobalRef` that returned non-null. -/
def Event.acquires : Event → Option Ptr
  | .NewGlobalRef _ ref => if ref ≠ 0 then some ref else none
  | _ => none

/-- The durable reference an event releases. -/
def Event.releases : Event → Option Ptr
  | .DeleteGlobalRef ref => some ref
  | _ => none

/-- The durable references acquired along a trace, in order. -/
def acquired (t : List Event) : List Ptr := t.filterMap Event.acquires

/-- The durable references released along a trace, in order. -/
def released (t : List Event) : List Ptr := t.filterMap Event.releases

/-- The number of live durable references after a trace. -/
def liveGlobalRefs (t : List Event) : Int := (acquired t).length - (released t).length

/-- The native windows released along a trace, in order. -/
def nativeReleases (t : List Event) : List Ptr :=
  t.filterMap fun ev =>
    match ev with
    | .ANativeWindow_release w => some w
    | _ => none

/-- Resource bookkeeping: durable references and native windows. -/
def Event.isResourceOp : Event → Bool
  | .NewGlobalRef _ _ => true
  | .DeleteGlobalRef _ => true
  | .ANativeWindow_fromSurface _ _ => true
  | .ANativeWindow_release _ => true
  | _ => false

/-- The method an event looks up or invokes. -/
def Event.method : Event → Option JMethod
  | .GetMethodID _ m => some m
  | .NewObject _ m _ => m
  | .CallObjectMethod _ m _ => m
  | .CallVoidMethod _ m _ => m
  | .CallIntMethod _ m => m
  | .CallFloatMethod _ m => m
  | _ => none

/-- The event is no resource bookkeeping and touches no method outside `ms`. -/
def Event.uses (ms : List JMethod) (ev : Event) : Bool :=
  !ev.isResourceOp &&
    match ev.method with
    | none => true
    | some m => decide (m ∈ ms)

/-- The methods `Display::GetDisplayInfo` touches. -/
def framework.Display.methods : List JMethod :=
  [.getWindowManager, .getDefaultDisplay, .init, .getRealMetrics, .getRotation, .getRefreshRate]

/-- The methods `GetParentSurfaceControl` touches. -/
def framework.SurfaceControl.parentMethods : List JMethod :=
  [.getWindow, .getDecorView, .getViewRootImpl, .getSurfaceControl]

/-! ## Concrete runtimes and states, for evaluating the model -/

namespace Examples

/-- A runtime on which every lookup and call succeeds, no call raises, and the
default display is 1080x2400. -/
def jvm : Jvm where
  attachCurrentThread := fun _ => 11
  findClass := fun c =>
    match c with
    | .SurfaceControlBuilder => 21
    | .SurfaceControlTransaction => 22
    | .DisplayMetrics => 23
    | .Surface => 24
  getObjectClass := fun o => o + 100
  hasMethod := fun _ _ => true
  hasField := fun _ _ => true
  newStringUTF := fun _ => 31
  newObject := fun cls _ _ => cls + 200
  callObjectMethod := fun obj m _ =>
    match m with
    | some .getWindowManager => 41
    | some .getDefaultDisplay => 42
    | some .getWindow => 43
    | some .getDecorView => 44
    | some .getViewRootImpl => 45
    | some .getSurfaceControl => 46
    | some .build => 50
    | _ => obj
  callIntMethod := fun _ _ => 0
  callFloatMethod := fun _ _ => float_60_0
  getIntField := fun _ f =>
    match f with
    | some .widthPixels => 1080
    | some .heightPixels => 2400
    | none => 0
  newGlobalRef := fun o => o + 1000
  fromSurface := fun _ surface => surface + 1
  throws := fun _ => false

/-- The host window is not attached yet: `getWindow` returns null. -/
def jvmNoWindow : Jvm :=
  { jvm with
    callObjectMethod := fun obj m args =>
      match m with
      | some .getWindow => 0
      | _ => jvm.callObjectMethod obj m args }

/-- The call of `getWindow` raises and returns null. -/
def jvmWindowThrows : Jvm :=
  { jvmNoWindow with
    throws := fun ev =>
      match ev with
      | .CallObjectMethod _ (some .getWindow) _ => true
      | _ => false }

/-- The native-handle extraction fails. -/
def jvmNoNativeWindow : Jvm :=
  { jvm with fromSurface := fun _ _ => 0 }

/-- The display class has no `getRefreshRate`. -/
def jvmNoRefreshRate : Jvm :=
  { jvm with hasMethod := fun _ m => decide (m ≠ .getRefreshRate) }

/-- The call of `build` raises and returns null. -/
def jvmBuildThrows : Jvm :=
  { jvm with
    callObjectMethod := fun obj m args =>
      match m with
      | some .build => 0
      | _ => jvm.callObjectMethod obj m args
    throws := fun ev =>
      match ev with
      | .CallObjectMethod _ (some .build) _ => true
      | _ => false }

/-- The call `NewGlobalRef` fails. -/
def jvmNoGlobalRef : Jvm :=
  { jvm with newGlobalRef := fun _ => 0 }

/-- The display is rotated by three quarter turns. -/
def jvmRotated : Jvm :=
  { jvm with callIntMethod := fun _ _ => 3 }

/-- A valid activity. -/
def activity : ANativeActivity := ⟨1, 2⟩

/-- The state of a thread that has issued no call. -/
def s0 : JState := ⟨false, []⟩

/-- A context as `Create` registers it, for the native window `5`. -/
def context5 : detail.WindowContext :=
  { surfaceControl := some ⟨11, 1050⟩, surface := some ⟨11, 1224⟩, nativeWindow := 5,
    width := 1080, height := 2400, skipScreenshot := true }

/-- A registry holding the single window `5`. -/
def registry5 : Registry := Registry.empty.emplace 5 context5

/-- The options of the overlay scenario. -/
def overlayOptions : ANwCreator.CreateOptions :=
  { name := "Overlay", width := -1, height := -1, skipScreenshot := true }

end Examples

/-! ## Predicates on runs of `Create` -/

namespace ANwCreator

open jni framework detail

/-- The initial checks and the fallible steps of `Create` all pass. -/
def Create.Passes (j : Jvm) (act : ANativeActivity) (options : CreateOptions) (s : JState) : Prop :=
  act.vm ≠ 0 ∧ act.clazz ≠ 0 ∧ (Create.jniEnv j act s).val.IsValid = true ∧
  (Create.parentCheck j act options s).val = false ∧
  (Create.builder0 j act options s).val.IsValid = true ∧
  (Create.buildCheck j act options s).val = false ∧
  (Create.surfaceCheck j act options s).val = false ∧
  (Create.nativeWindow j act options s).val ≠ 0

/-- The methods `Create` touches before it configures the builder. -/
def Create.methods0 : List JMethod :=
  Display.methods ++ SurfaceControl.parentMethods ++ [.init]

/-- The methods `Create` touches outside the builder configuration and the
initial transaction. -/
def Create.methods1 : List JMethod :=
  Create.methods0 ++ [.build, .initFromSurfaceControl]

end ANwCreator

/-- The durable reference a `GlobalRef` holds, if any. -/
def jni.GlobalRef.held (g : jni.GlobalRef) : List Ptr :=
  if g.env ≠ 0 ∧ g.obj ≠ 0 then [g.obj] else []

/-- The durable references a `std::unique_ptr<GlobalRef>` holds. -/
def jni.heldBy (p : Option jni.GlobalRef) : List Ptr :=
  match p with
  | none => []
  | some g => g.held

/-- From `s` to `t` the trace grew by events that acquire the durable references
`a` and release the durable references `r`, in those orders. -/
def Delta (s t : JState) (a r : List Ptr) : Prop :=
  ∃ evs, t.trace = s.trace ++ evs ∧ acquired evs = a ∧ released evs = r

/-- Every method the code looks up. -/
def JMethod.all : List JMethod :=
  [.getWindowManager, .getDefaultDisplay, .init, .getRealMetrics, .getRotation, .getRefreshRate,
   .setName, .setParent, .setBufferSize, .setFlags, .build, .setAlpha, .setLayer, .show_, .hide,
   .remove, .apply, .getWindow, .getDecorView, .getViewRootImpl, .getSurfaceControl,
   .initFromSurfaceControl]

/-- The methods other than those of `bad`. -/
def JMethod.allBut (bad : List JMethod) : List JMethod :=
  JMethod.all.filter fun m => decide (m ∉ bad)

/-- The event neither looks up nor invokes a method of `bad`. -/
def Event.avoids (bad : List JMethod) (ev : Event) : Prop :=
  ∀ m ∈ bad, ev.method ≠ some m

/-- Every invocation of the builder's `setBufferSize` passes `(w, h)`. -/
def Event.sizedAs (w h : Int) (ev : Event) : Prop :=
  ∀ obj args, ev = .CallObjectMethod obj (some .setBufferSize) args → args = [.int w, .int h]

/-- The methods of the initial transaction and of the teardown transaction. -/
def framework.SurfaceControl.Transaction.mutators : List JMethod :=
  [.setAlpha, .setLayer, .show_, .hide, .remove, .apply]

/-- No resource bookkeeping. -/
abbrev ANwCreator.Quiet : Event → Prop := fun ev => ev.isResourceOp = false

/-- The method and arguments of an invocation event. -/
def Event.invocation : Event → Option (JMethod × List JValue)
  | .CallObjectMethod _ (some m) args => some (m, args)
  | .CallVoidMethod _ (some m) args => some (m, args)
  | _ => none

/-- The invocations along a trace, in order. -/
def invocations (t : List Event) : List (JMethod × List JValue) :=
  t.filterMap Event.invocation

/-- From `s` to `t` the trace grew by events whose invocations are `l`. -/
def Calls (s t : JState) (l : List (JMethod × List JValue)) : Prop :=
  ∃ evs, t.trace = s.trace ++ evs ∧ invocations evs = l

/-- What one chainable mutator invokes: nothing, or the method once, the latter
exactly when `full` holds. -/
def Calls.Once (s t : JState) (m : JMethod) (args : List JValue) (full : Prop) : Prop :=
  ∃ l, Calls s t l ∧ l.Sublist [(m, args)] ∧ (l = [(m, args)] ↔ full)

/-- The initial transaction of `Create` on the surface control `sc`: full
opacity, the layer below the maximum, visibility, then `apply`. -/
def ANwCreator.Create.initialTransaction (sc : Ptr) : List (JMethod × List JValue) :=
  [(.setAlpha, [.obj sc, .float float_1_0]), (.setLayer, [.obj sc, .int 0x7FFFFFFE]),
   (.show_, [.obj sc]), (.apply, [])]

/-- The registries reachable from the empty one by `Create` and `Destroy`
calls, each on any runtime, from any runtime state and with any arguments. -/
inductive ANwCreator.Reachable : Registry → Prop
  | empty : ANwCreator.Reachable Registry.empty
  | create (j : Jvm) (s : JState) (activity : Option ANativeActivity)
      (options : ANwCreator.CreateOptions) {r : Registry} :
      ANwCreator.Reachable r → ANwCreator.Reachable (ANwCreator.Create j r s activity options).registry
  | destroy (j : Jvm) (s : JState) (activity : Option ANativeActivity) (h : Ptr) {r : Registry} :
      ANwCreator.Reachable r → ANwCreator.Reachable (ANwCreator.Destroy j r s activity h).registry

/-- The registry invariant: null is no key, and every entry is filed under its
own native window and holds both `unique_ptr<GlobalRef>` wrappers. -/
def Registry.WellFormed (r : Registry) : Prop :=
  r.find 0 = none ∧
  ∀ k ctx, r.find k = some ctx →
    ctx.nativeWindow = k ∧ ctx.surfaceControl.isSome = true ∧ ctx.surface.isSome = true

/-- From `s` to `t` the trace only grew, by events that satisfy `P`. -/
def Emits (P : Event → Prop) (s t : JState) : Prop :=
  ∃ evs, t.trace = s.trace ++ evs ∧ ∀ ev ∈ evs, P ev

/-! ## Lemmas on traces -/

set_option linter.unusedTactic false
set_option linter.unreachableTactic false

theorem Emits.refl (P : Event → Prop) (s : JState) : Emits P s s :=
  ⟨[], by simp, by simp⟩

theorem Emits.trans {P : Event → Prop} {s t u : JState} (h1 : Emits P s t) (h2 : Emits P t u) :
    Emits P s u := by
  obtain ⟨e1, ht, hp1⟩ := h1
  obtain ⟨e2, hu, hp2⟩ := h2
  refine ⟨e1 ++ e2, by rw [hu, ht, List.append_assoc], ?_⟩
  intro ev hev
  rcases List.mem_append.mp hev with h | h
  · exact hp1 ev h
  · exact hp2 ev h

theorem Emits.mono {P Q : Event → Prop} {s t : JState} (h : Emits P s t)
    (hPQ : ∀ ev, P ev → Q ev) : Emits Q s t := by
  obtain ⟨evs, ht, hp⟩ := h
  exact ⟨evs, ht, fun ev hev => hPQ ev (hp ev hev)⟩

theorem Emits.log {P : Event → Prop} {s t : JState} {ev : Event} (hev : P ev)
    (h : Emits P s t) : Emits P s (t.log ev) := by
  refine h.trans ⟨[ev], rfl, ?_⟩
  intro e he
  rw [List.mem_singleton] at he
  exact he ▸ hev

theorem Emits.risky {P : Event → Prop} {s t : JState} {ev : Event} (j : Jvm) (hev : P ev)
    (h : Emits P s t) : Emits P s (t.risky j ev) := by
  refine h.trans ⟨[ev], rfl, ?_⟩
  intro e he
  rw [List.mem_singleton] at he
  exact he ▸ hev

theorem Event.uses_mono {ms ms' : List JMethod} (h : ms ⊆ ms') (ev : Event)
    (hev : ev.uses ms = true) : ev.uses ms' = true := by
  unfold Event.uses at *
  cases hm : ev.method with
  | none => simpa [hm] using hev
  | some m =>
    simp only [hm, Bool.and_eq_true, decide_eq_true_eq] at hev ⊢
    exact ⟨hev.1, h hev.2⟩

theorem Event.uses_quiet {ms : List JMethod} (ev : Event) (hev : ev.uses ms = true) :
    ev.isResourceOp = false := by
  unfold Event.uses at hev
  simp only [Bool.and_eq_true, Bool.not_eq_true'] at hev
  exact hev.1

theorem Event.uses_of_method_none {ms : List JMethod} (ev : Event) (hq : ev.isResourceOp = false)
    (hm : ev.method = none) : ev.uses ms = true := by
  simp [Event.uses, hq, hm]

namespace JNIEnv

variable {P : Event → Prop} {ms : List JMethod}

theorem GetMethodID_val_mem {j : Jvm} {cls : Ptr} {m m' : JMethod} {s : JState}
    (h : (GetMethodID j cls m s).val = some m') : m' = m := by
  unfold GetMethodID at h
  simp only at h
  split_ifs at h
  exact (Option.some.inj h).symm

theorem GetObjectClass_emits (hP : ∀ ev, ev.uses ms = true → P ev) (j : Jvm) (obj : Ptr)
    {s t : JState} (h : Emits P s t) : Emits P s (GetObjectClass j obj t).st :=
  Emits.log (hP _ (Event.uses_of_method_none _ rfl rfl)) h

theorem FindClass_emits (hP : ∀ ev, ev.uses ms = true → P ev) (j : Jvm) (c : JClass)
    {s t : JState} (h : Emits P s t) : Emits P s (FindClass j c t).st :=
  Emits.risky j (hP _ (Event.uses_of_method_none _ rfl rfl)) h

theorem GetFieldID_emits (hP : ∀ ev, ev.uses ms = true → P ev) (j : Jvm) (cls : Ptr) (f : JField)
    {s t : JState} (h : Emits P s t) : Emits P s (GetFieldID j cls f t).st :=
  Emits.risky j (hP _ (Event.uses_of_method_none _ rfl rfl)) h

theorem NewStringUTF_emits (hP : ∀ ev, ev.uses ms = true → P ev) (j : Jvm) (str : String)
    {s t : JState} (h : Emits P s t) : Emits P s (NewStringUTF j str t).st :=
  Emits.risky j (hP _ (Event.uses_of_method_none _ rfl rfl)) h

theorem GetIntField_emits (hP : ∀ ev, ev.uses ms = true → P ev) (j : Jvm) (obj : Ptr)
    (f : Option JField) {s t : JState} (h : Emits P s t) : Emits P s (GetIntField j obj f t).st :=
  Emits.log (hP _ (Event.uses_of_method_none _ rfl rfl)) h

theorem DeleteLocalRef_emits (hP : ∀ ev, ev.uses ms = true → P ev) (obj : Ptr)
    {s t : JState} (h : Emits P s t) : Emits P s (DeleteLocalRef obj t) :=
  Emits.log (hP _ (Event.uses_of_method_none _ rfl rfl)) h

theorem GetMethodID_emits (hP : ∀ ev, ev.uses ms = true → P ev) {m : JMethod} (hm : m ∈ ms)
    (j : Jvm) (cls : Ptr) {s t : JState} (h : Emits P s t) :
    Emits P s (GetMethodID j cls m t).st :=
  Emits.risky j (hP _ (by simp [Event.uses, Event.method, Event.isResourceOp, hm])) h

theorem uses_of_mid {mid : Option JMethod} (hmid : ∀ m, mid = some m → m ∈ ms) (ev : Event)
    (hq : ev.isResourceOp = false) (hm : ev.method = mid) : ev.uses ms = true := by
  cases mid with
  | none => exact Event.uses_of_method_none ev hq hm
  | some m => simp [Event.uses, hq, hm, hmid m rfl]

theorem NewObject_emits (hP : ∀ ev, ev.uses ms = true → P ev) {mid : Option JMethod}
    (hmid : ∀ m, mid = some m → m ∈ ms) (j : Jvm) (cls : Ptr) (args : List JValue)
    {s t : JState} (h : Emits P s t) : Emits P s (NewObject j cls mid args t).st :=
  Emits.risky j (hP _ (uses_of_mid hmid _ rfl rfl)) h

theorem CallObjectMethod_emits (hP : ∀ ev, ev.uses ms = true → P ev) {mid : Option JMethod}
    (hmid : ∀ m, mid = some m → m ∈ ms) (j : Jvm) (obj : Ptr) (args : List JValue)
    {s t : JState} (h : Emits P s t) : Emits P s (CallObjectMethod j obj mid args t).st :=
  Emits.risky j (hP _ (uses_of_mid hmid _ rfl rfl)) h

theorem CallVoidMethod_emits (hP : ∀ ev, ev.uses ms = true → P ev) {mid : Option JMethod}
    (hmid : ∀ m, mid = some m → m ∈ ms) (j : Jvm) (obj : Ptr) (args : List JValue)
    {s t : JState} (h : Emits P s t) : Emits P s (CallVoidMethod j obj mid args t) :=
  Emits.risky j (hP _ (uses_of_mid hmid _ rfl rfl)) h

theorem CallIntMethod_emits (hP : ∀ ev, ev.uses ms = true → P ev) {mid : Option JMethod}
    (hmid : ∀ m, mid = some m → m ∈ ms) (j : Jvm) (obj : Ptr)
    {s t : JState} (h : Emits P s t) : Emits P s (CallIntMethod j obj mid t).st :=
  Emits.risky j (hP _ (uses_of_mid hmid _ rfl rfl)) h

theorem CallFloatMethod_emits (hP : ∀ ev, ev.uses ms = true → P ev) {mid : Option JMethod}
    (hmid : ∀ m, mid = some m → m ∈ ms) (j : Jvm) (obj : Ptr)
    {s t : JState} (h : Emits P s t) : Emits P s (CallFloatMethod j obj mid t).st :=
  Emits.risky j (hP _ (uses_of_mid hmid _ rfl rfl)) h

end JNIEnv

namespace jni

theorem JNIEnvironment.attach_emits {P : Event → Prop} {ms : List JMethod} (hP : ∀ ev, ev.uses ms = true → P ev)
    (j : Jvm) (vm : Ptr) {s t : JState} (h : Emits P s t) :
    Emits P s (JNIEnvironment.ctor j vm t).st := by
  unfold JNIEnvironment.ctor
  split_ifs
  · exact Emits.log (hP _ (by simp [Event.uses, Event.method, Event.isResourceOp])) h
  · exact h

theorem JNIEnvironment.CheckException_emits {P : Event → Prop}
    {ms : List JMethod} (hP : ∀ ev, ev.uses ms = true → P ev) (self : JNIEnvironment) {s t : JState}
    (h : Emits P s t) : Emits P s (self.CheckException t).st := by
  unfold JNIEnvironment.CheckException
  split_ifs
  · exact h
  · exact Emits.log (hP _ (by simp [Event.uses, Event.method, Event.isResourceOp])) h
  · refine h.trans ⟨_, rfl, ?_⟩
    intro ev hev
    refine hP ev ?_
    simp only [List.mem_cons, List.mem_singleton, List.not_mem_nil, or_false] at hev
    rcases hev with h | h | h <;> subst h <;>
      simp [Event.uses, Event.method, Event.isResourceOp]

theorem LocalRef.localRef_dtor_emits {P : Event → Prop} {ms : List JMethod} (hP : ∀ ev, ev.uses ms = true → P ev)
    (env obj : Ptr) {s t : JState} (h : Emits P s t) : Emits P s (LocalRef.dtor env obj t) := by
  unfold LocalRef.dtor JNIEnv.DeleteLocalRef
  split_ifs
  · exact Emits.log (hP _ (by simp [Event.uses, Event.method, Event.isResourceOp])) h
  · exact h

theorem LocalRef.dtors_emits {P : Event → Prop} {ms : List JMethod} (hP : ∀ ev, ev.uses ms = true → P ev)
    (env : Ptr) (objs : List Ptr) {s t : JState} (h : Emits P s t) :
    Emits P s (LocalRef.dtors env objs t) := by
  unfold LocalRef.dtors
  induction objs generalizing t with
  | nil => exact h
  | cons o os ih => exact ih (LocalRef.localRef_dtor_emits hP env o h)

end jni

theorem Emits.ite_st {α : Type} {P : Event → Prop} {s : JState} {c : Prop} [Decidable c]
    {a b : Ret α} (ha : Emits P s a.st) (hb : Emits P s b.st) :
    Emits P s (if c then a else b).st := by
  split_ifs
  · exact ha
  · exact hb

theorem Emits.ite {P : Event → Prop} {s : JState} {c : Prop} [Decidable c]
    {a b : JState} (ha : Emits P s a) (hb : Emits P s b) :
    Emits P s (if c then a else b) := by
  split_ifs
  · exact ha
  · exact hb

namespace framework

open jni

section

attribute [local irreducible] JNIEnv.GetObjectClass JNIEnv.FindClass JNIEnv.GetMethodID
  JNIEnv.GetFieldID JNIEnv.NewStringUTF JNIEnv.NewObject JNIEnv.CallObjectMethod
  JNIEnv.CallVoidMethod JNIEnv.CallIntMethod JNIEnv.CallFloatMethod JNIEnv.GetIntField
  JNIEnv.DeleteLocalRef LocalRef.dtors LocalRef.dtor JNIEnvironment.ctor
  JNIEnvironment.CheckException

theorem Display.GetDisplayInfo_emits {P : Event → Prop} {ms : List JMethod}
    (hms : Display.methods ⊆ ms) (hP : ∀ ev, ev.uses ms = true → P ev)
    (j : Jvm) (env : Ptr) (activity : Option ANativeActivity) {s t : JState} (h : Emits P s t) :
    Emits P s (Display.GetDisplayInfo j env activity t).st := by
  unfold Display.GetDisplayInfo
  split
  · exact h
  · lift_lets
    intros
    split_ifs
    all_goals repeat (first
      | exact h
      | refine LocalRef.dtors_emits hP _ _ ?_
      | refine LocalRef.localRef_dtor_emits hP _ _ ?_
      | refine Emits.ite_st ?_ ?_
      | refine Emits.ite ?_ ?_
      | refine JNIEnvironment.CheckException_emits hP _ ?_
      | refine JNIEnvironment.attach_emits hP _ _ ?_
      | refine JNIEnv.GetObjectClass_emits hP _ _ ?_
      | refine JNIEnv.FindClass_emits hP _ _ ?_
      | refine JNIEnv.GetFieldID_emits hP _ _ _ ?_
      | refine JNIEnv.GetIntField_emits hP _ _ _ ?_
      | refine JNIEnv.NewStringUTF_emits hP _ _ ?_
      | refine JNIEnv.DeleteLocalRef_emits hP _ ?_
      | refine JNIEnv.GetMethodID_emits hP (hms (by simp [Display.methods, SurfaceControl.parentMethods])) _ _ ?_
      | refine JNIEnv.CallObjectMethod_emits hP
          (fun m hm => hms (by rw [JNIEnv.GetMethodID_val_mem hm]; simp [Display.methods, SurfaceControl.parentMethods])) _ _ _ ?_
      | refine JNIEnv.NewObject_emits hP
          (fun m hm => hms (by rw [JNIEnv.GetMethodID_val_mem hm]; simp [Display.methods, SurfaceControl.parentMethods])) _ _ _ ?_
      | refine JNIEnv.CallVoidMethod_emits hP
          (fun m hm => hms (by rw [JNIEnv.GetMethodID_val_mem hm]; simp [Display.methods, SurfaceControl.parentMethods])) _ _ _ ?_
      | refine JNIEnv.CallIntMethod_emits hP
          (fun m hm => hms (by rw [JNIEnv.GetMethodID_val_mem hm]; simp [Display.methods, SurfaceControl.parentMethods])) _ _ ?_
      | refine JNIEnv.CallFloatMethod_emits hP
          (fun m hm => hms (by rw [JNIEnv.GetMethodID_val_mem hm]; simp [Display.methods, SurfaceControl.parentMethods])) _ _ ?_)

theorem SurfaceControl.GetParentSurfaceControl_emits {P : Event → Prop} {ms : List JMethod}
    (hms : SurfaceControl.parentMethods ⊆ ms) (hP : ∀ ev, ev.uses ms = true → P ev)
    (j : Jvm) (env : Ptr) (activity : Option ANativeActivity) {s t : JState} (h : Emits P s t) :
    Emits P s (SurfaceControl.GetParentSurfaceControl j env activity t).st := by
  unfold SurfaceControl.GetParentSurfaceControl
  split
  · exact h
  · lift_lets
    intros
    split_ifs
    all_goals repeat (first
      | exact h
      | refine LocalRef.dtors_emits hP _ _ ?_
      | refine LocalRef.localRef_dtor_emits hP _ _ ?_
      | refine Emits.ite_st ?_ ?_
      | refine Emits.ite ?_ ?_
      | refine JNIEnvironment.CheckException_emits hP _ ?_
      | refine JNIEnvironment.attach_emits hP _ _ ?_
      | refine JNIEnv.GetObjectClass_emits hP _ _ ?_
      | refine JNIEnv.FindClass_emits hP _ _ ?_
      | refine JNIEnv.GetFieldID_emits hP _ _ _ ?_
      | refine JNIEnv.GetIntField_emits hP _ _ _ ?_
      | refine JNIEnv.NewStringUTF_emits hP _ _ ?_
      | refine JNIEnv.DeleteLocalRef_emits hP _ ?_
      | refine JNIEnv.GetMethodID_emits hP (hms (by simp [Display.methods, SurfaceControl.parentMethods])) _ _ ?_
      | refine JNIEnv.CallObjectMethod_emits hP
          (fun m hm => hms (by rw [JNIEnv.GetMethodID_val_mem hm]; simp [Display.methods, SurfaceControl.parentMethods])) _ _ _ ?_
      | refine JNIEnv.NewObject_emits hP
          (fun m hm => hms (by rw [JNIEnv.GetMethodID_val_mem hm]; simp [Display.methods, SurfaceControl.parentMethods])) _ _ _ ?_
      | refine JNIEnv.CallVoidMethod_emits hP
          (fun m hm => hms (by rw [JNIEnv.GetMethodID_val_mem hm]; simp [Display.methods, SurfaceControl.parentMethods])) _ _ _ ?_
      | refine JNIEnv.CallIntMethod_emits hP
          (fun m hm => hms (by rw [JNIEnv.GetMethodID_val_mem hm]; simp [Display.methods, SurfaceControl.parentMethods])) _ _ ?_
      | refine JNIEnv.CallFloatMethod_emits hP
          (fun m hm => hms (by rw [JNIEnv.GetMethodID_val_mem hm]; simp [Display.methods, SurfaceControl.parentMethods])) _ _ ?_)

theorem Surface.CreateFromSurfaceControl_emits {P : Event → Prop} {ms : List JMethod}
    (hms : [.initFromSurfaceControl] ⊆ ms) (hP : ∀ ev, ev.uses ms = true → P ev)
    (j : Jvm) (env surfaceControl : Ptr) {s t : JState} (h : Emits P s t) :
    Emits P s (Surface.CreateFromSurfaceControl j env surfaceControl t).st := by
  unfold Surface.CreateFromSurfaceControl
  lift_lets
  intros
  split_ifs
  all_goals repeat (first
    | exact h
    | refine LocalRef.dtors_emits hP _ _ ?_
    | refine LocalRef.localRef_dtor_emits hP _ _ ?_
    | refine Emits.ite_st ?_ ?_
    | refine Emits.ite ?_ ?_
    | refine JNIEnvironment.CheckException_emits hP _ ?_
    | refine JNIEnvironment.attach_emits hP _ _ ?_
    | refine JNIEnv.GetObjectClass_emits hP _ _ ?_
    | refine JNIEnv.FindClass_emits hP _ _ ?_
    | refine JNIEnv.GetFieldID_emits hP _ _ _ ?_
    | refine JNIEnv.GetIntField_emits hP _ _ _ ?_
    | refine JNIEnv.NewStringUTF_emits hP _ _ ?_
    | refine JNIEnv.DeleteLocalRef_emits hP _ ?_
    | refine JNIEnv.GetMethodID_emits hP (hms (by simp [Display.methods, SurfaceControl.parentMethods])) _ _ ?_
    | refine JNIEnv.CallObjectMethod_emits hP
        (fun m hm => hms (by rw [JNIEnv.GetMethodID_val_mem hm]; simp [Display.methods, SurfaceControl.parentMethods])) _ _ _ ?_
    | refine JNIEnv.NewObject_emits hP
        (fun m hm => hms (by rw [JNIEnv.GetMethodID_val_mem hm]; simp [Display.methods, SurfaceControl.parentMethods])) _ _ _ ?_
    | refine JNIEnv.CallVoidMethod_emits hP
        (fun m hm => hms (by rw [JNIEnv.GetMethodID_val_mem hm]; simp [Display.methods, SurfaceControl.parentMethods])) _ _ _ ?_
    | refine JNIEnv.CallIntMethod_emits hP
        (fun m hm => hms (by rw [JNIEnv.GetMethodID_val_mem hm]; simp [Display.methods, SurfaceControl.parentMethods])) _ _ ?_
    | refine JNIEnv.CallFloatMethod_emits hP
        (fun m hm => hms (by rw [JNIEnv.GetMethodID_val_mem hm]; simp [Display.methods, SurfaceControl.parentMethods])) _ _ ?_)

theorem SurfaceControl.Builder.builder_ctor_emits {P : Event → Prop} {ms : List JMethod}
    (hms : [.init] ⊆ ms) (hP : ∀ ev, ev.uses ms = true → P ev)
    (j : Jvm) (e : Ptr) {s t : JState} (h : Emits P s t) :
    Emits P s (SurfaceControl.Builder.ctor j e t).st := by
  unfold SurfaceControl.Builder.ctor
  lift_lets
  intros
  split_ifs
  all_goals repeat (first
    | exact h
    | refine LocalRef.dtors_emits hP _ _ ?_
    | refine LocalRef.localRef_dtor_emits hP _ _ ?_
    | refine Emits.ite_st ?_ ?_
    | refine Emits.ite ?_ ?_
    | refine JNIEnvironment.CheckException_emits hP _ ?_
    | refine JNIEnvironment.attach_emits hP _ _ ?_
    | refine JNIEnv.GetObjectClass_emits hP _ _ ?_
    | refine JNIEnv.FindClass_emits hP _ _ ?_
    | refine JNIEnv.GetFieldID_emits hP _ _ _ ?_
    | refine JNIEnv.GetIntField_emits hP _ _ _ ?_
    | refine JNIEnv.NewStringUTF_emits hP _ _ ?_
    | refine JNIEnv.DeleteLocalRef_emits hP _ ?_
    | refine JNIEnv.GetMethodID_emits hP (hms (by simp [Display.methods, SurfaceControl.parentMethods])) _ _ ?_
    | refine JNIEnv.CallObjectMethod_emits hP
        (fun m hm => hms (by rw [JNIEnv.GetMethodID_val_mem hm]; simp [Display.methods, SurfaceControl.parentMethods])) _ _ _ ?_
    | refine JNIEnv.NewObject_emits hP
        (fun m hm => hms (by rw [JNIEnv.GetMethodID_val_mem hm]; simp [Display.methods, SurfaceControl.parentMethods])) _ _ _ ?_
    | refine JNIEnv.CallVoidMethod_emits hP
        (fun m hm => hms (by rw [JNIEnv.GetMethodID_val_mem hm]; simp [Display.methods, SurfaceControl.parentMethods])) _ _ _ ?_
    | refine JNIEnv.CallIntMethod_emits hP
        (fun m hm => hms (by rw [JNIEnv.GetMethodID_val_mem hm]; simp [Display.methods, SurfaceControl.parentMethods])) _ _ ?_
    | refine JNIEnv.CallFloatMethod_emits hP
        (fun m hm => hms (by rw [JNIEnv.GetMethodID_val_mem hm]; simp [Display.methods, SurfaceControl.parentMethods])) _ _ ?_)

theorem SurfaceControl.Builder.builder_dtor_emits {P : Event → Prop} {ms : List JMethod}
    (hP : ∀ ev, ev.uses ms = true → P ev)
    (self : SurfaceControl.Builder) {s t : JState} (h : Emits P s t) :
    Emits P s (SurfaceControl.Builder.dtor self t) := by
  unfold SurfaceControl.Builder.dtor
  lift_lets
  intros
  split_ifs
  all_goals repeat (first
    | exact h
    | refine LocalRef.dtors_emits hP _ _ ?_
    | refine LocalRef.localRef_dtor_emits hP _ _ ?_
    | refine Emits.ite_st ?_ ?_
    | refine Emits.ite ?_ ?_
    | refine JNIEnvironment.CheckException_emits hP _ ?_
    | refine JNIEnvironment.attach_emits hP _ _ ?_
    | refine JNIEnv.GetObjectClass_emits hP _ _ ?_
    | refine JNIEnv.FindClass_emits hP _ _ ?_
    | refine JNIEnv.GetFieldID_emits hP _ _ _ ?_
    | refine JNIEnv.GetIntField_emits hP _ _ _ ?_
    | refine JNIEnv.NewStringUTF_emits hP _ _ ?_
    | refine JNIEnv.DeleteLocalRef_emits hP _ ?_
    | refine JNIEnv.GetMethodID_emits hP (hms (by simp [Display.methods, SurfaceControl.parentMethods])) _ _ ?_
    | refine JNIEnv.CallObjectMethod_emits hP
        (fun m hm => hms (by rw [JNIEnv.GetMethodID_val_mem hm]; simp [Display.methods, SurfaceControl.parentMethods])) _ _ _ ?_
    | refine JNIEnv.NewObject_emits hP
        (fun m hm => hms (by rw [JNIEnv.GetMethodID_val_mem hm]; simp [Display.methods, SurfaceControl.parentMethods])) _ _ _ ?_
    | refine JNIEnv.CallVoidMethod_emits hP
        (fun m hm => hms (by rw [JNIEnv.GetMethodID_val_mem hm]; simp [Display.methods, SurfaceControl.parentMethods])) _ _ _ ?_
    | refine JNIEnv.CallIntMethod_emits hP
        (fun m hm => hms (by rw [JNIEnv.GetMethodID_val_mem hm]; simp [Display.methods, SurfaceControl.parentMethods])) _ _ ?_
    | refine JNIEnv.CallFloatMethod_emits hP
        (fun m hm => hms (by rw [JNIEnv.GetMethodID_val_mem hm]; simp [Display.methods, SurfaceControl.parentMethods])) _ _ ?_)

theorem SurfaceControl.Builder.SetName_emits {P : Event → Prop} {ms : List JMethod}
    (hms : [.setName] ⊆ ms) (hP : ∀ ev, ev.uses ms = true → P ev)
    (j : Jvm) (self : SurfaceControl.Builder) (name : String) {s t : JState} (h : Emits P s t) :
    Emits P s (SurfaceControl.Builder.SetName j self name t).st := by
  unfold SurfaceControl.Builder.SetName
  lift_lets
  intros
  split_ifs
  all_goals repeat (first
    | exact h
    | refine LocalRef.dtors_emits hP _ _ ?_
    | refine LocalRef.localRef_dtor_emits hP _ _ ?_
    | refine Emits.ite_st ?_ ?_
    | refine Emits.ite ?_ ?_
    | refine JNIEnvironment.CheckException_emits hP _ ?_
    | refine JNIEnvironment.attach_emits hP _ _ ?_
    | refine JNIEnv.GetObjectClass_emits hP _ _ ?_
    | refine JNIEnv.FindClass_emits hP _ _ ?_
    | refine JNIEnv.GetFieldID_emits hP _ _ _ ?_
    | refine JNIEnv.GetIntField_emits hP _ _ _ ?_
    | refine JNIEnv.NewStringUTF_emits hP _ _ ?_
    | refine JNIEnv.DeleteLocalRef_emits hP _ ?_
    | refine JNIEnv.GetMethodID_emits hP (hms (by simp [Display.methods, SurfaceControl.parentMethods])) _ _ ?_
    | refine JNIEnv.CallObjectMethod_emits hP
        (fun m hm => hms (by rw [JNIEnv.GetMethodID_val_mem hm]; simp [Display.methods, SurfaceControl.parentMethods])) _ _ _ ?_
    | refine JNIEnv.NewObject_emits hP
        (fun m hm => hms (by rw [JNIEnv.GetMethodID_val_mem hm]; simp [Display.methods, SurfaceControl.parentMethods])) _ _ _ ?_
    | refine JNIEnv.CallVoidMethod_emits hP
        (fun m hm => hms (by rw [JNIEnv.GetMethodID_val_mem hm]; simp [Display.methods, SurfaceControl.parentMethods])) _ _ _ ?_
    | refine JNIEnv.CallIntMethod_emits hP
        (fun m hm => hms (by rw [JNIEnv.GetMethodID_val_mem hm]; simp [Display.methods, SurfaceControl.parentMethods])) _ _ ?_
    | refine JNIEnv.CallFloatMethod_emits hP
        (fun m hm => hms (by rw [JNIEnv.GetMethodID_val_mem hm]; simp [Display.methods, SurfaceControl.parentMethods])) _ _ ?_)

theorem SurfaceControl.Builder.SetParent_emits {P : Event → Prop} {ms : List JMethod}
    (hms : [.setParent] ⊆ ms) (hP : ∀ ev, ev.uses ms = true → P ev)
    (j : Jvm) (self : SurfaceControl.Builder) (parent : Ptr) {s t : JState} (h : Emits P s t) :
    Emits P s (SurfaceControl.Builder.SetParent j self parent t).st := by
  unfold SurfaceControl.Builder.SetParent
  lift_lets
  intros
  split_ifs
  all_goals repeat (first
    | exact h
    | refine LocalRef.dtors_emits hP _ _ ?_
    | refine LocalRef.localRef_dtor_emits hP _ _ ?_
    | refine Emits.ite_st ?_ ?_
    | refine Emits.ite ?_ ?_
    | refine JNIEnvironment.CheckException_emits hP _ ?_
    | refine JNIEnvironment.attach_emits hP _ _ ?_
    | refine JNIEnv.GetObjectClass_emits hP _ _ ?_
    | refine JNIEnv.FindClass_emits hP _ _ ?_
    | refine JNIEnv.GetFieldID_emits hP _ _ _ ?_
    | refine JNIEnv.GetIntField_emits hP _ _ _ ?_
    | refine JNIEnv.NewStringUTF_emits hP _ _ ?_
    | refine JNIEnv.DeleteLocalRef_emits hP _ ?_
    | refine JNIEnv.GetMethodID_emits hP (hms (by simp [Display.methods, SurfaceControl.parentMethods])) _ _ ?_
    | refine JNIEnv.CallObjectMethod_emits hP
        (fun m hm => hms (by rw [JNIEnv.GetMethodID_val_mem hm]; simp [Display.methods, SurfaceControl.parentMethods])) _ _ _ ?_
    | refine JNIEnv.NewObject_emits hP
        (fun m hm => hms (by rw [JNIEnv.GetMethodID_val_mem hm]; simp [Display.methods, SurfaceControl.parentMethods])) _ _ _ ?_
    | refine JNIEnv.CallVoidMethod_emits hP
        (fun m hm => hms (by rw [JNIEnv.GetMethodID_val_mem hm]; simp [Display.methods, SurfaceControl.parentMethods])) _ _ _ ?_
    | refine JNIEnv.CallIntMethod_emits hP
        (fun m hm => hms (by rw [JNIEnv.GetMethodID_val_mem hm]; simp [Display.methods, SurfaceControl.parentMethods])) _ _ ?_
    | refine JNIEnv.CallFloatMethod_emits hP
        (fun m hm => hms (by rw [JNIEnv.GetMethodID_val_mem hm]; simp [Display.methods, SurfaceControl.parentMethods])) _ _ ?_)

theorem SurfaceControl.Builder.SetBufferSize_emits {P : Event → Prop} {ms : List JMethod}
    (hms : [.setBufferSize] ⊆ ms) (hP : ∀ ev, ev.uses ms = true → P ev)
    (j : Jvm) (self : SurfaceControl.Builder) (width height : Int) {s t : JState} (h : Emits P s t) :
    Emits P s (SurfaceControl.Builder.SetBufferSize j self width height t).st := by
  unfold SurfaceControl.Builder.SetBufferSize
  lift_lets
  intros
  split_ifs
  all_goals repeat (first
    | exact h
    | refine LocalRef.dtors_emits hP _ _ ?_
    | refine LocalRef.localRef_dtor_emits hP _ _ ?_
    | refine Emits.ite_st ?_ ?_
    | refine Emits.ite ?_ ?_
    | refine JNIEnvironment.CheckException_emits hP _ ?_
    | refine JNIEnvironment.attach_emits hP _ _ ?_
    | refine JNIEnv.GetObjectClass_emits hP _ _ ?_
    | refine JNIEnv.FindClass_emits hP _ _ ?_
    | refine JNIEnv.GetFieldID_emits hP _ _ _ ?_
    | refine JNIEnv.GetIntField_emits hP _ _ _ ?_
    | refine JNIEnv.NewStringUTF_emits hP _ _ ?_
    | refine JNIEnv.DeleteLocalRef_emits hP _ ?_
    | refine JNIEnv.GetMethodID_emits hP (hms (by simp [Display.methods, SurfaceControl.parentMethods])) _ _ ?_
    | refine JNIEnv.CallObjectMethod_emits hP
        (fun m hm => hms (by rw [JNIEnv.GetMethodID_val_mem hm]; simp [Display.methods, SurfaceControl.parentMethods])) _ _ _ ?_
    | refine JNIEnv.NewObject_emits hP
        (fun m hm => hms (by rw [JNIEnv.GetMethodID_val_mem hm]; simp [Display.methods, SurfaceControl.parentMethods])) _ _ _ ?_
    | refine JNIEnv.CallVoidMethod_emits hP
        (fun m hm => hms (by rw [JNIEnv.GetMethodID_val_mem hm]; simp [Display.methods, SurfaceControl.parentMethods])) _ _ _ ?_
    | refine JNIEnv.CallIntMethod_emits hP
        (fun m hm => hms (by rw [JNIEnv.GetMethodID_val_mem hm]; simp [Display.methods, SurfaceControl.parentMethods])) _ _ ?_
    | refine JNIEnv.CallFloatMethod_emits hP
        (fun m hm => hms (by rw [JNIEnv.GetMethodID_val_mem hm]; simp [Display.methods, SurfaceControl.parentMethods])) _ _ ?_)

theorem SurfaceControl.Builder.SetFlags_emits {P : Event → Prop} {ms : List JMethod}
    (hms : [.setFlags] ⊆ ms) (hP : ∀ ev, ev.uses ms = true → P ev)
    (j : Jvm) (self : SurfaceControl.Builder) (flags mask : Nat) {s t : JState} (h : Emits P s t) :
    Emits P s (SurfaceControl.Builder.SetFlags j self flags mask t).st := by
  unfold SurfaceControl.Builder.SetFlags
  lift_lets
  intros
  split_ifs
  all_goals repeat (first
    | exact h
    | refine LocalRef.dtors_emits hP _ _ ?_
    | refine LocalRef.localRef_dtor_emits hP _ _ ?_
    | refine Emits.ite_st ?_ ?_
    | refine Emits.ite ?_ ?_
    | refine JNIEnvironment.CheckException_emits hP _ ?_
    | refine JNIEnvironment.attach_emits hP _ _ ?_
    | refine JNIEnv.GetObjectClass_emits hP _ _ ?_
    | refine JNIEnv.FindClass_emits hP _ _ ?_
    | refine JNIEnv.GetFieldID_emits hP _ _ _ ?_
    | refine JNIEnv.GetIntField_emits hP _ _ _ ?_
    | refine JNIEnv.NewStringUTF_emits hP _ _ ?_
    | refine JNIEnv.DeleteLocalRef_emits hP _ ?_
    | refine JNIEnv.GetMethodID_emits hP (hms (by simp [Display.methods, SurfaceControl.parentMethods])) _ _ ?_
    | refine JNIEnv.CallObjectMethod_emits hP
        (fun m hm => hms (by rw [JNIEnv.GetMethodID_val_mem hm]; simp [Display.methods, SurfaceControl.parentMethods])) _ _ _ ?_
    | refine JNIEnv.NewObject_emits hP
        (fun m hm => hms (by rw [JNIEnv.GetMethodID_val_mem hm]; simp [Display.methods, SurfaceControl.parentMethods])) _ _ _ ?_
    | refine JNIEnv.CallVoidMethod_emits hP
        (fun m hm => hms (by rw [JNIEnv.GetMethodID_val_mem hm]; simp [Display.methods, SurfaceControl.parentMethods])) _ _ _ ?_
    | refine JNIEnv.CallIntMethod_emits hP
        (fun m hm => hms (by rw [JNIEnv.GetMethodID_val_mem hm]; simp [Display.methods, SurfaceControl.parentMethods])) _ _ ?_
    | refine JNIEnv.CallFloatMethod_emits hP
        (fun m hm => hms (by rw [JNIEnv.GetMethodID_val_mem hm]; simp [Display.methods, SurfaceControl.parentMethods])) _ _ ?_)

theorem SurfaceControl.Builder.Build_emits {P : Event → Prop} {ms : List JMethod}
    (hms : [.build] ⊆ ms) (hP : ∀ ev, ev.uses ms = true → P ev)
    (j : Jvm) (self : SurfaceControl.Builder) {s t : JState} (h : Emits P s t) :
    Emits P s (SurfaceControl.Builder.Build j self t).st := by
  unfold SurfaceControl.Builder.Build
  lift_lets
  intros
  split_ifs
  all_goals repeat (first
    | exact h
    | refine LocalRef.dtors_emits hP _ _ ?_
    | refine LocalRef.localRef_dtor_emits hP _ _ ?_
    | refine Emits.ite_st ?_ ?_
    | refine Emits.ite ?_ ?_
    | refine JNIEnvironment.CheckException_emits hP _ ?_
    | refine JNIEnvironment.attach_emits hP _ _ ?_
    | refine JNIEnv.GetObjectClass_emits hP _ _ ?_
    | refine JNIEnv.FindClass_emits hP _ _ ?_
    | refine JNIEnv.GetFieldID_emits hP _ _ _ ?_
    | refine JNIEnv.GetIntField_emits hP _ _ _ ?_
    | refine JNIEnv.NewStringUTF_emits hP _ _ ?_
    | refine JNIEnv.DeleteLocalRef_emits hP _ ?_
    | refine JNIEnv.GetMethodID_emits hP (hms (by simp [Display.methods, SurfaceControl.parentMethods])) _ _ ?_
    | refine JNIEnv.CallObjectMethod_emits hP
        (fun m hm => hms (by rw [JNIEnv.GetMethodID_val_mem hm]; simp [Display.methods, SurfaceControl.parentMethods])) _ _ _ ?_
    | refine JNIEnv.NewObject_emits hP
        (fun m hm => hms (by rw [JNIEnv.GetMethodID_val_mem hm]; simp [Display.methods, SurfaceControl.parentMethods])) _ _ _ ?_
    | refine JNIEnv.CallVoidMethod_emits hP
        (fun m hm => hms (by rw [JNIEnv.GetMethodID_val_mem hm]; simp [Display.methods, SurfaceControl.parentMethods])) _ _ _ ?_
    | refine JNIEnv.CallIntMethod_emits hP
        (fun m hm => hms (by rw [JNIEnv.GetMethodID_val_mem hm]; simp [Display.methods, SurfaceControl.parentMethods])) _ _ ?_
    | refine JNIEnv.CallFloatMethod_emits hP
        (fun m hm => hms (by rw [JNIEnv.GetMethodID_val_mem hm]; simp [Display.methods, SurfaceControl.parentMethods])) _ _ ?_)

theorem SurfaceControl.Transaction.transaction_ctor_emits {P : Event → Prop} {ms : List JMethod}
    (hms : [.init] ⊆ ms) (hP : ∀ ev, ev.uses ms = true → P ev)
    (j : Jvm) (e : Ptr) {s t : JState} (h : Emits P s t) :
    Emits P s (SurfaceControl.Transaction.ctor j e t).st := by
  unfold SurfaceControl.Transaction.ctor
  lift_lets
  intros
  split_ifs
  all_goals repeat (first
    | exact h
    | refine LocalRef.dtors_emits hP _ _ ?_
    | refine LocalRef.localRef_dtor_emits hP _ _ ?_
    | refine Emits.ite_st ?_ ?_
    | refine Emits.ite ?_ ?_
    | refine JNIEnvironment.CheckException_emits hP _ ?_
    | refine JNIEnvironment.attach_emits hP _ _ ?_
    | refine JNIEnv.GetObjectClass_emits hP _ _ ?_
    | refine JNIEnv.FindClass_emits hP _ _ ?_
    | refine JNIEnv.GetFieldID_emits hP _ _ _ ?_
    | refine JNIEnv.GetIntField_emits hP _ _ _ ?_
    | refine JNIEnv.NewStringUTF_emits hP _ _ ?_
    | refine JNIEnv.DeleteLocalRef_emits hP _ ?_
    | refine JNIEnv.GetMethodID_emits hP (hms (by simp [Display.methods, SurfaceControl.parentMethods])) _ _ ?_
    | refine JNIEnv.CallObjectMethod_emits hP
        (fun m hm => hms (by rw [JNIEnv.GetMethodID_val_mem hm]; simp [Display.methods, SurfaceControl.parentMethods])) _ _ _ ?_
    | refine JNIEnv.NewObject_emits hP
        (fun m hm => hms (by rw [JNIEnv.GetMethodID_val_mem hm]; simp [Display.methods, SurfaceControl.parentMethods])) _ _ _ ?_
    | refine JNIEnv.CallVoidMethod_emits hP
        (fun m hm => hms (by rw [JNIEnv.GetMethodID_val_mem hm]; simp [Display.methods, SurfaceControl.parentMethods])) _ _ _ ?_
    | refine JNIEnv.CallIntMethod_emits hP
        (fun m hm => hms (by rw [JNIEnv.GetMethodID_val_mem hm]; simp [Display.methods, SurfaceControl.parentMethods])) _ _ ?_
    | refine JNIEnv.CallFloatMethod_emits hP
        (fun m hm => hms (by rw [JNIEnv.GetMethodID_val_mem hm]; simp [Display.methods, SurfaceControl.parentMethods])) _ _ ?_)

theorem SurfaceControl.Transaction.transaction_dtor_emits {P : Event → Prop} {ms : List JMethod}
    (hP : ∀ ev, ev.uses ms = true → P ev)
    (self : SurfaceControl.Transaction) {s t : JState} (h : Emits P s t) :
    Emits P s (SurfaceControl.Transaction.dtor self t) := by
  unfold SurfaceControl.Transaction.dtor
  lift_lets
  intros
  split_ifs
  all_goals repeat (first
    | exact h
    | refine LocalRef.dtors_emits hP _ _ ?_
    | refine LocalRef.localRef_dtor_emits hP _ _ ?_
    | refine Emits.ite_st ?_ ?_
    | refine Emits.ite ?_ ?_
    | refine JNIEnvironment.CheckException_emits hP _ ?_
    | refine JNIEnvironment.attach_emits hP _ _ ?_
    | refine JNIEnv.GetObjectClass_emits hP _ _ ?_
    | refine JNIEnv.FindClass_emits hP _ _ ?_
    | refine JNIEnv.GetFieldID_emits hP _ _ _ ?_
    | refine JNIEnv.GetIntField_emits hP _ _ _ ?_
    | refine JNIEnv.NewStringUTF_emits hP _ _ ?_
    | refine JNIEnv.DeleteLocalRef_emits hP _ ?_
    | refine JNIEnv.GetMethodID_emits hP (hms (by simp [Display.methods, SurfaceControl.parentMethods])) _ _ ?_
    | refine JNIEnv.CallObjectMethod_emits hP
        (fun m hm => hms (by rw [JNIEnv.GetMethodID_val_mem hm]; simp [Display.methods, SurfaceControl.parentMethods])) _ _ _ ?_
    | refine JNIEnv.NewObject_emits hP
        (fun m hm => hms (by rw [JNIEnv.GetMethodID_val_mem hm]; simp [Display.methods, SurfaceControl.parentMethods])) _ _ _ ?_
    | refine JNIEnv.CallVoidMethod_emits hP
        (fun m hm => hms (by rw [JNIEnv.GetMethodID_val_mem hm]; simp [Display.methods, SurfaceControl.parentMethods])) _ _ _ ?_
    | refine JNIEnv.CallIntMethod_emits hP
        (fun m hm => hms (by rw [JNIEnv.GetMethodID_val_mem hm]; simp [Display.methods, SurfaceControl.parentMethods])) _ _ ?_
    | refine JNIEnv.CallFloatMethod_emits hP
        (fun m hm => hms (by rw [JNIEnv.GetMethodID_val_mem hm]; simp [Display.methods, SurfaceControl.parentMethods])) _ _ ?_)

theorem SurfaceControl.Transaction.SetAlpha_emits {P : Event → Prop} {ms : List JMethod}
    (hms : [.setAlpha] ⊆ ms) (hP : ∀ ev, ev.uses ms = true → P ev)
    (j : Jvm) (self : SurfaceControl.Transaction) (surfaceControl : Ptr) (alpha : Nat) {s t : JState} (h : Emits P s t) :
    Emits P s (SurfaceControl.Transaction.SetAlpha j self surfaceControl alpha t).st := by
  unfold SurfaceControl.Transaction.SetAlpha
  lift_lets
  intros
  split_ifs
  all_goals repeat (first
    | exact h
    | refine LocalRef.dtors_emits hP _ _ ?_
    | refine LocalRef.localRef_dtor_emits hP _ _ ?_
    | refine Emits.ite_st ?_ ?_
    | refine Emits.ite ?_ ?_
    | refine JNIEnvironment.CheckException_emits hP _ ?_
    | refine JNIEnvironment.attach_emits hP _ _ ?_
    | refine JNIEnv.GetObjectClass_emits hP _ _ ?_
    | refine JNIEnv.FindClass_emits hP _ _ ?_
    | refine JNIEnv.GetFieldID_emits hP _ _ _ ?_
    | refine JNIEnv.GetIntField_emits hP _ _ _ ?_
    | refine JNIEnv.NewStringUTF_emits hP _ _ ?_
    | refine JNIEnv.DeleteLocalRef_emits hP _ ?_
    | refine JNIEnv.GetMethodID_emits hP (hms (by simp [Display.methods, SurfaceControl.parentMethods])) _ _ ?_
    | refine JNIEnv.CallObjectMethod_emits hP
        (fun m hm => hms (by rw [JNIEnv.GetMethodID_val_mem hm]; simp [Display.methods, SurfaceControl.parentMethods])) _ _ _ ?_
    | refine JNIEnv.NewObject_emits hP
        (fun m hm => hms (by rw [JNIEnv.GetMethodID_val_mem hm]; simp [Display.methods, SurfaceControl.parentMethods])) _ _ _ ?_
    | refine JNIEnv.CallVoidMethod_emits hP
        (fun m hm => hms (by rw [JNIEnv.GetMethodID_val_mem hm]; simp [Display.methods, SurfaceControl.parentMethods])) _ _ _ ?_
    | refine JNIEnv.CallIntMethod_emits hP
        (fun m hm => hms (by rw [JNIEnv.GetMethodID_val_mem hm]; simp [Display.methods, SurfaceControl.parentMethods])) _ _ ?_
    | refine JNIEnv.CallFloatMethod_emits hP
        (fun m hm => hms (by rw [JNIEnv.GetMethodID_val_mem hm]; simp [Display.methods, SurfaceControl.parentMethods])) _ _ ?_)

theorem SurfaceControl.Transaction.SetLayer_emits {P : Event → Prop} {ms : List JMethod}
    (hms : [.setLayer] ⊆ ms) (hP : ∀ ev, ev.uses ms = true → P ev)
    (j : Jvm) (self : SurfaceControl.Transaction) (surfaceControl : Ptr) (z : Int) {s t : JState} (h : Emits P s t) :
    Emits P s (SurfaceControl.Transaction.SetLayer j self surfaceControl z t).st := by
  unfold SurfaceControl.Transaction.SetLayer
  lift_lets
  intros
  split_ifs
  all_goals repeat (first
    | exact h
    | refine LocalRef.dtors_emits hP _ _ ?_
    | refine LocalRef.localRef_dtor_emits hP _ _ ?_
    | refine Emits.ite_st ?_ ?_
    | refine Emits.ite ?_ ?_
    | refine JNIEnvironment.CheckException_emits hP _ ?_
    | refine JNIEnvironment.attach_emits hP _ _ ?_
    | refine JNIEnv.GetObjectClass_emits hP _ _ ?_
    | refine JNIEnv.FindClass_emits hP _ _ ?_
    | refine JNIEnv.GetFieldID_emits hP _ _ _ ?_
    | refine JNIEnv.GetIntField_emits hP _ _ _ ?_
    | refine JNIEnv.NewStringUTF_emits hP _ _ ?_
    | refine JNIEnv.DeleteLocalRef_emits hP _ ?_
    | refine JNIEnv.GetMethodID_emits hP (hms (by simp [Display.methods, SurfaceControl.parentMethods])) _ _ ?_
    | refine JNIEnv.CallObjectMethod_emits hP
        (fun m hm => hms (by rw [JNIEnv.GetMethodID_val_mem hm]; simp [Display.methods, SurfaceControl.parentMethods])) _ _ _ ?_
    | refine JNIEnv.NewObject_emits hP
        (fun m hm => hms (by rw [JNIEnv.GetMethodID_val_mem hm]; simp [Display.methods, SurfaceControl.parentMethods])) _ _ _ ?_
    | refine JNIEnv.CallVoidMethod_emits hP
        (fun m hm => hms (by rw [JNIEnv.GetMethodID_val_mem hm]; simp [Display.methods, SurfaceControl.parentMethods])) _ _ _ ?_
    | refine JNIEnv.CallIntMethod_emits hP
        (fun m hm => hms (by rw [JNIEnv.GetMethodID_val_mem hm]; simp [Display.methods, SurfaceControl.parentMethods])) _ _ ?_
    | refine JNIEnv.CallFloatMethod_emits hP
        (fun m hm => hms (by rw [JNIEnv.GetMethodID_val_mem hm]; simp [Display.methods, SurfaceControl.parentMethods])) _ _ ?_)

theorem SurfaceControl.Transaction.Show_emits {P : Event → Prop} {ms : List JMethod}
    (hms : [.show_] ⊆ ms) (hP : ∀ ev, ev.uses ms = true → P ev)
    (j : Jvm) (self : SurfaceControl.Transaction) (surfaceControl : Ptr) {s t : JState} (h : Emits P s t) :
    Emits P s (SurfaceControl.Transaction.Show j self surfaceControl t).st := by
  unfold SurfaceControl.Transaction.Show
  lift_lets
  intros
  split_ifs
  all_goals repeat (first
    | exact h
    | refine LocalRef.dtors_emits hP _ _ ?_
    | refine LocalRef.localRef_dtor_emits hP _ _ ?_
    | refine Emits.ite_st ?_ ?_
    | refine Emits.ite ?_ ?_
    | refine JNIEnvironment.CheckException_emits hP _ ?_
    | refine JNIEnvironment.attach_emits hP _ _ ?_
    | refine JNIEnv.GetObjectClass_emits hP _ _ ?_
    | refine JNIEnv.FindClass_emits hP _ _ ?_
    | refine JNIEnv.GetFieldID_emits hP _ _ _ ?_
    | refine JNIEnv.GetIntField_emits hP _ _ _ ?_
    | refine JNIEnv.NewStringUTF_emits hP _ _ ?_
    | refine JNIEnv.DeleteLocalRef_emits hP _ ?_
    | refine JNIEnv.GetMethodID_emits hP (hms (by simp [Display.methods, SurfaceControl.parentMethods])) _ _ ?_
    | refine JNIEnv.CallObjectMethod_emits hP
        (fun m hm => hms (by rw [JNIEnv.GetMethodID_val_mem hm]; simp [Display.methods, SurfaceControl.parentMethods])) _ _ _ ?_
    | refine JNIEnv.NewObject_emits hP
        (fun m hm => hms (by rw [JNIEnv.GetMethodID_val_mem hm]; simp [Display.methods, SurfaceControl.parentMethods])) _ _ _ ?_
    | refine JNIEnv.CallVoidMethod_emits hP
        (fun m hm => hms (by rw [JNIEnv.GetMethodID_val_mem hm]; simp [Display.methods, SurfaceControl.parentMethods])) _ _ _ ?_
    | refine JNIEnv.CallIntMethod_emits hP
        (fun m hm => hms (by rw [JNIEnv.GetMethodID_val_mem hm]; simp [Display.methods, SurfaceControl.parentMethods])) _ _ ?_
    | refine JNIEnv.CallFloatMethod_emits hP
        (fun m hm => hms (by rw [JNIEnv.GetMethodID_val_mem hm]; simp [Display.methods, SurfaceControl.parentMethods])) _ _ ?_)

theorem SurfaceControl.Transaction.Hide_emits {P : Event → Prop} {ms : List JMethod}
    (hms : [.hide] ⊆ ms) (hP : ∀ ev, ev.uses ms = true → P ev)
    (j : Jvm) (self : SurfaceControl.Transaction) (surfaceControl : Ptr) {s t : JState} (h : Emits P s t) :
    Emits P s (SurfaceControl.Transaction.Hide j self surfaceControl t).st := by
  unfold SurfaceControl.Transaction.Hide
  lift_lets
  intros
  split_ifs
  all_goals repeat (first
    | exact h
    | refine LocalRef.dtors_emits hP _ _ ?_
    | refine LocalRef.localRef_dtor_emits hP _ _ ?_
    | refine Emits.ite_st ?_ ?_
    | refine Emits.ite ?_ ?_
    | refine JNIEnvironment.CheckException_emits hP _ ?_
    | refine JNIEnvironment.attach_emits hP _ _ ?_
    | refine JNIEnv.GetObjectClass_emits hP _ _ ?_
    | refine JNIEnv.FindClass_emits hP _ _ ?_
    | refine JNIEnv.GetFieldID_emits hP _ _ _ ?_
    | refine JNIEnv.GetIntField_emits hP _ _ _ ?_
    | refine JNIEnv.NewStringUTF_emits hP _ _ ?_
    | refine JNIEnv.DeleteLocalRef_emits hP _ ?_
    | refine JNIEnv.GetMethodID_emits hP (hms (by simp [Display.methods, SurfaceControl.parentMethods])) _ _ ?_
    | refine JNIEnv.CallObjectMethod_emits hP
        (fun m hm => hms (by rw [JNIEnv.GetMethodID_val_mem hm]; simp [Display.methods, SurfaceControl.parentMethods])) _ _ _ ?_
    | refine JNIEnv.NewObject_emits hP
        (fun m hm => hms (by rw [JNIEnv.GetMethodID_val_mem hm]; simp [Display.methods, SurfaceControl.parentMethods])) _ _ _ ?_
    | refine JNIEnv.CallVoidMethod_emits hP
        (fun m hm => hms (by rw [JNIEnv.GetMethodID_val_mem hm]; simp [Display.methods, SurfaceControl.parentMethods])) _ _ _ ?_
    | refine JNIEnv.CallIntMethod_emits hP
        (fun m hm => hms (by rw [JNIEnv.GetMethodID_val_mem hm]; simp [Display.methods, SurfaceControl.parentMethods])) _ _ ?_
    | refine JNIEnv.CallFloatMethod_emits hP
        (fun m hm => hms (by rw [JNIEnv.GetMethodID_val_mem hm]; simp [Display.methods, SurfaceControl.parentMethods])) _ _ ?_)

theorem SurfaceControl.Transaction.Remove_emits {P : Event → Prop} {ms : List JMethod}
    (hms : [.remove] ⊆ ms) (hP : ∀ ev, ev.uses ms = true → P ev)
    (j : Jvm) (self : SurfaceControl.Transaction) (surfaceControl : Ptr) {s t : JState} (h : Emits P s t) :
    Emits P s (SurfaceControl.Transaction.Remove j self surfaceControl t).st := by
  unfold SurfaceControl.Transaction.Remove
  lift_lets
  intros
  split_ifs
  all_goals repeat (first
    | exact h
    | refine LocalRef.dtors_emits hP _ _ ?_
    | refine LocalRef.localRef_dtor_emits hP _ _ ?_
    | refine Emits.ite_st ?_ ?_
    | refine Emits.ite ?_ ?_
    | refine JNIEnvironment.CheckException_emits hP _ ?_
    | refine JNIEnvironment.attach_emits hP _ _ ?_
    | refine JNIEnv.GetObjectClass_emits hP _ _ ?_
    | refine JNIEnv.FindClass_emits hP _ _ ?_
    | refine JNIEnv.GetFieldID_emits hP _ _ _ ?_
    | refine JNIEnv.GetIntField_emits hP _ _ _ ?_
    | refine JNIEnv.NewStringUTF_emits hP _ _ ?_
    | refine JNIEnv.DeleteLocalRef_emits hP _ ?_
    | refine JNIEnv.GetMethodID_emits hP (hms (by simp [Display.methods, SurfaceControl.parentMethods])) _ _ ?_
    | refine JNIEnv.CallObjectMethod_emits hP
        (fun m hm => hms (by rw [JNIEnv.GetMethodID_val_mem hm]; simp [Display.methods, SurfaceControl.parentMethods])) _ _ _ ?_
    | refine JNIEnv.NewObject_emits hP
        (fun m hm => hms (by rw [JNIEnv.GetMethodID_val_mem hm]; simp [Display.methods, SurfaceControl.parentMethods])) _ _ _ ?_
    | refine JNIEnv.CallVoidMethod_emits hP
        (fun m hm => hms (by rw [JNIEnv.GetMethodID_val_mem hm]; simp [Display.methods, SurfaceControl.parentMethods])) _ _ _ ?_
    | refine JNIEnv.CallIntMethod_emits hP
        (fun m hm => hms (by rw [JNIEnv.GetMethodID_val_mem hm]; simp [Display.methods, SurfaceControl.parentMethods])) _ _ ?_
    | refine JNIEnv.CallFloatMethod_emits hP
        (fun m hm => hms (by rw [JNIEnv.GetMethodID_val_mem hm]; simp [Display.methods, SurfaceControl.parentMethods])) _ _ ?_)

theorem SurfaceControl.Transaction.Apply_emits {P : Event → Prop} {ms : List JMethod}
    (hms : [.apply] ⊆ ms) (hP : ∀ ev, ev.uses ms = true → P ev)
    (j : Jvm) (self : SurfaceControl.Transaction) {s t : JState} (h : Emits P s t) :
    Emits P s (SurfaceControl.Transaction.Apply j self t) := by
  unfold SurfaceControl.Transaction.Apply
  lift_lets
  intros
  split_ifs
  all_goals repeat (first
    | exact h
    | refine LocalRef.dtors_emits hP _ _ ?_
    | refine LocalRef.localRef_dtor_emits hP _ _ ?_
    | refine Emits.ite_st ?_ ?_
    | refine Emits.ite ?_ ?_
    | refine JNIEnvironment.CheckException_emits hP _ ?_
    | refine JNIEnvironment.attach_emits hP _ _ ?_
    | refine JNIEnv.GetObjectClass_emits hP _ _ ?_
    | refine JNIEnv.FindClass_emits hP _ _ ?_
    | refine JNIEnv.GetFieldID_emits hP _ _ _ ?_
    | refine JNIEnv.GetIntField_emits hP _ _ _ ?_
    | refine JNIEnv.NewStringUTF_emits hP _ _ ?_
    | refine JNIEnv.DeleteLocalRef_emits hP _ ?_
    | refine JNIEnv.GetMethodID_emits hP (hms (by simp [Display.methods, SurfaceControl.parentMethods])) _ _ ?_
    | refine JNIEnv.CallObjectMethod_emits hP
        (fun m hm => hms (by rw [JNIEnv.GetMethodID_val_mem hm]; simp [Display.methods, SurfaceControl.parentMethods])) _ _ _ ?_
    | refine JNIEnv.NewObject_emits hP
        (fun m hm => hms (by rw [JNIEnv.GetMethodID_val_mem hm]; simp [Display.methods, SurfaceControl.parentMethods])) _ _ _ ?_
    | refine JNIEnv.CallVoidMethod_emits hP
        (fun m hm => hms (by rw [JNIEnv.GetMethodID_val_mem hm]; simp [Display.methods, SurfaceControl.parentMethods])) _ _ _ ?_
    | refine JNIEnv.CallIntMethod_emits hP
        (fun m hm => hms (by rw [JNIEnv.GetMethodID_val_mem hm]; simp [Display.methods, SurfaceControl.parentMethods])) _ _ ?_
    | refine JNIEnv.CallFloatMethod_emits hP
        (fun m hm => hms (by rw [JNIEnv.GetMethodID_val_mem hm]; simp [Display.methods, SurfaceControl.parentMethods])) _ _ ?_)

end

theorem SurfaceControl.Builder.SetSkipScreenshot_emits {P : Event → Prop} {ms : List JMethod}
    (hms : [.setFlags] ⊆ ms) (hP : ∀ ev, ev.uses ms = true → P ev)
    (j : Jvm) (self : SurfaceControl.Builder) (skip : Bool) {s t : JState} (h : Emits P s t) :
    Emits P s (SurfaceControl.Builder.SetSkipScreenshot j self skip t).st := by
  unfold SurfaceControl.Builder.SetSkipScreenshot
  split_ifs
  · exact SurfaceControl.Builder.SetFlags_emits hms hP j self _ _ h
  · exact h

end framework

theorem Delta.none (s : JState) : Delta s s [] [] :=
  ⟨[], by simp, rfl, rfl⟩

theorem Delta.append {s t u : JState} {a r a' r' : List Ptr} (h1 : Delta s t a r)
    (h2 : Delta t u a' r') : Delta s u (a ++ a') (r ++ r') := by
  obtain ⟨e1, ht, ha, hr⟩ := h1
  obtain ⟨e2, hu, ha', hr'⟩ := h2
  refine ⟨e1 ++ e2, by rw [hu, ht, List.append_assoc], ?_, ?_⟩
  · simp [acquired, List.filterMap_append] at *
    rw [ha, ha']
  · simp [released, List.filterMap_append] at *
    rw [hr, hr']

theorem Event.acquires_of_quiet (ev : Event) (h : ev.isResourceOp = false) :
    ev.acquires = none := by
  cases ev <;> simp_all [Event.isResourceOp, Event.acquires]

theorem Event.releases_of_quiet (ev : Event) (h : ev.isResourceOp = false) :
    ev.releases = none := by
  cases ev <;> simp_all [Event.isResourceOp, Event.releases]

theorem Delta.of_emits {s t : JState} (h : Emits (fun ev => ev.isResourceOp = false) s t) :
    Delta s t [] [] := by
  obtain ⟨evs, ht, hq⟩ := h
  refine ⟨evs, ht, ?_, ?_⟩
  · simp only [acquired, List.filterMap_eq_nil_iff]
    exact fun ev hev => Event.acquires_of_quiet ev (hq ev hev)
  · simp only [released, List.filterMap_eq_nil_iff]
    exact fun ev hev => Event.releases_of_quiet ev (hq ev hev)

theorem Delta.then_quiet {s t u : JState} {a r : List Ptr} (h1 : Delta s t a r)
    (h2 : Emits (fun ev => ev.isResourceOp = false) t u) : Delta s u a r := by
  simpa using h1.append (Delta.of_emits h2)

namespace jni

theorem GlobalRef.ctor_delta (j : Jvm) (e o : Ptr) (t : JState) :
    Delta t (GlobalRef.ctor j e o t).st (GlobalRef.ctor j e o t).val.held [] := by
  unfold GlobalRef.ctor
  split_ifs with h
  · refine ⟨[.NewGlobalRef o (j.newGlobalRef o)], rfl, ?_, rfl⟩
    by_cases hg : j.newGlobalRef o = 0 <;>
      simp [acquired, Event.acquires, GlobalRef.held, hg, h.1]
  · refine ⟨[], by simp, ?_, rfl⟩
    simp [acquired, GlobalRef.held]

theorem heldBy_delta (p : Option GlobalRef) (t : JState) :
    Delta t (resetGlobalRef p t) [] (heldBy p) := by
  unfold resetGlobalRef heldBy
  cases p with
  | none => exact Delta.none t
  | some g =>
    simp only [GlobalRef.dtor, GlobalRef.Release, GlobalRef.held]
    split_ifs with h
    · exact ⟨[.DeleteGlobalRef g.obj], rfl, rfl, rfl⟩
    · exact Delta.none t

end jni

namespace detail

open jni

theorem WindowContext.dtor_delta (ctx : WindowContext) (t : JState) :
    Delta t (ctx.dtor t) [] (heldBy ctx.surface ++ heldBy ctx.surfaceControl) := by
  unfold WindowContext.dtor WindowContext.Release
  simp only
  have h1 : Delta t (if ctx.nativeWindow ≠ 0 then ANativeWindow_release ctx.nativeWindow t else t)
      [] [] := by
    split_ifs
    · exact ⟨[.ANativeWindow_release ctx.nativeWindow], rfl, rfl, rfl⟩
    · exact Delta.none t
  simpa using (h1.append (heldBy_delta ctx.surface _)).append (heldBy_delta ctx.surfaceControl _)

end detail

namespace detail

open jni

theorem WindowContext.Release_trace (ctx : WindowContext) (gs gsc : GlobalRef) (s : JState)
    (hnw : ctx.nativeWindow ≠ 0)
    (hs : ctx.surface = some gs) (hgs : gs.env ≠ 0 ∧ gs.obj ≠ 0)
    (hsc : ctx.surfaceControl = some gsc) (hgsc : gsc.env ≠ 0 ∧ gsc.obj ≠ 0) :
    (ctx.Release s).st =
      { pending := s.pending,
        trace := s.trace ++ [.ANativeWindow_release ctx.nativeWindow, .DeleteGlobalRef gs.obj,
          .DeleteGlobalRef gsc.obj] } := by
  simp [WindowContext.Release, hnw, hs, hsc, resetGlobalRef, GlobalRef.dtor, GlobalRef.Release,
    hgs, hgsc, ANativeWindow_release, JState.log]

theorem WindowContext.dtor_Release (ctx : WindowContext) (s t : JState) :
    (ctx.Release s).val.dtor t = t := by
  simp [WindowContext.Release, WindowContext.dtor, resetGlobalRef]

end detail

namespace ANwCreator

open jni framework detail

section
attribute [local irreducible] JNIEnvironment.ctor SurfaceControl.Transaction.ctor
  SurfaceControl.Transaction.dtor SurfaceControl.Transaction.Remove
  SurfaceControl.Transaction.Apply

theorem Destroy.teardown_emits {P : Event → Prop} {ms : List JMethod}
    (hms : [.init, .remove, .apply] ⊆ ms) (hP : ∀ ev, ev.uses ms = true → P ev)
    (j : Jvm) (activity : Option ANativeActivity) (context : WindowContext) {s t : JState}
    (h : Emits P s t) : Emits P s (Destroy.teardown j activity context t) := by
  unfold Destroy.teardown
  split
  · lift_lets
    intros
    split_ifs
    all_goals repeat (first
      | exact h
      | refine SurfaceControl.Transaction.transaction_dtor_emits hP _ ?_
      | refine SurfaceControl.Transaction.Apply_emits (fun m hm => hms (by
          simp only [List.mem_singleton] at hm; subst hm; simp)) hP _ _ ?_
      | refine SurfaceControl.Transaction.Remove_emits (fun m hm => hms (by
          simp only [List.mem_singleton] at hm; subst hm; simp)) hP _ _ _ ?_
      | refine SurfaceControl.Transaction.transaction_ctor_emits (fun m hm => hms (by
          simp only [List.mem_singleton] at hm; subst hm; simp)) hP _ _ ?_
      | refine JNIEnvironment.attach_emits hP _ _ ?_)
  · exact h

end

end ANwCreator

namespace ANwCreator

open jni framework detail

theorem Create_of_passes (j : Jvm) (reg : Registry) (s : JState) (act : ANativeActivity)
    (options : CreateOptions) (h : Create.Passes j act options s) :
    (Create j reg s (some act) options).val = (Create.nativeWindow j act options s).val ∧
    (Create j reg s (some act) options).registry =
      reg.emplace (Create.nativeWindow j act options s).val (Create.context j act options s) := by
  obtain ⟨h1, h2, h3, h4, h5, h6, h7, h8⟩ := h
  have h8' : (Create.context j act options s).nativeWindow ≠ 0 := h8
  unfold Create
  simp only [h1, h2, h3, h4, h5, h6, h7, h8', or_self, if_false, Bool.true_eq_false,
    Bool.false_eq_true]
  exact ⟨rfl, rfl⟩

theorem Create_null_or_passes (j : Jvm) (reg : Registry) (s : JState) (act : ANativeActivity)
    (options : CreateOptions) :
    ((Create j reg s (some act) options).val = 0 ∧
      (Create j reg s (some act) options).registry = reg) ∨
    Create.Passes j act options s := by
  by_cases hp : Create.Passes j act options s
  · exact Or.inr hp
  · left
    unfold Create.Passes at hp
    unfold Create
    simp only
    split_ifs with a b c d e f g
    all_goals first
      | exact ⟨rfl, rfl⟩
      | exact ⟨g, rfl⟩
      | (exfalso
         apply hp
         simp only [not_or] at a
         simp only [Bool.not_eq_false, Bool.not_eq_true] at b c d e f
         exact ⟨a.1, a.2, b, c, d, e, f, g⟩)

end ANwCreator

namespace jni

theorem GlobalRef.globalRef_ctor_emits {P : Event → Prop} (hR : ∀ ev, ev.isResourceOp = true → P ev)
    (j : Jvm) (e o : Ptr) {s t : JState} (h : Emits P s t) :
    Emits P s (GlobalRef.ctor j e o t).st := by
  unfold GlobalRef.ctor
  split_ifs
  · exact Emits.log (hR _ rfl) h
  · exact h

theorem resetGlobalRef_emits {P : Event → Prop} (hR : ∀ ev, ev.isResourceOp = true → P ev)
    (p : Option GlobalRef) {s t : JState} (h : Emits P s t) :
    Emits P s (resetGlobalRef p t) := by
  unfold resetGlobalRef
  cases p with
  | none => exact h
  | some g =>
    simp only [GlobalRef.dtor, GlobalRef.Release]
    split_ifs
    · exact Emits.log (hR _ rfl) h
    · exact h

end jni

namespace detail

open jni

theorem WindowContext.context_dtor_emits {P : Event → Prop} (hR : ∀ ev, ev.isResourceOp = true → P ev)
    (ctx : WindowContext) {s t : JState} (h : Emits P s t) : Emits P s (ctx.dtor t) := by
  unfold WindowContext.dtor WindowContext.Release
  simp only
  refine resetGlobalRef_emits hR _ (resetGlobalRef_emits hR _ ?_)
  split_ifs
  · exact Emits.log (hR _ rfl) h
  · exact h

end detail

namespace ANwCreator

open jni framework detail

variable {P : Event → Prop} {ms : List JMethod} (j : Jvm) (act : ANativeActivity)
  (options : CreateOptions) (s : JState)

theorem Create.jniEnv_emits (hP : ∀ ev, ev.uses ms = true → P ev) :
    Emits P s (Create.jniEnv j act s).st :=
  JNIEnvironment.attach_emits hP j act.vm (Emits.refl P s)

theorem Create.size_emits (hms : Display.methods ⊆ ms) (hP : ∀ ev, ev.uses ms = true → P ev) :
    Emits P s (Create.size j act options s).st := by
  unfold Create.size
  split_ifs
  · exact Display.GetDisplayInfo_emits hms hP j _ _ (Create.jniEnv_emits j act s hP)
  · exact Create.jniEnv_emits j act s hP

theorem Create.parentSC_emits (hms : Display.methods ++ SurfaceControl.parentMethods ⊆ ms)
    (hP : ∀ ev, ev.uses ms = true → P ev) :
    Emits P s (Create.parentSC j act options s).st :=
  SurfaceControl.GetParentSurfaceControl_emits
    (fun _ hm => hms (List.mem_append_right _ hm)) hP j _ _
    (Create.size_emits j act options s (fun _ hm => hms (List.mem_append_left _ hm)) hP)

theorem Create.parentCheck_emits (hms : Display.methods ++ SurfaceControl.parentMethods ⊆ ms)
    (hP : ∀ ev, ev.uses ms = true → P ev) :
    Emits P s (Create.parentCheck j act options s).st := by
  unfold Create.parentCheck
  split_ifs
  · exact JNIEnvironment.CheckException_emits hP _ (Create.parentSC_emits j act options s hms hP)
  · exact Create.parentSC_emits j act options s hms hP

theorem Create.builder0_emits (hms : Create.methods0 ⊆ ms)
    (hP : ∀ ev, ev.uses ms = true → P ev) :
    Emits P s (Create.builder0 j act options s).st :=
  SurfaceControl.Builder.builder_ctor_emits
    (fun _ hm => hms (List.mem_append_right _ hm)) hP j _
    (Create.parentCheck_emits j act options s (fun _ hm => hms (List.mem_append_left _ hm)) hP)

/-- The configuration of the builder, with what `SetBufferSize` and `SetParent`
emit left to the caller. -/
theorem Create.builder_emits_of {t : JState} (hms : [.setName, .setFlags] ⊆ ms)
    (hP : ∀ ev, ev.uses ms = true → P ev)
    (hsize : ∀ b u, Emits P t u →
      Emits P t (SurfaceControl.Builder.SetBufferSize j b (Create.size j act options s).val.1
        (Create.size j act options s).val.2 u).st)
    (hparent : (Create.parentSC j act options s).val ≠ 0 → ∀ b u, Emits P t u →
      Emits P t (SurfaceControl.Builder.SetParent j b (Create.parentSC j act options s).val u).st)
    (h : Emits P t (Create.builder0 j act options s).st) :
    Emits P t (Create.builder j act options s).st := by
  have hn : [.setName] ⊆ ms :=
    fun _ hm => hms (by simp only [List.mem_singleton] at hm; subst hm; simp)
  have hf : [.setFlags] ⊆ ms :=
    fun _ hm => hms (by simp only [List.mem_singleton] at hm; subst hm; simp)
  have h1 := SurfaceControl.Builder.SetName_emits hn hP j
    (Create.builder0 j act options s).val options.name h
  unfold Create.builder
  simp only
  split_ifs with hp
  · refine hparent hp _ _ ?_
    refine SurfaceControl.Builder.SetSkipScreenshot_emits hf hP j _ _ ?_
    exact hsize _ _ h1
  · refine SurfaceControl.Builder.SetSkipScreenshot_emits hf hP j _ _ ?_
    exact hsize _ _ h1

theorem Create.deleteParent_emits (hP : ∀ ev, ev.uses ms = true → P ev) (p : Ptr)
    {t u : JState} (h : Emits P t u) : Emits P t (Create.deleteParent p u) := by
  unfold Create.deleteParent
  split_ifs
  · exact JNIEnv.DeleteLocalRef_emits hP _ h
  · exact h

/-! ### The steps of `Create`, one at a time

Each lemma carries `Emits P t0` from the state before a block of `Create` to
the state after it, for any starting state `t0`. -/

section chain

variable {t0 : JState}

theorem Create.localSurfaceControl_step (hms : [.build] ⊆ ms)
    (hP : ∀ ev, ev.uses ms = true → P ev)
    (h : Emits P t0 (Create.builder j act options s).st) :
    Emits P t0 (Create.localSurfaceControl j act options s).st :=
  SurfaceControl.Builder.Build_emits hms hP j _ h

theorem Create.buildCheck_step (hP : ∀ ev, ev.uses ms = true → P ev)
    (h : Emits P t0 (Create.localSurfaceControl j act options s).st) :
    Emits P t0 (Create.buildCheck j act options s).st := by
  unfold Create.buildCheck
  split_ifs
  · exact h
  · exact JNIEnvironment.CheckException_emits hP _ h

theorem Create.surfaceControl_step (hR : ∀ ev, ev.isResourceOp = true → P ev)
    (h : Emits P t0 (Create.buildCheck j act options s).st) :
    Emits P t0 (Create.surfaceControl j act options s).st :=
  GlobalRef.globalRef_ctor_emits hR j _ _ h

theorem Create.transaction0_step (hms : [.init] ⊆ ms) (hP : ∀ ev, ev.uses ms = true → P ev)
    (h : Emits P t0 (Create.surfaceControl j act options s).st) :
    Emits P t0 (Create.transaction0 j act options s).st :=
  SurfaceControl.Transaction.transaction_ctor_emits hms hP j _ h

theorem Create.transaction_step (hms : [.setAlpha, .setLayer, .show_, .apply] ⊆ ms)
    (hP : ∀ ev, ev.uses ms = true → P ev)
    (h : Emits P t0 (Create.transaction0 j act options s).st) :
    Emits P t0 (Create.transaction j act options s) := by
  have h1 : [.setAlpha] ⊆ ms :=
    fun _ hm => hms (by simp only [List.mem_singleton] at hm; subst hm; simp)
  have h2 : [.setLayer] ⊆ ms :=
    fun _ hm => hms (by simp only [List.mem_singleton] at hm; subst hm; simp)
  have h3 : [.show_] ⊆ ms :=
    fun _ hm => hms (by simp only [List.mem_singleton] at hm; subst hm; simp)
  have h4 : [.apply] ⊆ ms :=
    fun _ hm => hms (by simp only [List.mem_singleton] at hm; subst hm; simp)
  unfold Create.transaction
  simp only
  split_ifs
  · refine SurfaceControl.Transaction.transaction_dtor_emits hP _ ?_
    refine SurfaceControl.Transaction.Apply_emits h4 hP j _ ?_
    refine SurfaceControl.Transaction.Show_emits h3 hP j _ _ ?_
    refine SurfaceControl.Transaction.SetLayer_emits h2 hP j _ _ _ ?_
    exact SurfaceControl.Transaction.SetAlpha_emits h1 hP j _ _ _ h
  · exact SurfaceControl.Transaction.transaction_dtor_emits hP _ h

theorem Create.localSurface_step (hms : [.initFromSurfaceControl] ⊆ ms)
    (hP : ∀ ev, ev.uses ms = true → P ev)
    (h : Emits P t0 (Create.transaction j act options s)) :
    Emits P t0 (Create.localSurface j act options s).st :=
  Surface.CreateFromSurfaceControl_emits hms hP j _ _ h

theorem Create.surfaceCheck_step (hP : ∀ ev, ev.uses ms = true → P ev)
    (h : Emits P t0 (Create.localSurface j act options s).st) :
    Emits P t0 (Create.surfaceCheck j act options s).st := by
  unfold Create.surfaceCheck
  split_ifs
  · exact h
  · exact JNIEnvironment.CheckException_emits hP _ h

theorem Create.surface_step (hR : ∀ ev, ev.isResourceOp = true → P ev)
    (h : Emits P t0 (Create.surfaceCheck j act options s).st) :
    Emits P t0 (Create.surface j act options s).st :=
  GlobalRef.globalRef_ctor_emits hR j _ _ h

theorem Create.nativeWindow_step (hR : ∀ ev, ev.isResourceOp = true → P ev)
    (h : Emits P t0 (Create.surface j act options s).st) :
    Emits P t0 (Create.nativeWindow j act options s).st := by
  unfold Create.nativeWindow ANativeWindow_fromSurface
  exact Emits.log (hR _ rfl) h

end chain

theorem Create.methods1_sub {ms : List JMethod} (hms : Create.methods1 ⊆ ms) :
    Display.methods ++ SurfaceControl.parentMethods ⊆ ms ∧ Create.methods0 ⊆ ms ∧
    [.init] ⊆ ms ∧ [.build] ⊆ ms ∧ [.initFromSurfaceControl] ⊆ ms := by
  refine ⟨fun _ hm => hms ?_, fun _ hm => hms ?_, fun _ hm => hms ?_, fun _ hm => hms ?_,
    fun _ hm => hms ?_⟩
  · exact List.mem_append_left _ (List.mem_append_left _ hm)
  · exact List.mem_append_left _ hm
  · simp only [List.mem_singleton] at hm; subst hm; decide
  · simp only [List.mem_singleton] at hm; subst hm; decide
  · simp only [List.mem_singleton] at hm; subst hm; decide

/-- Every event of a `Create` call satisfies `P`, given what the builder
configuration and the initial transaction emit. -/
theorem Create_emits (hms : Create.methods1 ⊆ ms) (hP : ∀ ev, ev.uses ms = true → P ev)
    (hR : ∀ ev, ev.isResourceOp = true → P ev) (reg : Registry)
    (hb : Emits P s (Create.builder0 j act options s).st →
      Emits P s (Create.builder j act options s).st)
    (ht : Emits P s (Create.transaction0 j act options s).st →
      Emits P s (Create.transaction j act options s)) :
    Emits P s (Create j reg s (some act) options).st := by
  obtain ⟨hd, h0, hi, hbu, hsf⟩ := Create.methods1_sub hms
  have e0 := Create.builder0_emits j act options s h0 hP
  have e1 := Create.buildCheck_step j act options s hP
    (Create.localSurfaceControl_step j act options s hbu hP (hb e0))
  have e2 := ht (Create.transaction0_step j act options s hi hP
    (Create.surfaceControl_step j act options s hR e1))
  have e3 := Create.surfaceCheck_step j act options s hP
    (Create.localSurface_step j act options s hsf hP e2)
  have e4 := Create.nativeWindow_step j act options s hR
    (Create.surface_step j act options s hR e3)
  unfold Create
  simp only
  split_ifs
  · exact Emits.refl P s
  · exact Create.jniEnv_emits j act s hP
  · exact Create.parentCheck_emits j act options s hd hP
  · exact SurfaceControl.Builder.builder_dtor_emits hP _ e0
  · exact SurfaceControl.Builder.builder_dtor_emits hP _ (Create.deleteParent_emits hP _ e1)
  · exact SurfaceControl.Builder.builder_dtor_emits hP _ (WindowContext.context_dtor_emits hR _
      (Create.deleteParent_emits hP _ (JNIEnv.DeleteLocalRef_emits hP _ e3)))
  · exact SurfaceControl.Builder.builder_dtor_emits hP _ (WindowContext.context_dtor_emits hR _
      (Create.deleteParent_emits hP _ (JNIEnv.DeleteLocalRef_emits hP _
        (JNIEnv.DeleteLocalRef_emits hP _ e4))))
  · exact SurfaceControl.Builder.builder_dtor_emits hP _ (Create.deleteParent_emits hP _
      (JNIEnv.DeleteLocalRef_emits hP _ (JNIEnv.DeleteLocalRef_emits hP _ e4)))
  · exact SurfaceControl.Builder.builder_dtor_emits hP _ (WindowContext.context_dtor_emits hR _
      (Create.deleteParent_emits hP _ (JNIEnv.DeleteLocalRef_emits hP _
        (JNIEnv.DeleteLocalRef_emits hP _ e4))))

/-- The whole builder configuration, when every setter may be used. -/
theorem Create.builder_step {t0 : JState}
    (hms : [.setName, .setFlags, .setBufferSize, .setParent] ⊆ ms)
    (hP : ∀ ev, ev.uses ms = true → P ev)
    (h : Emits P t0 (Create.builder0 j act options s).st) :
    Emits P t0 (Create.builder j act options s).st := by
  have hnf : [.setName, .setFlags] ⊆ ms := by
    intro m hm
    apply hms
    simp only [List.mem_cons, List.mem_singleton, List.not_mem_nil, or_false] at hm ⊢
    rcases hm with hm | hm
    · exact Or.inl hm
    · exact Or.inr (Or.inl hm)
  have hsz : [.setBufferSize] ⊆ ms := by
    intro m hm
    apply hms
    simp only [List.mem_singleton] at hm
    subst hm
    simp
  have hpa : [.setParent] ⊆ ms := by
    intro m hm
    apply hms
    simp only [List.mem_singleton] at hm
    subst hm
    simp
  refine Create.builder_emits_of j act options s hnf hP ?_ ?_ h
  · intro b u hu
    exact SurfaceControl.Builder.SetBufferSize_emits hsz hP j b _ _ hu
  · intro _ b u hu
    exact SurfaceControl.Builder.SetParent_emits hpa hP j b _ hu

theorem Destroy_untracked (j : Jvm) (reg : Registry) (s : JState)
    (activity : Option ANativeActivity) (h : Ptr) (hkey : reg.find h = none) :
    (Destroy j reg s activity h).registry = reg ∧
    (h = 0 → (Destroy j reg s activity h).st = s) ∧
    (h ≠ 0 → (Destroy j reg s activity h).st =
      { pending := s.pending, trace := s.trace ++ [.ANativeWindow_release h] }) := by
  unfold Destroy
  by_cases h0 : h = 0
  · simp [h0]
  · simp [h0, hkey, ANativeWindow_release, JState.log]

theorem Destroy_registered (j : Jvm) (reg : Registry) (s : JState)
    (activity : Option ANativeActivity) (h : Ptr) (ctx : WindowContext)
    (hh : h ≠ 0) (hreg : reg.find h = some ctx) :
    Destroy j reg s activity h =
      ⟨(), reg.erase h, (ctx.Release (Destroy.teardown j activity ctx s)).st⟩ := by
  unfold Destroy
  simp only [hh, if_false, hreg, WindowContext.dtor_Release]

theorem Registry.find_emplace_self (r : Registry) (k : Ptr) (v : WindowContext)
    (h : r.find k = none) : (r.emplace k v).find k = some v := by
  have h' : r k = none := h
  simp [Registry.find, Registry.emplace, h']

theorem Registry.find_erase_self (r : Registry) (k : Ptr) : (r.erase k).find k = none := by
  simp [Registry.find, Registry.erase]

theorem Registry.find_erase_of_ne (r : Registry) {k k' : Ptr} (h : k' ≠ k) :
    (r.erase k).find k' = r.find k' := by
  simp [Registry.find, Registry.erase, h]

end ANwCreator

theorem JMethod.mem_all (m : JMethod) : m ∈ JMethod.all := by
  cases m <;> decide

theorem JMethod.sub_all (ms : List JMethod) : ms ⊆ JMethod.all :=
  fun m _ => JMethod.mem_all m

namespace ANwCreator

open jni framework detail

theorem quiet_of_uses : ∀ ev, ev.uses JMethod.all = true → Quiet ev :=
  fun ev hev => Event.uses_quiet ev hev

theorem Create.buildCheck_quiet (j : Jvm) (act : ANativeActivity) (options : CreateOptions)
    (s : JState) : Emits Quiet s (Create.buildCheck j act options s).st :=
  Create.buildCheck_step j act options s quiet_of_uses
    (Create.localSurfaceControl_step j act options s (JMethod.sub_all _) quiet_of_uses
      (Create.builder_step j act options s (JMethod.sub_all _) quiet_of_uses
        (Create.builder0_emits j act options s (JMethod.sub_all _) quiet_of_uses)))

theorem Create.surfaceCheck_delta (j : Jvm) (act : ANativeActivity) (options : CreateOptions)
    (s : JState) :
    Delta s (Create.surfaceCheck j act options s).st
      (Create.surfaceControl j act options s).val.held [] := by
  have h1 : Delta s (Create.surfaceControl j act options s).st
      (Create.surfaceControl j act options s).val.held [] := by
    simpa using (Delta.of_emits (Create.buildCheck_quiet j act options s)).append
      (GlobalRef.ctor_delta j (Create.jniEnv j act s).val.env
        (Create.localSurfaceControl j act options s).val (Create.buildCheck j act options s).st)
  refine h1.then_quiet ?_
  exact Create.surfaceCheck_step j act options s quiet_of_uses
    (Create.localSurface_step j act options s (JMethod.sub_all _) quiet_of_uses
      (Create.transaction_step j act options s (JMethod.sub_all _) quiet_of_uses
        (Create.transaction0_step j act options s (JMethod.sub_all _) quiet_of_uses
          (Emits.refl _ _))))

theorem Create.nativeWindow_delta (j : Jvm) (act : ANativeActivity) (options : CreateOptions)
    (s : JState) :
    Delta s (Create.nativeWindow j act options s).st
      ((Create.surfaceControl j act options s).val.held ++
        (Create.surface j act options s).val.held) [] := by
  have h1 := (Create.surfaceCheck_delta j act options s).append
    (GlobalRef.ctor_delta j (Create.jniEnv j act s).val.env
      (Create.localSurface j act options s).val (Create.surfaceCheck j act options s).st)
  have h2 : Delta (Create.surface j act options s).st (Create.nativeWindow j act options s).st
      [] [] := ⟨[.ANativeWindow_fromSurface _ _], rfl, rfl, rfl⟩
  simpa using h1.append h2

/-- A `Create` call that returns null released what it acquired. -/
theorem Create_null_delta (j : Jvm) (reg : Registry) (s : JState)
    (activity : Option ANativeActivity) (options : CreateOptions)
    (h : (Create j reg s activity options).val = 0) :
    ∃ a r, Delta s (Create j reg s activity options).st a r ∧ a.Perm r := by
  cases activity with
  | none => exact ⟨[], [], Delta.none s, List.Perm.refl _⟩
  | some act =>
    have hq : ∀ ev, ev.uses JMethod.all = true → Quiet ev := quiet_of_uses
    have hsub : ∀ ms : List JMethod, ms ⊆ JMethod.all := JMethod.sub_all
    unfold Create at h ⊢
    simp only at h ⊢
    split_ifs at h ⊢ with c1 c2 c3 c4 c5 c6 c7 c8
    · exact ⟨[], [], Delta.none s, List.Perm.refl _⟩
    · exact ⟨[], [], Delta.of_emits (Create.jniEnv_emits j act s hq), List.Perm.refl _⟩
    · exact ⟨[], [], Delta.of_emits (Create.parentCheck_emits j act options s (hsub _) hq),
        List.Perm.refl _⟩
    · exact ⟨[], [], Delta.of_emits (SurfaceControl.Builder.builder_dtor_emits hq _
        (Create.builder0_emits j act options s (hsub _) hq)), List.Perm.refl _⟩
    · exact ⟨[], [], Delta.of_emits (SurfaceControl.Builder.builder_dtor_emits hq _
        (Create.deleteParent_emits hq _ (Create.buildCheck_quiet j act options s))),
        List.Perm.refl _⟩
    · refine ⟨(Create.surfaceControl j act options s).val.held,
        (Create.surfaceControl j act options s).val.held, ?_, List.Perm.refl _⟩
      have h1 := (Create.surfaceCheck_delta j act options s).then_quiet
        (Create.deleteParent_emits hq (Create.parentSC j act options s).val
          (JNIEnv.DeleteLocalRef_emits hq (Create.localSurfaceControl j act options s).val
            (Emits.refl _ _)))
      have h2 := (h1.append (WindowContext.dtor_delta (Create.context0 j act options s) _)).then_quiet
        (SurfaceControl.Builder.builder_dtor_emits hq (Create.builder j act options s).val
          (Emits.refl _ _))
      simpa [Create.context0, heldBy] using h2
    · refine ⟨(Create.surfaceControl j act options s).val.held ++
          (Create.surface j act options s).val.held,
        (Create.surface j act options s).val.held ++
          (Create.surfaceControl j act options s).val.held, ?_, List.perm_append_comm⟩
      have h1 := (Create.nativeWindow_delta j act options s).then_quiet
        (Create.deleteParent_emits hq (Create.parentSC j act options s).val
          (JNIEnv.DeleteLocalRef_emits hq (Create.localSurfaceControl j act options s).val
            (JNIEnv.DeleteLocalRef_emits hq (Create.localSurface j act options s).val
              (Emits.refl _ _))))
      have h2 := (h1.append (WindowContext.dtor_delta (Create.context j act options s) _)).then_quiet
        (SurfaceControl.Builder.builder_dtor_emits hq (Create.builder j act options s).val
          (Emits.refl _ _))
      simpa [Create.context, Create.context0, heldBy] using h2
    · exact absurd h c7
    · exact absurd h c7

end ANwCreator
theorem JMethod.mem_allBut {bad : List JMethod} {m : JMethod} (h : m ∉ bad) :
    m ∈ JMethod.allBut bad := by
  unfold JMethod.allBut
  simp only [List.mem_filter, decide_eq_true_eq]
  exact ⟨JMethod.mem_all m, h⟩

theorem JMethod.sub_allBut {bad ms : List JMethod} (h : ∀ m ∈ ms, m ∉ bad) :
    ms ⊆ JMethod.allBut bad :=
  fun m hm => JMethod.mem_allBut (h m hm)

theorem Event.method_of_resource (ev : Event) (h : ev.isResourceOp = true) : ev.method = none := by
  cases ev <;> simp_all [Event.isResourceOp, Event.method]

theorem Event.avoids_of_uses (bad : List JMethod) (ev : Event)
    (h : ev.uses (JMethod.allBut bad) = true) : ev.avoids bad := by
  intro m hm hev
  unfold Event.uses at h
  simp only [hev, Bool.and_eq_true, decide_eq_true_eq] at h
  have := h.2
  unfold JMethod.allBut at this
  simp only [List.mem_filter, decide_eq_true_eq] at this
  exact this.2 hm

theorem Event.avoids_of_resource (bad : List JMethod) (ev : Event)
    (h : ev.isResourceOp = true) : ev.avoids bad := by
  intro m _ hev
  rw [Event.method_of_resource ev h] at hev
  exact Option.noConfusion hev

theorem Event.sizedAs_of_uses (w h : Int) (ev : Event)
    (hev : ev.uses (JMethod.allBut [.setBufferSize]) = true) : ev.sizedAs w h := by
  intro obj args he
  exfalso
  refine Event.avoids_of_uses _ ev hev .setBufferSize (by simp) ?_
  rw [he]
  rfl

theorem Event.sizedAs_of_resource (w h : Int) (ev : Event)
    (hev : ev.isResourceOp = true) : ev.sizedAs w h := by
  intro obj args he
  rw [he] at hev
  exact Bool.noConfusion hev

namespace framework

theorem SurfaceControl.Builder.SetBufferSize_emits_args {P : Event → Prop} {w h : Int}
    (h1 : ∀ cls, P (.GetMethodID cls .setBufferSize))
    (h2 : ∀ obj, P (.CallObjectMethod obj (some .setBufferSize) [.int w, .int h]))
    (j : Jvm) (self : SurfaceControl.Builder) {s t : JState} (he : Emits P s t) :
    Emits P s (SurfaceControl.Builder.SetBufferSize j self w h t).st := by
  unfold SurfaceControl.Builder.SetBufferSize JNIEnv.GetMethodID JNIEnv.CallObjectMethod
  simp only
  split_ifs
  all_goals first
    | exact he
    | exact Emits.risky j (h2 _) (Emits.risky j (h1 _) he)
    | exact Emits.risky j (h1 _) he
    | (exfalso; simp at *)

end framework

namespace ANwCreator

open jni framework detail

theorem Registry.count_emplace_self (r : Registry) (k : Ptr) (v : WindowContext) :
    (r.emplace k v).count k = 1 := by
  unfold Registry.emplace Registry.count
  cases h : r k with
  | none => simp
  | some c => simp [h]

theorem IsValid_of_passes (j : Jvm) (reg : Registry) (s : JState) (act : ANativeActivity)
    (options : CreateOptions) (hp : Create.Passes j act options s) :
    (Create j reg s (some act) options).val ≠ 0 ∧
    (IsValid (Create j reg s (some act) options).registry
      (Create j reg s (some act) options).val).val = true := by
  obtain ⟨hv, hr⟩ := Create_of_passes j reg s act options hp
  have hnw := hp.2.2.2.2.2.2.2
  rw [hv, hr]
  refine ⟨hnw, ?_⟩
  simp [IsValid, Registry.count_emplace_self, hnw]

theorem CheckException_of_not_pending (self : JNIEnvironment) (s : JState)
    (h : s.pending = false) : (self.CheckException s).val = false := by
  unfold JNIEnvironment.CheckException
  split_ifs <;> rfl

end ANwCreator
theorem Calls.nil (s : JState) : Calls s s [] := ⟨[], by simp, rfl⟩

theorem Calls.concat {s t u : JState} {l l' : List (JMethod × List JValue)}
    (h1 : Calls s t l) (h2 : Calls t u l') : Calls s u (l ++ l') := by
  obtain ⟨e1, ht, hl⟩ := h1
  obtain ⟨e2, hu, hl'⟩ := h2
  refine ⟨e1 ++ e2, by rw [hu, ht, List.append_assoc], ?_⟩
  simp only [invocations, List.filterMap_append] at *
  rw [hl, hl']

/-- Four lists, each within a singleton, that make up the four elements. -/
theorem four_singletons {α : Type} {a b c d : α} {l1 l2 l3 l4 : List α}
    (s1 : l1.Sublist [a]) (s2 : l2.Sublist [b]) (s3 : l3.Sublist [c]) (s4 : l4.Sublist [d])
    (h : l1 ++ l2 ++ l3 ++ l4 = [a, b, c, d]) :
    l1 = [a] ∧ l2 = [b] ∧ l3 = [c] ∧ l4 = [d] := by
  have e1 := s1.length_le
  have e2 := s2.length_le
  have e3 := s3.length_le
  have e4 := s4.length_le
  have e := congrArg List.length h
  simp only [List.length_append, List.length_cons, List.length_nil] at e e1 e2 e3 e4
  exact ⟨s1.eq_of_length_le (by simp; omega), s2.eq_of_length_le (by simp; omega),
    s3.eq_of_length_le (by simp; omega), s4.eq_of_length_le (by simp; omega)⟩

namespace framework.SurfaceControl.Transaction

theorem lookup_then_call (j : Jvm) (self : Transaction) (m : JMethod) (args : List JValue)
    (t : JState) :
    Calls t (JState.risky j (JState.risky j t (.GetMethodID self.transactionClass m))
      (.CallObjectMethod self.transaction (some m) args)) [(m, args)] :=
  ⟨[.GetMethodID self.transactionClass m, .CallObjectMethod self.transaction (some m) args],
    by simp [JState.risky], rfl⟩

theorem lookup_only (j : Jvm) (cls : Ptr) (m : JMethod) (t : JState) :
    Calls t (JState.risky j t (.GetMethodID cls m)) [] :=
  ⟨[.GetMethodID cls m], by simp [JState.risky], rfl⟩

theorem SetAlpha_calls (j : Jvm) (self : Transaction) (sc : Ptr) (alpha : Nat) (t : JState) :
    Calls.Once t (SetAlpha j self sc alpha t).st .setAlpha [.obj sc, .float alpha]
      (self.transaction ≠ 0 ∧ sc ≠ 0 ∧ j.hasMethod self.transactionClass .setAlpha = true) := by
  unfold SetAlpha JNIEnv.GetMethodID JNIEnv.CallObjectMethod Calls.Once
  simp only
  split_ifs
  all_goals first
    | exact ⟨_, lookup_then_call j self _ _ t, List.Sublist.refl _,
        ⟨fun _ => by simp_all, fun _ => rfl⟩⟩
    | exact ⟨[], Calls.nil t, by simp, by simp; tauto⟩
    | exact ⟨[], lookup_only j _ _ t, by simp, by simp_all⟩
    | (exfalso; simp_all)

theorem SetLayer_calls (j : Jvm) (self : Transaction) (sc : Ptr) (z : Int) (t : JState) :
    Calls.Once t (SetLayer j self sc z t).st .setLayer [.obj sc, .int z]
      (self.transaction ≠ 0 ∧ sc ≠ 0 ∧ j.hasMethod self.transactionClass .setLayer = true) := by
  unfold SetLayer JNIEnv.GetMethodID JNIEnv.CallObjectMethod Calls.Once
  simp only
  split_ifs
  all_goals first
    | exact ⟨_, lookup_then_call j self _ _ t, List.Sublist.refl _,
        ⟨fun _ => by simp_all, fun _ => rfl⟩⟩
    | exact ⟨[], Calls.nil t, by simp, by simp; tauto⟩
    | exact ⟨[], lookup_only j _ _ t, by simp, by simp_all⟩
    | (exfalso; simp_all)

theorem Show_calls (j : Jvm) (self : Transaction) (sc : Ptr) (t : JState) :
    Calls.Once t (Show j self sc t).st .show_ [.obj sc]
      (self.transaction ≠ 0 ∧ sc ≠ 0 ∧ j.hasMethod self.transactionClass .show_ = true) := by
  unfold Show JNIEnv.GetMethodID JNIEnv.CallObjectMethod Calls.Once
  simp only
  split_ifs
  all_goals first
    | exact ⟨_, lookup_then_call j self _ _ t, List.Sublist.refl _,
        ⟨fun _ => by simp_all, fun _ => rfl⟩⟩
    | exact ⟨[], Calls.nil t, by simp, by simp; tauto⟩
    | exact ⟨[], lookup_only j _ _ t, by simp, by simp_all⟩
    | (exfalso; simp_all)

theorem Apply_calls (j : Jvm) (self : Transaction) (t : JState) :
    Calls.Once t (Apply j self t) .apply []
      (self.transaction ≠ 0 ∧ j.hasMethod self.transactionClass .apply = true) := by
  unfold Calls.Once
  by_cases h1 : self.transaction = 0
  · have e : Apply j self t = t := by simp [Apply, h1]
    rw [e]
    exact ⟨[], Calls.nil t, by simp, by simp [h1]⟩
  · by_cases h2 : j.hasMethod self.transactionClass .apply = true
    · have e : Apply j self t =
          JState.risky j (JState.risky j t (.GetMethodID self.transactionClass .apply))
            (.CallVoidMethod self.transaction (some .apply) []) := by
        simp [Apply, JNIEnv.GetMethodID, JNIEnv.CallVoidMethod, h1, h2]
      rw [e]
      exact ⟨_, ⟨[.GetMethodID self.transactionClass .apply,
        .CallVoidMethod self.transaction (some .apply) []], by simp [JState.risky], rfl⟩,
        List.Sublist.refl _, ⟨fun _ => ⟨h1, h2⟩, fun _ => rfl⟩⟩
    · have e : Apply j self t = JState.risky j t (.GetMethodID self.transactionClass .apply) := by
        simp [Apply, JNIEnv.GetMethodID, JNIEnv.CallVoidMethod, h1, h2]
      rw [e]
      exact ⟨[], lookup_only j _ _ t, by simp, by simp [h2]⟩

theorem dtor_calls (self : Transaction) (t : JState) : Calls t (dtor self t) [] := by
  unfold dtor JNIEnv.DeleteLocalRef
  simp only
  split_ifs
  · exact ⟨[.DeleteLocalRef self.transaction, .DeleteLocalRef self.transactionClass],
      by simp [JState.log], rfl⟩
  · exact ⟨[.DeleteLocalRef self.transactionClass], by simp [JState.log], rfl⟩
  · exact ⟨[.DeleteLocalRef self.transaction], by simp [JState.log], rfl⟩
  · exact Calls.nil t

/-- A mutator keeps the class, keeps a null transaction null, and is the
identity on a null surface control. -/
theorem SetAlpha_chain (j : Jvm) (self : Transaction) (sc : Ptr) (alpha : Nat) (t : JState) :
    (SetAlpha j self sc alpha t).val.transactionClass = self.transactionClass ∧
    ((SetAlpha j self sc alpha t).val.transaction ≠ 0 → self.transaction ≠ 0) ∧
    (sc = 0 → (SetAlpha j self sc alpha t).val = self) := by
  unfold SetAlpha JNIEnv.GetMethodID JNIEnv.CallObjectMethod
  simp only
  split_ifs <;> simp_all

theorem SetLayer_chain (j : Jvm) (self : Transaction) (sc : Ptr) (z : Int) (t : JState) :
    (SetLayer j self sc z t).val.transactionClass = self.transactionClass ∧
    ((SetLayer j self sc z t).val.transaction ≠ 0 → self.transaction ≠ 0) ∧
    (sc = 0 → (SetLayer j self sc z t).val = self) := by
  unfold SetLayer JNIEnv.GetMethodID JNIEnv.CallObjectMethod
  simp only
  split_ifs <;> simp_all

theorem Show_chain (j : Jvm) (self : Transaction) (sc : Ptr) (t : JState) :
    (Show j self sc t).val.transactionClass = self.transactionClass ∧
    ((Show j self sc t).val.transaction ≠ 0 → self.transaction ≠ 0) ∧
    (sc = 0 → (Show j self sc t).val = self) := by
  unfold Show JNIEnv.GetMethodID JNIEnv.CallObjectMethod
  simp only
  split_ifs <;> simp_all

end framework.SurfaceControl.Transaction

namespace ANwCreator

open jni framework detail

theorem Create.transaction_of_valid (j : Jvm) (act : ANativeActivity) (options : CreateOptions)
    (s : JState) (hvalid : (Create.transaction0 j act options s).val.IsValid = true) :
    Create.transaction j act options s =
      SurfaceControl.Transaction.dtor (Create.mutators j act options s).val
        (SurfaceControl.Transaction.Apply j (Create.mutators j act options s).val
          (Create.mutators j act options s).st) := by
  unfold Create.transaction Create.mutators
  simp only [hvalid, if_true]

/-- What the block of the initial transaction invokes, for a valid transaction. -/
theorem Create.transaction_calls (j : Jvm) (act : ANativeActivity) (options : CreateOptions)
    (s : JState) (hvalid : (Create.transaction0 j act options s).val.IsValid = true) :
    ∃ l, Calls (Create.transaction0 j act options s).st (Create.transaction j act options s) l ∧
      l.Sublist (Create.initialTransaction (Create.surfaceControl j act options s).val.get) ∧
      (l = Create.initialTransaction (Create.surfaceControl j act options s).val.get ↔
        (Create.surfaceControl j act options s).val.get ≠ 0 ∧
        (∀ m ∈ [JMethod.setAlpha, .setLayer, .show_, .apply],
          j.hasMethod (Create.transaction0 j act options s).val.transactionClass m = true) ∧
        (Create.mutators j act options s).val.IsValid = true) ∧
      ((Create.surfaceControl j act options s).val.get = 0 →
        l = if j.hasMethod (Create.transaction0 j act options s).val.transactionClass .apply
          then [(JMethod.apply, [])] else []) := by
  have hv : (Create.transaction0 j act options s).val.transaction ≠ 0 := by
    simpa [SurfaceControl.Transaction.IsValid] using hvalid
  obtain ⟨sc, hsc'⟩ : ∃ sc, sc = (Create.surfaceControl j act options s).val.get := ⟨_, rfl⟩
  obtain ⟨T, hT⟩ : ∃ T, T = Create.transaction0 j act options s := ⟨_, rfl⟩
  obtain ⟨a, ha⟩ : ∃ a, a = SurfaceControl.Transaction.SetAlpha j T.val sc float_1_0 T.st :=
    ⟨_, rfl⟩
  obtain ⟨b, hb⟩ : ∃ b, b = SurfaceControl.Transaction.SetLayer j a.val sc Create.layer a.st :=
    ⟨_, rfl⟩
  obtain ⟨c, hc⟩ : ∃ c, c = SurfaceControl.Transaction.Show j b.val sc b.st := ⟨_, rfl⟩
  have hmut : Create.mutators j act options s = c := by
    unfold Create.mutators
    simp only
    rw [hc, hb, ha, hT, hsc']
  have hfin : Create.transaction j act options s =
      SurfaceControl.Transaction.dtor c.val (SurfaceControl.Transaction.Apply j c.val c.st) := by
    rw [Create.transaction_of_valid j act options s hvalid, hmut]
  have k1 := SurfaceControl.Transaction.SetAlpha_calls j T.val sc float_1_0 T.st
  have v1 := SurfaceControl.Transaction.SetAlpha_chain j T.val sc float_1_0 T.st
  rw [← ha] at k1 v1
  have k2 := SurfaceControl.Transaction.SetLayer_calls j a.val sc Create.layer a.st
  have v2 := SurfaceControl.Transaction.SetLayer_chain j a.val sc Create.layer a.st
  rw [← hb] at k2 v2
  have k3 := SurfaceControl.Transaction.Show_calls j b.val sc b.st
  have v3 := SurfaceControl.Transaction.Show_chain j b.val sc b.st
  rw [← hc] at k3 v3
  have k4 := SurfaceControl.Transaction.Apply_calls j c.val c.st
  have c5 := SurfaceControl.Transaction.dtor_calls c.val
    (SurfaceControl.Transaction.Apply j c.val c.st)
  obtain ⟨l1, c1, s1, f1⟩ := k1
  obtain ⟨l2, c2, s2, f2⟩ := k2
  obtain ⟨l3, c3, s3, f3⟩ := k3
  obtain ⟨l4, c4, s4, f4⟩ := k4
  rw [hfin, hmut, ← hsc', ← hT]
  rw [← hT] at hv
  have hcls : c.val.transactionClass = T.val.transactionClass := by rw [v3.1, v2.1, v1.1]
  have hvalid_c : c.val.IsValid = true ↔ c.val.transaction ≠ 0 := by
    simp [SurfaceControl.Transaction.IsValid]
  refine ⟨l1 ++ l2 ++ l3 ++ l4, ?_, ?_, ⟨?_, ?_⟩, ?_⟩
  · have h := (((c1.concat c2).concat c3).concat c4).concat c5
    simpa only [List.append_nil] using h
  · exact ((s1.append s2).append s3).append s4
  · intro h
    obtain ⟨e1, e2, e3, e4⟩ := four_singletons s1 s2 s3 s4 h
    have g1 := f1.1 e1
    have g2 := f2.1 e2
    have g3 := f3.1 e3
    have g4 := f4.1 e4
    refine ⟨g1.2.1, ?_, hvalid_c.2 g4.1⟩
    intro m hm
    simp only [List.mem_cons, List.mem_singleton, List.not_mem_nil, or_false] at hm
    rcases hm with rfl | rfl | rfl | rfl
    · exact g1.2.2
    · rw [← v1.1]; exact g2.2.2
    · rw [← v1.1, ← v2.1]; exact g3.2.2
    · rw [← hcls]; exact g4.2
  · rintro ⟨hsc, hm, hc3⟩
    have m1 := hm .setAlpha (by simp)
    have m2 := hm .setLayer (by simp)
    have m3 := hm .show_ (by simp)
    have m4 := hm .apply (by simp)
    have w3 := hvalid_c.1 hc3
    have w2 := v3.2.1 w3
    have w1 := v2.2.1 w2
    rw [f1.2 ⟨hv, hsc, m1⟩, f2.2 ⟨w1, hsc, by rw [v1.1]; exact m2⟩,
      f3.2 ⟨w2, hsc, by rw [v2.1, v1.1]; exact m3⟩, f4.2 ⟨w3, by rw [hcls]; exact m4⟩]
    rfl
  · intro hsc
    have n1 : l1 = [] := by
      rcases List.sublist_singleton.1 s1 with h | h
      · exact h
      · exact absurd hsc (f1.1 h).2.1
    have n2 : l2 = [] := by
      rcases List.sublist_singleton.1 s2 with h | h
      · exact h
      · exact absurd hsc (f2.1 h).2.1
    have n3 : l3 = [] := by
      rcases List.sublist_singleton.1 s3 with h | h
      · exact h
      · exact absurd hsc (f3.1 h).2.1
    have hcT : c.val.transaction = T.val.transaction := by
      rw [v3.2.2 hsc, v2.2.2 hsc, v1.2.2 hsc]
    rw [n1, n2, n3]
    simp only [List.nil_append]
    by_cases hap : j.hasMethod T.val.transactionClass .apply = true
    · rw [if_pos hap]
      exact f4.2 ⟨by rw [hcT]; exact hv, by rw [hcls]; exact hap⟩
    · rw [if_neg hap]
      rcases List.sublist_singleton.1 s4 with h | h
      · exact h
      · exact absurd (by rw [← hcls]; exact (f4.1 h).2) hap

end ANwCreator

namespace ANwCreator

open jni framework detail

theorem Registry.wellFormed_empty : Registry.empty.WellFormed :=
  ⟨rfl, fun _ _ h => Option.noConfusion h⟩

theorem Registry.wellFormed_emplace (r : Registry) (k : Ptr) (v : WindowContext)
    (hr : r.WellFormed) (hk : k ≠ 0) (hv : v.nativeWindow = k)
    (hsc : v.surfaceControl.isSome = true) (hs : v.surface.isSome = true) :
    (r.emplace k v).WellFormed := by
  unfold Registry.WellFormed Registry.find Registry.emplace at *
  cases hrk : r k with
  | some c =>
    simp only [hrk]
    exact hr
  | none =>
    simp only [hrk]
    refine ⟨?_, ?_⟩
    · simp [Ne.symm hk, hr.1]
    · intro k' ctx h
      by_cases hkk : k' = k
      · simp only [hkk, if_true] at h
        cases h
        exact ⟨hkk ▸ hv, hsc, hs⟩
      · simp only [hkk, if_false] at h
        exact hr.2 k' ctx h

theorem Registry.wellFormed_erase (r : Registry) (k : Ptr) (hr : r.WellFormed) :
    (r.erase k).WellFormed := by
  unfold Registry.WellFormed Registry.find Registry.erase at *
  refine ⟨?_, ?_⟩
  · by_cases h : 0 = k
    · simp [h]
    · simp [h, hr.1]
  · intro k' ctx h
    by_cases hkk : k' = k
    · simp [hkk] at h
    · simp only [hkk, if_false] at h
      exact hr.2 k' ctx h

theorem Create_wellFormed (j : Jvm) (r : Registry) (s : JState)
    (activity : Option ANativeActivity) (options : CreateOptions) (hr : r.WellFormed) :
    (Create j r s activity options).registry.WellFormed := by
  cases activity with
  | none => exact hr
  | some act =>
    rcases Create_null_or_passes j r s act options with ⟨_, h⟩ | hp
    · rw [h]
      exact hr
    · rw [(Create_of_passes j r s act options hp).2]
      exact Registry.wellFormed_emplace r _ _ hr hp.2.2.2.2.2.2.2 rfl rfl rfl

theorem Destroy_wellFormed (j : Jvm) (r : Registry) (s : JState)
    (activity : Option ANativeActivity) (h : Ptr) (hr : r.WellFormed) :
    (Destroy j r s activity h).registry.WellFormed := by
  by_cases h0 : h = 0
  · have : Destroy j r s activity h = ⟨(), r, s⟩ := by simp [Destroy, h0]
    rw [this]
    exact hr
  · cases hf : r.find h with
    | none =>
      rw [(Destroy_untracked j r s activity h hf).1]
      exact hr
    | some ctx =>
      rw [Destroy_registered j r s activity h ctx h0 hf]
      exact Registry.wellFormed_erase r h hr

end ANwCreator

/-! ## The claims -/

namespace ANwCreator

open jni framework detail

/-- C1: when `Create` returns a non-null handle that was not yet a key of the
registry, `IsValid` of that handle is true afterwards and `GetWindowSize`
returns true with the resolved geometry: the requested width and height when
both are positive, otherwise the width and height of the display query made
during the call. -/
theorem C1_create_registers_resolved_size (j : Jvm) (reg : Registry) (s : JState)
    (act : ANativeActivity) (options : CreateOptions) (w0 h0 : Int)
    (hret : (Create j reg s (some act) options).val ≠ 0)
    (hfresh : reg.find (Create j reg s (some act) options).val = none) :
    (IsValid (Create j reg s (some act) options).registry
      (Create j reg s (some act) options).val).val = true ∧
    (GetWindowSize (Create j reg s (some act) options).registry
      (Create j reg s (some act) options).val (some w0) (some h0)).val =
      ⟨true,
       some (if 0 < options.width ∧ 0 < options.height then options.width
             else (Create.displayInfo j act s).val.width),
       some (if 0 < options.width ∧ 0 < options.height then options.height
             else (Create.displayInfo j act s).val.height)⟩ := by
  rcases Create_null_or_passes j reg s act options with ⟨h0, _⟩ | hp
  · exact absurd h0 hret
  · obtain ⟨hv, hr⟩ := Create_of_passes j reg s act options hp
    rw [hv] at hfresh hret
    have hfind := Registry.find_emplace_self reg _ (Create.context j act options s) hfresh
    rw [hr, hv]
    constructor
    · have hk : (reg.emplace (Create.nativeWindow j act options s).val
          (Create.context j act options s)) (Create.nativeWindow j act options s).val =
          some (Create.context j act options s) := hfind
      simp [IsValid, Registry.count, hk, hret]
    · simp only [GetWindowSize, hfind, Option.map_some']
      by_cases hpos : 0 < options.width ∧ 0 < options.height
      · have hn : ¬(options.width ≤ 0 ∨ options.height ≤ 0) := by omega
        simp [Create.context, Create.context0, Create.size, hpos, hn]
      · have hn : options.width ≤ 0 ∨ options.height ≤ 0 := by omega
        simp [Create.context, Create.context0, Create.size, hpos, hn]

/-- C1, evaluated: the overlay options on a runtime where every step succeeds
and the display is 1080x2400. -/
theorem C1_create_registers_resolved_size_witness :
    (Create Examples.jvm Registry.empty Examples.s0 (some Examples.activity)
      Examples.overlayOptions).val ≠ 0 ∧
    Registry.empty.find (Create Examples.jvm Registry.empty Examples.s0 (some Examples.activity)
      Examples.overlayOptions).val = none ∧
    (IsValid (Create Examples.jvm Registry.empty Examples.s0 (some Examples.activity)
        Examples.overlayOptions).registry
      (Create Examples.jvm Registry.empty Examples.s0 (some Examples.activity)
        Examples.overlayOptions).val).val = true :=
  ⟨by decide, by decide,
   (C1_create_registers_resolved_size Examples.jvm Registry.empty Examples.s0 Examples.activity
     Examples.overlayOptions 0 0 (by decide) (by decide)).1⟩

/-- C2: when `Create` returns null the registry is exactly the one before the
call, and the durable references released during the call are, up to order,
those acquired during it, so the number of live durable references is the same
as before. -/
theorem C2_create_null_leaves_no_state (j : Jvm) (reg : Registry) (s : JState)
    (activity : Option ANativeActivity) (options : CreateOptions)
    (hnull : (Create j reg s activity options).val = 0) :
    (Create j reg s activity options).registry = reg ∧
    (∃ evs, (Create j reg s activity options).st.trace = s.trace ++ evs ∧
      (acquired evs).Perm (released evs)) ∧
    liveGlobalRefs (Create j reg s activity options).st.trace = liveGlobalRefs s.trace := by
  obtain ⟨a, r, ⟨evs, ht, ha, hr⟩, hperm⟩ := Create_null_delta j reg s activity options hnull
  refine ⟨?_, ⟨evs, ht, by rw [ha, hr]; exact hperm⟩, ?_⟩
  · cases activity with
    | none => rfl
    | some act =>
      rcases Create_null_or_passes j reg s act options with ⟨_, h⟩ | hp
      · exact h
      · have hv := (Create_of_passes j reg s act options hp).1
        rw [hnull] at hv
        exact absurd hv.symm hp.2.2.2.2.2.2.2
  · rw [ht]
    simp only [liveGlobalRefs, acquired, released, List.filterMap_append, List.length_append]
    have hl : (acquired evs).length = (released evs).length := by
      rw [ha, hr]; exact hperm.length_eq
    simp only [acquired, released] at hl
    omega

/-- C2, evaluated: the native-handle extraction fails after both durable
references were taken. -/
theorem C2_create_null_leaves_no_state_witness :
    (Create Examples.jvmNoNativeWindow Examples.registry5 Examples.s0
      (some Examples.activity) Examples.overlayOptions).val = 0 ∧
    liveGlobalRefs (Create Examples.jvmNoNativeWindow Examples.registry5 Examples.s0
      (some Examples.activity) Examples.overlayOptions).st.trace =
      liveGlobalRefs Examples.s0.trace :=
  ⟨by decide,
   (C2_create_null_leaves_no_state Examples.jvmNoNativeWindow Examples.registry5 Examples.s0
     (some Examples.activity) Examples.overlayOptions (by decide)).2.2⟩

/-- C3: after `Destroy(activity, h)` returns, `IsValid(h)` is false, for every
registry, every activity (null included) and every handle: null, never
created, already destroyed or currently registered. -/
theorem C3_destroy_then_not_valid (j : Jvm) (reg : Registry) (s : JState)
    (activity : Option ANativeActivity) (h : Ptr) :
    (IsValid (Destroy j reg s activity h).registry h).val = false := by
  unfold Destroy IsValid Registry.count
  by_cases h0 : h = 0
  · simp [h0]
  · simp only [h0, if_false]
    cases hf : reg.find h with
    | none =>
      have : reg h = none := hf
      simp [this]
    | some ctx => simp [Registry.erase]

/-- C4, as the code has it: on a registered handle the second `Destroy` leaves
the registry as the first left it and issues neither a transaction nor a
release of a durable reference, but it does release the raw native handle once
more, through the branch for a handle the registry does not hold. -/
theorem C4_second_destroy_releases_again (j : Jvm) (reg : Registry) (s : JState)
    (activity : Option ANativeActivity) (h : Ptr) (ctx : WindowContext)
    (hh : h ≠ 0) (hreg : reg.find h = some ctx) :
    (Destroy j (Destroy j reg s activity h).registry (Destroy j reg s activity h).st
        activity h).registry = (Destroy j reg s activity h).registry ∧
    (Destroy j (Destroy j reg s activity h).registry (Destroy j reg s activity h).st
        activity h).st =
      { pending := (Destroy j reg s activity h).st.pending,
        trace := (Destroy j reg s activity h).st.trace ++ [.ANativeWindow_release h] } := by
  have hu := Destroy_untracked j (reg.erase h)
    (ctx.Release (Destroy.teardown j activity ctx s)).st activity h
    (Registry.find_erase_self reg h)
  rw [Destroy_registered j reg s activity h ctx hh hreg]
  exact ⟨hu.1, hu.2.2 hh⟩

/-- C4, evaluated on the registry holding the window `5`. -/
theorem C4_second_destroy_releases_again_witness :
    (5 : Ptr) ≠ 0 ∧ Examples.registry5.find 5 = some Examples.context5 ∧
    (Destroy Examples.jvm
        (Destroy Examples.jvm Examples.registry5 Examples.s0 (some Examples.activity) 5).registry
        (Destroy Examples.jvm Examples.registry5 Examples.s0 (some Examples.activity) 5).st
        (some Examples.activity) 5).st =
      { pending :=
          (Destroy Examples.jvm Examples.registry5 Examples.s0 (some Examples.activity) 5).st.pending,
        trace :=
          (Destroy Examples.jvm Examples.registry5 Examples.s0 (some Examples.activity) 5).st.trace
            ++ [.ANativeWindow_release 5] } :=
  ⟨by decide, by decide,
   (C4_second_destroy_releases_again Examples.jvm Examples.registry5 Examples.s0
     (some Examples.activity) 5 Examples.context5 (by decide) (by decide)).2⟩

/-- C4 as stated fails: destroying the registered window `5` twice does not
give the state of destroying it once, the second call releases the native
window again. -/
theorem C4_destroy_twice_counterexample :
    (Destroy Examples.jvm
        (Destroy Examples.jvm Examples.registry5 Examples.s0 (some Examples.activity) 5).registry
        (Destroy Examples.jvm Examples.registry5 Examples.s0 (some Examples.activity) 5).st
        (some Examples.activity) 5).st ≠
      (Destroy Examples.jvm Examples.registry5 Examples.s0 (some Examples.activity) 5).st ∧
    nativeReleases
      (Destroy Examples.jvm Examples.registry5 Examples.s0 (some Examples.activity) 5).st.trace
      = [5] ∧
    nativeReleases
      (Destroy Examples.jvm
        (Destroy Examples.jvm Examples.registry5 Examples.s0 (some Examples.activity) 5).registry
        (Destroy Examples.jvm Examples.registry5 Examples.s0 (some Examples.activity) 5).st
        (some Examples.activity) 5).st.trace = [5, 5] := by
  decide

/-- C5: for a handle that is not a key of the registry, `GetWindowSize` returns
false, leaves the integers behind both out-pointers as they were and leaves the
registry unchanged; and for every handle neither `IsValid` nor `GetWindowSize`
changes the registry. -/
theorem C5_queries_are_reads (reg : Registry) (h : Ptr) (outWidth outHeight : Option Int)
    (hkey : reg.find h = none) :
    (GetWindowSize reg h outWidth outHeight).val = ⟨false, outWidth, outHeight⟩ ∧
    (GetWindowSize reg h outWidth outHeight).registry = reg ∧
    ∀ (k : Ptr) (w t : Option Int),
      (IsValid reg k).registry = reg ∧ (GetWindowSize reg k w t).registry = reg := by
  refine ⟨?_, ?_, ?_⟩
  · simp [GetWindowSize, hkey]
  · simp [GetWindowSize, hkey]
  · intro k w t
    refine ⟨rfl, ?_⟩
    unfold GetWindowSize
    cases reg.find k <;> rfl

/-- C5, evaluated: the handle `6` is not in the registry holding `5`, and the
integers `7` and `8` behind the out-pointers stay. -/
theorem C5_queries_are_reads_witness :
    Examples.registry5.find 6 = none ∧
    (GetWindowSize Examples.registry5 6 (some 7) (some 8)).val = ⟨false, some 7, some 8⟩ :=
  ⟨by decide, (C5_queries_are_reads Examples.registry5 6 (some 7) (some 8) (by decide)).1⟩

/-- C9: for a handle that is not a key of the registry, `Destroy` leaves the
registry unchanged; for null it does nothing at all, and for a non-null handle
the only call it issues is one `ANativeWindow_release` of that handle, so no
transaction is issued. -/
theorem C9_destroy_untracked (j : Jvm) (reg : Registry) (s : JState)
    (activity : Option ANativeActivity) (h : Ptr) (hkey : reg.find h = none) :
    (Destroy j reg s activity h).registry = reg ∧
    (h = 0 → (Destroy j reg s activity h).st = s) ∧
    (h ≠ 0 → (Destroy j reg s activity h).st =
      { pending := s.pending, trace := s.trace ++ [.ANativeWindow_release h] }) :=
  Destroy_untracked j reg s activity h hkey

/-- C9, evaluated: the handle `6` was never created. -/
theorem C9_destroy_untracked_witness :
    Examples.registry5.find 6 = none ∧
    (Destroy Examples.jvm Examples.registry5 Examples.s0 (some Examples.activity) 6).st =
      { pending := false, trace := [.ANativeWindow_release 6] } :=
  ⟨by decide,
   (C9_destroy_untracked Examples.jvm Examples.registry5 Examples.s0 (some Examples.activity) 6
     (by decide)).2.2 (by decide)⟩

/-- C10: for a registered handle whose context holds its native window and both
durable references, `Destroy` removes exactly that entry, and after whatever
the teardown transaction issued (which releases nothing) it issues the release
of the native window and the deletion of both durable references; this holds
for every activity and runtime, so also when the teardown transaction cannot
be applied. -/
theorem C10_destroy_registered (j : Jvm) (reg : Registry) (s : JState)
    (activity : Option ANativeActivity) (h : Ptr) (ctx : WindowContext) (gs gsc : GlobalRef)
    (hh : h ≠ 0) (hreg : reg.find h = some ctx) (hnw : ctx.nativeWindow ≠ 0)
    (hs : ctx.surface = some gs) (hgs : gs.env ≠ 0 ∧ gs.obj ≠ 0)
    (hsc : ctx.surfaceControl = some gsc) (hgsc : gsc.env ≠ 0 ∧ gsc.obj ≠ 0) :
    (Destroy j reg s activity h).registry.find h = none ∧
    (∀ k, k ≠ h → (Destroy j reg s activity h).registry.find k = reg.find k) ∧
    (Destroy j reg s activity h).st.trace =
      (Destroy.teardown j activity ctx s).trace ++
        [.ANativeWindow_release ctx.nativeWindow, .DeleteGlobalRef gs.obj,
         .DeleteGlobalRef gsc.obj] ∧
    Emits Quiet s (Destroy.teardown j activity ctx s) := by
  rw [Destroy_registered j reg s activity h ctx hh hreg]
  refine ⟨Registry.find_erase_self reg h, fun k hk => Registry.find_erase_of_ne reg hk, ?_, ?_⟩
  · simp only [WindowContext.Release_trace ctx gs gsc _ hnw hs hgs hsc hgsc]
  · exact Destroy.teardown_emits (JMethod.sub_all _) quiet_of_uses j activity ctx (Emits.refl _ _)

/-- C10, evaluated with a null activity: no transaction can be applied, the
entry of the window `5` is erased and its three resources are released. -/
theorem C10_destroy_registered_witness :
    Examples.registry5.find 5 = some Examples.context5 ∧
    (Destroy Examples.jvm Examples.registry5 Examples.s0 none 5).registry.find 5 = none ∧
    (Destroy Examples.jvm Examples.registry5 Examples.s0 none 5).st.trace =
      (Destroy.teardown Examples.jvm none Examples.context5 Examples.s0).trace ++
        [.ANativeWindow_release 5, .DeleteGlobalRef 1224, .DeleteGlobalRef 1050] :=
  ⟨by decide,
   (C10_destroy_registered Examples.jvm Examples.registry5 Examples.s0 none 5 Examples.context5
     ⟨11, 1224⟩ ⟨11, 1050⟩ (by decide) (by decide) (by decide) rfl (by decide) rfl
     (by decide)).1,
   (C10_destroy_registered Examples.jvm Examples.registry5 Examples.s0 none 5 Examples.context5
     ⟨11, 1224⟩ ⟨11, 1050⟩ (by decide) (by decide) (by decide) rfl (by decide) rfl
     (by decide)).2.2.1⟩

/-- C6: when both requested dimensions are non-positive and `Create` returns a
non-null handle not yet a key of the registry, the registered context holds
the width and height of the display query of that call, `GetWindowSize`
reports them, `IsValid` is true, and every `setBufferSize` invocation issued
during the call passes them. -/
theorem C6_nonpositive_request_takes_display_size (j : Jvm) (reg : Registry) (s : JState)
    (act : ANativeActivity) (options : CreateOptions) (w0 h0 : Int)
    (hw : options.width ≤ 0) (hh : options.height ≤ 0)
    (hret : (Create j reg s (some act) options).val ≠ 0)
    (hfresh : reg.find (Create j reg s (some act) options).val = none) :
    (∃ ctx, (Create j reg s (some act) options).registry.find
        (Create j reg s (some act) options).val = some ctx ∧
      ctx.width = (Create.displayInfo j act s).val.width ∧
      ctx.height = (Create.displayInfo j act s).val.height) ∧
    (IsValid (Create j reg s (some act) options).registry
      (Create j reg s (some act) options).val).val = true ∧
    (GetWindowSize (Create j reg s (some act) options).registry
      (Create j reg s (some act) options).val (some w0) (some h0)).val =
      ⟨true, some (Create.displayInfo j act s).val.width,
        some (Create.displayInfo j act s).val.height⟩ ∧
    Emits (Event.sizedAs (Create.displayInfo j act s).val.width
        (Create.displayInfo j act s).val.height) s (Create j reg s (some act) options).st := by
  have hsize : (Create.size j act options s).val =
      ((Create.displayInfo j act s).val.width, (Create.displayInfo j act s).val.height) := by
    simp [Create.size, hw, hh]
  rcases Create_null_or_passes j reg s act options with ⟨hz, _⟩ | hp
  · exact absurd hz hret
  · obtain ⟨hv, hr⟩ := Create_of_passes j reg s act options hp
    have hfind : (Create j reg s (some act) options).registry.find
        (Create j reg s (some act) options).val = some (Create.context j act options s) := by
      rw [hv] at hfresh
      rw [hr, hv]
      exact Registry.find_emplace_self reg _ _ hfresh
    refine ⟨⟨_, hfind, ?_, ?_⟩, (IsValid_of_passes j reg s act options hp).2, ?_, ?_⟩
    · simp [Create.context, Create.context0, hsize]
    · simp [Create.context, Create.context0, hsize]
    · simp [GetWindowSize, hfind, Create.context, Create.context0, hsize]
    · have hP : ∀ ev : Event, ev.uses (JMethod.allBut [.setBufferSize]) = true →
          ev.sizedAs (Create.displayInfo j act s).val.width
            (Create.displayInfo j act s).val.height :=
        fun ev hev => Event.sizedAs_of_uses _ _ ev hev
      have hsub : ∀ ms : List JMethod, (∀ m ∈ ms, m ∉ [JMethod.setBufferSize]) →
          ms ⊆ JMethod.allBut [.setBufferSize] := fun ms h => JMethod.sub_allBut h
      refine Create_emits j act options s (hsub _ (by decide)) hP
        (fun ev hev => Event.sizedAs_of_resource _ _ ev hev) reg ?_ ?_
      · intro hb0
        refine Create.builder_emits_of j act options s (hsub _ (by decide)) hP ?_ ?_ hb0
        · intro b u hu
          rw [hsize]
          refine SurfaceControl.Builder.SetBufferSize_emits_args ?_ ?_ j b hu
          · intro cls obj args he
            exact Event.noConfusion he
          · intro obj obj' args he
            injection he with _ _ hargs
            exact hargs.symm
        · intro _ b u hu
          exact SurfaceControl.Builder.SetParent_emits (hsub _ (by decide)) hP j b _ hu
      · intro ht0
        exact Create.transaction_step j act options s (hsub _ (by decide)) hP ht0

/-- C6, evaluated: options `{name = "Overlay", width = -1, height = -1,
skipScreenshot = true}` on a 1080x2400 display give `GetWindowSize` equal to
`(1080, 2400)`, and `setBufferSize` is invoked with `(1080, 2400)`. -/
theorem C6_nonpositive_request_takes_display_size_witness :
    Examples.overlayOptions.width ≤ 0 ∧ Examples.overlayOptions.height ≤ 0 ∧
    (Create Examples.jvm Registry.empty Examples.s0 (some Examples.activity)
      Examples.overlayOptions).val ≠ 0 ∧
    (IsValid (Create Examples.jvm Registry.empty Examples.s0 (some Examples.activity)
        Examples.overlayOptions).registry
      (Create Examples.jvm Registry.empty Examples.s0 (some Examples.activity)
        Examples.overlayOptions).val).val = true ∧
    (GetWindowSize (Create Examples.jvm Registry.empty Examples.s0 (some Examples.activity)
        Examples.overlayOptions).registry
      (Create Examples.jvm Registry.empty Examples.s0 (some Examples.activity)
        Examples.overlayOptions).val (some 0) (some 0)).val = ⟨true, some 1080, some 2400⟩ ∧
    Event.CallObjectMethod 221 (some .setBufferSize) [.int 1080, .int 2400] ∈
      (Create Examples.jvm Registry.empty Examples.s0 (some Examples.activity)
        Examples.overlayOptions).st.trace := by
  have h := C6_nonpositive_request_takes_display_size Examples.jvm Registry.empty Examples.s0
    Examples.activity Examples.overlayOptions 0 0 (by decide) (by decide) (by decide) (by decide)
  refine ⟨by decide, by decide, by decide, h.2.1, ?_, by decide⟩
  rw [h.2.2.1]
  decide

/-- C7, as the code has it: when the parent-surface lookup yields null with no
runtime exception pending, and the builder construction, the build, the surface
wrap (each leaving no exception pending) and the native-handle extraction
succeed, `Create` returns a non-null registered handle and no event of the call
looks up or invokes `setParent`. -/
theorem C7_null_parent_without_exception (j : Jvm) (reg : Registry) (s : JState)
    (act : ANativeActivity) (options : CreateOptions)
    (hvm : act.vm ≠ 0) (hclazz : act.clazz ≠ 0)
    (hattach : (Create.jniEnv j act s).val.IsValid = true)
    (hparent : (Create.parentSC j act options s).val = 0)
    (hquiet : (Create.parentSC j act options s).st.pending = false)
    (hbuilder : (Create.builder0 j act options s).val.IsValid = true)
    (hbuild : (Create.localSurfaceControl j act options s).val ≠ 0 ∧
      (Create.localSurfaceControl j act options s).st.pending = false)
    (hwrap : (Create.localSurface j act options s).val ≠ 0 ∧
      (Create.localSurface j act options s).st.pending = false)
    (hnative : (Create.nativeWindow j act options s).val ≠ 0) :
    (Create j reg s (some act) options).val ≠ 0 ∧
    (IsValid (Create j reg s (some act) options).registry
      (Create j reg s (some act) options).val).val = true ∧
    Emits (Event.avoids [.setParent]) s (Create j reg s (some act) options).st := by
  have hp : Create.Passes j act options s := by
    refine ⟨hvm, hclazz, hattach, ?_, hbuilder, ?_, ?_, hnative⟩
    · simp only [Create.parentCheck, hparent, if_true]
      exact CheckException_of_not_pending _ _ hquiet
    · simp only [Create.buildCheck, hbuild.1, if_false]
      exact CheckException_of_not_pending _ _ hbuild.2
    · simp only [Create.surfaceCheck, hwrap.1, if_false]
      exact CheckException_of_not_pending _ _ hwrap.2
  have hI := IsValid_of_passes j reg s act options hp
  refine ⟨hI.1, hI.2, ?_⟩
  have hP : ∀ ev : Event, ev.uses (JMethod.allBut [.setParent]) = true →
      ev.avoids [.setParent] := fun ev hev => Event.avoids_of_uses _ ev hev
  have hsub : ∀ ms : List JMethod, (∀ m ∈ ms, m ∉ [JMethod.setParent]) →
      ms ⊆ JMethod.allBut [.setParent] := fun ms h => JMethod.sub_allBut h
  refine Create_emits j act options s (hsub _ (by decide)) hP
    (fun ev hev => Event.avoids_of_resource _ ev hev) reg ?_ ?_
  · intro hb0
    refine Create.builder_emits_of j act options s (hsub _ (by decide)) hP ?_ ?_ hb0
    · intro b u hu
      exact SurfaceControl.Builder.SetBufferSize_emits (hsub _ (by decide)) hP j b _ _ hu
    · intro hne
      exact absurd hparent hne
  · intro ht0
    exact Create.transaction_step j act options s (hsub _ (by decide)) hP ht0

/-- C7, evaluated: the host window is not attached (`getWindow` returns null,
nothing raises) and every other step succeeds. -/
theorem C7_null_parent_without_exception_witness :
    (Create.parentSC Examples.jvmNoWindow Examples.activity Examples.overlayOptions
      Examples.s0).val = 0 ∧
    (Create Examples.jvmNoWindow Registry.empty Examples.s0 (some Examples.activity)
      Examples.overlayOptions).val ≠ 0 ∧
    (IsValid (Create Examples.jvmNoWindow Registry.empty Examples.s0 (some Examples.activity)
        Examples.overlayOptions).registry
      (Create Examples.jvmNoWindow Registry.empty Examples.s0 (some Examples.activity)
        Examples.overlayOptions).val).val = true :=
  ⟨by decide,
   (C7_null_parent_without_exception Examples.jvmNoWindow Registry.empty Examples.s0
     Examples.activity Examples.overlayOptions (by decide) (by decide) (by decide) (by decide)
     (by decide) (by decide) (by decide) (by decide) (by decide)).1,
   (C7_null_parent_without_exception Examples.jvmNoWindow Registry.empty Examples.s0
     Examples.activity Examples.overlayOptions (by decide) (by decide) (by decide) (by decide)
     (by decide) (by decide) (by decide) (by decide) (by decide)).2.1⟩

/-- C7 as stated fails: `getWindow` raises and returns null, so the lookup
yields null; the builder construction, the build, the surface wrap and the
native-handle extraction would all succeed, yet `Create` returns null and
registers nothing. -/
theorem C7_null_parent_counterexample :
    (Create.parentSC Examples.jvmWindowThrows Examples.activity Examples.overlayOptions
      Examples.s0).val = 0 ∧
    (Create.builder0 Examples.jvmWindowThrows Examples.activity Examples.overlayOptions
      Examples.s0).val.IsValid = true ∧
    (Create.buildCheck Examples.jvmWindowThrows Examples.activity Examples.overlayOptions
      Examples.s0).val = false ∧
    (Create.surfaceCheck Examples.jvmWindowThrows Examples.activity Examples.overlayOptions
      Examples.s0).val = false ∧
    (Create.nativeWindow Examples.jvmWindowThrows Examples.activity Examples.overlayOptions
      Examples.s0).val ≠ 0 ∧
    (Create Examples.jvmWindowThrows Registry.empty Examples.s0 (some Examples.activity)
      Examples.overlayOptions).val = 0 ∧
    (IsValid (Create Examples.jvmWindowThrows Registry.empty Examples.s0 (some Examples.activity)
        Examples.overlayOptions).registry
      (Create.nativeWindow Examples.jvmWindowThrows Examples.activity Examples.overlayOptions
        Examples.s0).val).val = false := by
  decide

/-- C11: for a valid builder whose class has `setFlags`, `SetSkipScreenshot(true)`
issues the lookup of `setFlags` and then exactly one `setFlags` invocation, whose
flags and mask arguments are both `0x40`, the value of
`SurfaceControlFlags::eSkipScreenshot`; `SetSkipScreenshot(false)` issues nothing
and leaves the builder unchanged. -/
theorem C11_skip_screenshot_flag (j : Jvm) (s : JState) (b : SurfaceControl.Builder)
    (hvalid : b.builder ≠ 0) (hm : j.hasMethod b.builderClass .setFlags = true) :
    (SurfaceControl.Builder.SetSkipScreenshot j b true s).st.trace =
      s.trace ++ [.GetMethodID b.builderClass .setFlags,
        .CallObjectMethod b.builder (some .setFlags) [.int 0x40, .int 0x40]] ∧
    invocations [Event.GetMethodID b.builderClass .setFlags,
        .CallObjectMethod b.builder (some .setFlags) [.int 0x40, .int 0x40]] =
      [(.setFlags, [.int 0x40, .int 0x40])] ∧
    SurfaceControlFlags.eSkipScreenshot.toNat = 0x40 ∧
    SurfaceControl.Builder.SetSkipScreenshot j b false s = ⟨b, s⟩ := by
  refine ⟨?_, rfl, rfl, rfl⟩
  simp [SurfaceControl.Builder.SetSkipScreenshot, SurfaceControl.Builder.SetFlags, hvalid, hm,
    JNIEnv.GetMethodID, JNIEnv.CallObjectMethod, JState.risky,
    SurfaceControl.Builder.FLAG_SKIP_SCREENSHOT, toJint]

/-- C11, evaluated on the builder that `Create` constructs on the sample runtime. -/
theorem C11_skip_screenshot_flag_witness :
    (SurfaceControl.Builder.SetSkipScreenshot Examples.jvm ⟨11, 221, 21⟩ true Examples.s0).st.trace
      = [.GetMethodID 21 .setFlags, .CallObjectMethod 221 (some .setFlags) [.int 0x40, .int 0x40]] :=
  (C11_skip_screenshot_flag Examples.jvm Examples.s0 ⟨11, 221, 21⟩ (by decide) (by decide)).1

/-- C12, evaluated: on a runtime whose display class has no `getRefreshRate`
the query obtains 1080x2400, and `ANwCreator::GetDisplayInfo` returns them with
the refresh rate `0.0f`, not the `60.0f` of the `DisplayInfo` constructor. -/
theorem C12_absent_refresh_rate_gives_zero :
    (GetDisplayInfo Examples.jvmNoRefreshRate Examples.s0 (some Examples.activity)).val =
      { theta := 0, width := 1080, height := 2400, refreshRate := 0 } ∧
    (GetDisplayInfo Examples.jvmNoRefreshRate Examples.s0 (some Examples.activity)).val.refreshRate
      ≠ float_60_0 ∧
    ({} : DisplayInfo).refreshRate = float_60_0 := by
  decide

/-- C13: when the activity, its vm and its clazz are non-null and the thread
attaches, `GetDisplayInfo` returns the width and height of the reflective
display query unchanged and, for a rotation `r` of the query in `{0, 1, 2, 3}`,
`theta = 90 * r`, one of 0, 90, 180, 270; when the activity, its vm or its
clazz is null it returns width 0, height 0 and theta 0. -/
theorem C13_theta_is_quarter_turns (j : Jvm) (s : JState) :
    (∀ act : ANativeActivity, act.vm ≠ 0 → act.clazz ≠ 0 →
      (JNIEnvironment.ctor j act.vm s).val.IsValid = true →
      (GetDisplayInfo j s (some act)).val.width =
        (Display.GetDisplayInfo j (JNIEnvironment.ctor j act.vm s).val.env (some act)
          (JNIEnvironment.ctor j act.vm s).st).val.width ∧
      (GetDisplayInfo j s (some act)).val.height =
        (Display.GetDisplayInfo j (JNIEnvironment.ctor j act.vm s).val.env (some act)
          (JNIEnvironment.ctor j act.vm s).st).val.height ∧
      ∀ r : Int, r ∈ [0, 1, 2, 3] →
        (Display.GetDisplayInfo j (JNIEnvironment.ctor j act.vm s).val.env (some act)
          (JNIEnvironment.ctor j act.vm s).st).val.rotation = r →
        (GetDisplayInfo j s (some act)).val.theta = 90 * r ∧
        (GetDisplayInfo j s (some act)).val.theta ∈ [0, 90, 180, 270]) ∧
    (∀ activity : Option ANativeActivity,
      (activity = none ∨ ∃ act, activity = some act ∧ (act.vm = 0 ∨ act.clazz = 0)) →
      (GetDisplayInfo j s activity).val.width = 0 ∧
      (GetDisplayInfo j s activity).val.height = 0 ∧
      (GetDisplayInfo j s activity).val.theta = 0) := by
  constructor
  · intro act hvm hclazz hattach
    have hG : GetDisplayInfo j s (some act) =
        ⟨{ width := (Display.GetDisplayInfo j (JNIEnvironment.ctor j act.vm s).val.env (some act)
              (JNIEnvironment.ctor j act.vm s).st).val.width,
           height := (Display.GetDisplayInfo j (JNIEnvironment.ctor j act.vm s).val.env
              (some act) (JNIEnvironment.ctor j act.vm s).st).val.height,
           theta := wrapInt32 (90 * (Display.GetDisplayInfo j
              (JNIEnvironment.ctor j act.vm s).val.env (some act)
              (JNIEnvironment.ctor j act.vm s).st).val.rotation),
           refreshRate := (Display.GetDisplayInfo j (JNIEnvironment.ctor j act.vm s).val.env
              (some act) (JNIEnvironment.ctor j act.vm s).st).val.refreshRate },
         (Display.GetDisplayInfo j (JNIEnvironment.ctor j act.vm s).val.env (some act)
              (JNIEnvironment.ctor j act.vm s).st).st⟩ := by
      unfold GetDisplayInfo
      simp only [hvm, hclazz, or_self, if_false, hattach, Bool.true_eq_false]
    rw [hG]
    refine ⟨rfl, rfl, ?_⟩
    intro r hr hrot
    simp only [hrot]
    simp only [List.mem_cons, List.mem_singleton, List.not_mem_nil, or_false] at hr
    rcases hr with h | h | h | h <;> subst h <;> simp [wrapInt32]
  · intro activity h
    rcases h with h | ⟨act, h, hz⟩
    · subst h
      exact ⟨rfl, rfl, rfl⟩
    · subst h
      have : GetDisplayInfo j s (some act) = ⟨{}, s⟩ := by
        unfold GetDisplayInfo
        simp only [hz, if_true]
      rw [this]
      exact ⟨rfl, rfl, rfl⟩

/-- C13, evaluated: a display rotated by three quarter turns gives theta 270. -/
theorem C13_theta_is_quarter_turns_witness :
    (GetDisplayInfo Examples.jvmRotated Examples.s0 (some Examples.activity)).val.theta = 270 := by
  have h := ((C13_theta_is_quarter_turns Examples.jvmRotated Examples.s0).1 Examples.activity
    (by decide) (by decide) (by decide)).2.2 3 (by decide) (by decide)
  simpa using h.1

/-- C14, as the code has it: a `GlobalRef` constructed from a non-null env and
a non-null object for which `NewGlobalRef` returned a reference is valid; its
first `Release()` issues exactly one `DeleteGlobalRef`, of that reference, and
makes it invalid; every later `Release()` and the destructor issue nothing. A
`GlobalRef` constructed from a null env or a null object, or for which
`NewGlobalRef` returned null, is invalid and its `Release()` issues nothing. -/
theorem C14_release_exactly_once (j : Jvm) (e o : Ptr) (s t u : JState) :
    (e ≠ 0 → o ≠ 0 → j.newGlobalRef o ≠ 0 →
      (GlobalRef.ctor j e o s).val.IsValid = true ∧
      ((GlobalRef.ctor j e o s).val.Release t).st.trace =
        t.trace ++ [.DeleteGlobalRef (j.newGlobalRef o)] ∧
      ((GlobalRef.ctor j e o s).val.Release t).val.IsValid = false ∧
      (((GlobalRef.ctor j e o s).val.Release t).val.Release u).st = u ∧
      (((GlobalRef.ctor j e o s).val.Release t).val.Release u).val =
        ((GlobalRef.ctor j e o s).val.Release t).val ∧
      ((GlobalRef.ctor j e o s).val.Release t).val.dtor u = u) ∧
    (e = 0 ∨ o = 0 ∨ j.newGlobalRef o = 0 →
      (GlobalRef.ctor j e o s).val.IsValid = false ∧
      ((GlobalRef.ctor j e o s).val.Release t).st = t ∧
      (GlobalRef.ctor j e o s).val.dtor t = t) := by
  constructor
  · intro he ho hg
    simp [GlobalRef.ctor, GlobalRef.Release, GlobalRef.IsValid, GlobalRef.dtor, he, ho, hg,
      JState.log]
  · intro h
    rcases h with h | h | h
    · simp [GlobalRef.ctor, GlobalRef.Release, GlobalRef.IsValid, GlobalRef.dtor, h]
    · simp [GlobalRef.ctor, GlobalRef.Release, GlobalRef.IsValid, GlobalRef.dtor, h]
    · by_cases hc : e ≠ 0 ∧ o ≠ 0
      · simp [GlobalRef.ctor, GlobalRef.Release, GlobalRef.IsValid, GlobalRef.dtor, h, hc]
      · simp [GlobalRef.ctor, GlobalRef.Release, GlobalRef.IsValid, GlobalRef.dtor, hc]

/-- C14, evaluated: the surface control `50` promoted on the sample runtime is
deleted once, by the first `Release()`. -/
theorem C14_release_exactly_once_witness :
    released ((GlobalRef.ctor Examples.jvm 11 50 Examples.s0).val.Release Examples.s0).st.trace
      = [1050] ∧
    ((GlobalRef.ctor Examples.jvm 11 50 Examples.s0).val.Release Examples.s0).val.dtor Examples.s0
      = Examples.s0 := by
  have h := (C14_release_exactly_once Examples.jvm 11 50 Examples.s0 Examples.s0 Examples.s0).1
    (by decide) (by decide) (by decide)
  refine ⟨?_, h.2.2.2.2.2⟩
  rw [h.2.1]
  decide

/-- C14 as stated fails: env and object are non-null but `NewGlobalRef` returns
null; the wrapper is invalid from the start and its first `Release()` issues no
`DeleteGlobalRef`. -/
theorem C14_failed_promotion_counterexample :
    (11 : Ptr) ≠ 0 ∧ (50 : Ptr) ≠ 0 ∧
    (GlobalRef.ctor Examples.jvmNoGlobalRef 11 50 Examples.s0).val.IsValid = false ∧
    released ((GlobalRef.ctor Examples.jvmNoGlobalRef 11 50 Examples.s0).val.Release
      (GlobalRef.ctor Examples.jvmNoGlobalRef 11 50 Examples.s0).st).st.trace = [] := by
  decide

/-- C15, evaluated: `build` raises and returns null; `Create` returns null with
the exception still pending, no `ExceptionCheck` or `ExceptionClear` having
been issued after the `build` call. -/
theorem C15_build_exception_stays_pending :
    (Create.localSurfaceControl Examples.jvmBuildThrows Examples.activity Examples.overlayOptions
      Examples.s0).val = 0 ∧
    (Create Examples.jvmBuildThrows Registry.empty Examples.s0 (some Examples.activity)
      Examples.overlayOptions).val = 0 ∧
    (Create Examples.jvmBuildThrows Registry.empty Examples.s0 (some Examples.activity)
      Examples.overlayOptions).st.pending = true ∧
    Event.ExceptionClear ∉
      (Create Examples.jvmBuildThrows Registry.empty Examples.s0 (some Examples.activity)
        Examples.overlayOptions).st.trace ∧
    (Create Examples.jvmWindowThrows Registry.empty Examples.s0 (some Examples.activity)
      Examples.overlayOptions).st.pending = false := by
  decide

/-- C16, as the code has it: in a `Create` call whose transaction object is valid, the
block of the initial transaction invokes, in this order and at most once each,
`setAlpha` with alpha `1.0f`, `setLayer` with `z = 0x7FFFFFFE = 2^31 - 2`, `show`
and `apply`, the first three on the durable reference to the new surface
control. It invokes exactly these four if and only if that reference is
non-null, the four methods resolve on the transaction class and the transaction
object is still non-null after the three chained mutators, that is when
`Apply()` is reached. When the durable reference is null the mutators are
skipped and the block invokes `apply` alone. The whole call neither looks up nor
invokes `hide` or `remove`. -/
theorem C16_initial_transaction (j : Jvm) (reg : Registry) (s : JState) (act : ANativeActivity)
    (options : CreateOptions)
    (hvalid : (Create.transaction0 j act options s).val.IsValid = true) :
    (∃ l, Calls (Create.transaction0 j act options s).st (Create.transaction j act options s) l ∧
      l.Sublist (Create.initialTransaction (Create.surfaceControl j act options s).val.get) ∧
      (l = Create.initialTransaction (Create.surfaceControl j act options s).val.get ↔
        (Create.surfaceControl j act options s).val.get ≠ 0 ∧
        (∀ m ∈ [JMethod.setAlpha, .setLayer, .show_, .apply],
          j.hasMethod (Create.transaction0 j act options s).val.transactionClass m = true) ∧
        (Create.mutators j act options s).val.IsValid = true) ∧
      ((Create.surfaceControl j act options s).val.get = 0 →
        l = if j.hasMethod (Create.transaction0 j act options s).val.transactionClass .apply
          then [(JMethod.apply, [])] else [])) ∧
    Create.transaction j act options s =
      SurfaceControl.Transaction.dtor (Create.mutators j act options s).val
        (SurfaceControl.Transaction.Apply j (Create.mutators j act options s).val
          (Create.mutators j act options s).st) ∧
    Emits (Event.avoids [.hide, .remove]) s (Create j reg s (some act) options).st ∧
    Create.initialTransaction (Create.surfaceControl j act options s).val.get =
      [(.setAlpha, [.obj (Create.surfaceControl j act options s).val.get, .float float_1_0]),
       (.setLayer, [.obj (Create.surfaceControl j act options s).val.get, .int (2 ^ 31 - 2)]),
       (.show_, [.obj (Create.surfaceControl j act options s).val.get]), (.apply, [])] := by
  refine ⟨Create.transaction_calls j act options s hvalid,
    Create.transaction_of_valid j act options s hvalid, ?_, rfl⟩
  have hP : ∀ ev : Event, ev.uses (JMethod.allBut [.hide, .remove]) = true →
      ev.avoids [.hide, .remove] := fun ev hev => Event.avoids_of_uses _ ev hev
  have hsub : ∀ ms : List JMethod, (∀ m ∈ ms, m ∉ [JMethod.hide, JMethod.remove]) →
      ms ⊆ JMethod.allBut [.hide, .remove] := fun ms h => JMethod.sub_allBut h
  refine Create_emits j act options s (hsub _ (by decide)) hP
    (fun ev hev => Event.avoids_of_resource _ ev hev) reg ?_ ?_
  · intro hb0
    exact Create.builder_step j act options s (hsub _ (by decide)) hP hb0
  · intro ht0
    exact Create.transaction_step j act options s (hsub _ (by decide)) hP ht0

/-- C16, evaluated where the host window is not attached and on the
sample runtime: the durable reference is `1050`, the four methods resolve, the
transaction is still valid after the mutators, and the block invokes exactly the
four methods. -/
theorem C16_initial_transaction_witness :
    ((Create.transaction0 Examples.jvmNoWindow Examples.activity Examples.overlayOptions
        Examples.s0).val.IsValid = true ∧
      (Create.surfaceControl Examples.jvmNoWindow Examples.activity Examples.overlayOptions
        Examples.s0).val.get = 1050 ∧
      Calls
        (Create.transaction0 Examples.jvmNoWindow Examples.activity Examples.overlayOptions
          Examples.s0).st
        (Create.transaction Examples.jvmNoWindow Examples.activity Examples.overlayOptions
          Examples.s0)
        (Create.initialTransaction
          (Create.surfaceControl Examples.jvmNoWindow Examples.activity Examples.overlayOptions
            Examples.s0).val.get)) ∧
    ((Create.transaction0 Examples.jvm Examples.activity Examples.overlayOptions
        Examples.s0).val.IsValid = true ∧
      Calls
        (Create.transaction0 Examples.jvm Examples.activity Examples.overlayOptions
          Examples.s0).st
        (Create.transaction Examples.jvm Examples.activity Examples.overlayOptions Examples.s0)
        (Create.initialTransaction
          (Create.surfaceControl Examples.jvm Examples.activity Examples.overlayOptions
            Examples.s0).val.get) ∧
      Emits (Event.avoids [.hide, .remove]) Examples.s0
        (Create Examples.jvm Registry.empty Examples.s0 (some Examples.activity)
          Examples.overlayOptions).st) := by
  refine ⟨⟨by decide, by decide, ?_⟩, by decide, ?_, ?_⟩
  · obtain ⟨l, hc, _, hiff, _⟩ :=
      (C16_initial_transaction Examples.jvmNoWindow Registry.empty Examples.s0 Examples.activity
        Examples.overlayOptions (by decide)).1
    rw [← hiff.2 ⟨by decide, by decide, by decide⟩]
    exact hc
  · obtain ⟨l, hc, _, hiff, _⟩ :=
      (C16_initial_transaction Examples.jvm Registry.empty Examples.s0 Examples.activity
        Examples.overlayOptions (by decide)).1
    rw [← hiff.2 ⟨by decide, by decide, by decide⟩]
    exact hc
  · exact (C16_initial_transaction Examples.jvm Registry.empty Examples.s0 Examples.activity
      Examples.overlayOptions (by decide)).2.2.1

/-- C16 as stated fails: `NewGlobalRef` returns null for the built surface
control, so the durable reference is null while the call reaches the
transaction step and the transaction object is valid; the three mutators are
then skipped and the whole call invokes, of the transaction methods, `apply`
alone. -/
theorem C16_null_reference_counterexample :
    (Create.buildCheck Examples.jvmNoGlobalRef Examples.activity Examples.overlayOptions
      Examples.s0).val = false ∧
    (Create.surfaceControl Examples.jvmNoGlobalRef Examples.activity Examples.overlayOptions
      Examples.s0).val.get = 0 ∧
    (Create.transaction0 Examples.jvmNoGlobalRef Examples.activity Examples.overlayOptions
      Examples.s0).val.IsValid = true ∧
    invocations ((Create.transaction Examples.jvmNoGlobalRef Examples.activity
        Examples.overlayOptions Examples.s0).trace.drop
      (Create.transaction0 Examples.jvmNoGlobalRef Examples.activity Examples.overlayOptions
        Examples.s0).st.trace.length) = [(.apply, [])] ∧
    (invocations (Create Examples.jvmNoGlobalRef Registry.empty Examples.s0
        (some Examples.activity) Examples.overlayOptions).st.trace).filter
      (fun c => decide (c.1 ∈ SurfaceControl.Transaction.mutators)) = [(.apply, [])] := by
  decide

/-- C17: on a builder that failed to construct, `SetName`, `SetParent`,
`SetBufferSize`, `SetFlags` and `SetSkipScreenshot` issue no call and return
the builder unchanged and `Build()` returns null; on a valid builder a
configuration method whose backing method is absent returns the builder
unchanged. -/
theorem C17_builder_noop (j : Jvm) (s : JState) (b : SurfaceControl.Builder) (name : String)
    (parent : Ptr) (width height : Int) (flags mask : Nat) (skip : Bool) :
    (b.builder = 0 →
      SurfaceControl.Builder.SetName j b name s = ⟨b, s⟩ ∧
      SurfaceControl.Builder.SetParent j b parent s = ⟨b, s⟩ ∧
      SurfaceControl.Builder.SetBufferSize j b width height s = ⟨b, s⟩ ∧
      SurfaceControl.Builder.SetFlags j b flags mask s = ⟨b, s⟩ ∧
      SurfaceControl.Builder.SetSkipScreenshot j b skip s = ⟨b, s⟩ ∧
      SurfaceControl.Builder.Build j b s = ⟨0, s⟩) ∧
    (b.builder ≠ 0 →
      (j.hasMethod b.builderClass .setName = false →
        (SurfaceControl.Builder.SetName j b name s).val = b) ∧
      (j.hasMethod b.builderClass .setParent = false →
        (SurfaceControl.Builder.SetParent j b parent s).val = b) ∧
      (j.hasMethod b.builderClass .setBufferSize = false →
        (SurfaceControl.Builder.SetBufferSize j b width height s).val = b) ∧
      (j.hasMethod b.builderClass .setFlags = false →
        (SurfaceControl.Builder.SetFlags j b flags mask s).val = b ∧
        (SurfaceControl.Builder.SetSkipScreenshot j b skip s).val = b)) := by
  constructor
  · intro h
    refine ⟨?_, ?_, ?_, ?_, ?_, ?_⟩
    · simp [SurfaceControl.Builder.SetName, h]
    · simp [SurfaceControl.Builder.SetParent, h]
    · simp [SurfaceControl.Builder.SetBufferSize, h]
    · simp [SurfaceControl.Builder.SetFlags, h]
    · cases skip <;> simp [SurfaceControl.Builder.SetSkipScreenshot, SurfaceControl.Builder.SetFlags, h]
    · simp [SurfaceControl.Builder.Build, h]
  · intro h
    refine ⟨?_, ?_, ?_, ?_⟩
    · intro hm
      simp [SurfaceControl.Builder.SetName, h, JNIEnv.GetMethodID, hm]
    · intro hm
      by_cases hp : parent = 0
      · simp [SurfaceControl.Builder.SetParent, hp]
      · simp [SurfaceControl.Builder.SetParent, h, hp, JNIEnv.GetMethodID, hm]
    · intro hm
      simp [SurfaceControl.Builder.SetBufferSize, h, JNIEnv.GetMethodID, hm]
    · intro hm
      constructor
      · simp [SurfaceControl.Builder.SetFlags, h, JNIEnv.GetMethodID, hm]
      · cases skip <;>
          simp [SurfaceControl.Builder.SetSkipScreenshot, SurfaceControl.Builder.SetFlags, h,
            JNIEnv.GetMethodID, hm]

/-- C17, evaluated on a builder whose class was not found. -/
theorem C17_builder_noop_witness :
    SurfaceControl.Builder.Build Examples.jvm ⟨11, 0, 0⟩ Examples.s0 = ⟨0, Examples.s0⟩ ∧
    SurfaceControl.Builder.SetName Examples.jvm ⟨11, 0, 0⟩ "Overlay" Examples.s0 =
      ⟨⟨11, 0, 0⟩, Examples.s0⟩ :=
  ⟨((C17_builder_noop Examples.jvm Examples.s0 ⟨11, 0, 0⟩ "Overlay" 46 1080 2400 64 64 true).1
      rfl).2.2.2.2.2,
   ((C17_builder_noop Examples.jvm Examples.s0 ⟨11, 0, 0⟩ "Overlay" 46 1080 2400 64 64 true).1
      rfl).1⟩

/-- C18: every registry reachable from the empty one by `Create` and `Destroy`
calls has no null key, files every context under its own `nativeWindow` and
holds both reference wrappers in every context; hence in such a registry
`IsValid(h)` is true exactly when `GetWindowSize(h)` returns true. -/
theorem C18_registry_invariant (r : Registry) (hreach : Reachable r) :
    r.WellFormed ∧
    ∀ (h : Ptr) (outWidth outHeight : Option Int),
      (IsValid r h).val = true ↔ (GetWindowSize r h outWidth outHeight).val.found = true := by
  have hwf : r.WellFormed := by
    induction hreach with
    | empty => exact Registry.wellFormed_empty
    | create j s activity options _ ih => exact Create_wellFormed j _ s activity options ih
    | destroy j s activity h _ ih => exact Destroy_wellFormed j _ s activity h ih
  refine ⟨hwf, ?_⟩
  intro h ow oh
  unfold IsValid GetWindowSize Registry.count Registry.find
  by_cases h0 : h = 0
  · have : r 0 = none := hwf.1
    simp [h0, this]
  · cases hk : r h <;> simp [h0]

/-- C18, evaluated: the registry after a `Create` and a `Destroy` of another
handle is reachable, and the created handle `1225` is filed under itself. -/
theorem C18_registry_invariant_witness :
    (IsValid (Destroy Examples.jvm
        (Create Examples.jvm Registry.empty Examples.s0 (some Examples.activity)
          Examples.overlayOptions).registry Examples.s0 (some Examples.activity) 6).registry
      1225).val = true ↔
    (GetWindowSize (Destroy Examples.jvm
        (Create Examples.jvm Registry.empty Examples.s0 (some Examples.activity)
          Examples.overlayOptions).registry Examples.s0 (some Examples.activity) 6).registry
      1225 none none).val.found = true :=
  (C18_registry_invariant _
    (Reachable.destroy Examples.jvm Examples.s0 (some Examples.activity) 6
      (Reachable.create Examples.jvm Examples.s0 (some Examples.activity)
        Examples.overlayOptions Reachable.empty))).2 1225 none none

/-- C19: when exactly one requested dimension is positive, both resolved
dimensions, and those stored in the context, are the display query's; when
both are positive the resolved and stored dimensions are the requested ones
and no display query is made. -/
theorem C19_mixed_request_takes_display_size (j : Jvm) (s : JState) (act : ANativeActivity)
    (options : CreateOptions) :
    ((0 < options.width ∧ options.height ≤ 0) ∨ (options.width ≤ 0 ∧ 0 < options.height) →
      (Create.size j act options s).val =
        ((Create.displayInfo j act s).val.width, (Create.displayInfo j act s).val.height) ∧
      (Create.context j act options s).width = (Create.displayInfo j act s).val.width ∧
      (Create.context j act options s).height = (Create.displayInfo j act s).val.height) ∧
    (0 < options.width ∧ 0 < options.height →
      (Create.size j act options s).val = (options.width, options.height) ∧
      (Create.size j act options s).st = (Create.jniEnv j act s).st ∧
      (Create.context j act options s).width = options.width ∧
      (Create.context j act options s).height = options.height) := by
  constructor
  · intro h
    have hn : options.width ≤ 0 ∨ options.height ≤ 0 := by omega
    simp [Create.context, Create.context0, Create.size, hn]
  · intro h
    have hn : ¬(options.width ≤ 0 ∨ options.height ≤ 0) := by omega
    simp [Create.context, Create.context0, Create.size, hn]

/-- C19, evaluated: a request of 500 x -1 on the 1080x2400 display is
registered as 1080x2400. -/
theorem C19_mixed_request_takes_display_size_witness :
    (Create.size Examples.jvm Examples.activity { width := 500, height := -1 } Examples.s0).val
      = (1080, 2400) ∧
    (GetWindowSize (Create Examples.jvm Registry.empty Examples.s0 (some Examples.activity)
        { width := 500, height := -1 }).registry
      (Create Examples.jvm Registry.empty Examples.s0 (some Examples.activity)
        { width := 500, height := -1 }).val (some 0) (some 0)).val =
      ⟨true, some 1080, some 2400⟩ := by
  have h := (C19_mixed_request_takes_display_size Examples.jvm Examples.s0 Examples.activity
    { width := 500, height := -1 }).1 (Or.inl (by decide))
  refine ⟨?_, by decide⟩
  rw [h.1]
  decide

end ANwCreator

end android

namespace Memory

/-- C20, evaluated on 64-bit words: a record of the requested module with no
`PT_LOAD` segment makes the callback return 1 with `BaseAddr` left at 0,
`EndAddr` set to 0 and `Size` set to `0 - UINTPTR_MAX = 1`, which is not
`EndAddr - BaseAddr`. -/
theorem C20_no_load_segment_gives_size_one :
    loadStarts 64 Examples.noLoad = [] ∧
    FindModuleCallback 64 (some Examples.noLoad) (some Examples.data) =
      (1, some ⟨"libUE4.so", 0, 0, 1⟩) := by
  decide

end Memory

namespace android

end android
